import Mathlib

/-!
# Autopilot interface and GPS relay

A shallow embedding of `c_uart_interface_example/autopilot_interface.cpp` and
`GPS/GPS_main.cxx`: the setpoint helpers, the setpoint cell and its streamer,
the telemetry reader, the command builders, the request/response relay that
fetches a GPS fix from the producer queue and forwards it on the vehicle link,
the producer of that fix, and the lifecycle of `start()` with its read and write
threads, taken as an interleaving of single statements.

Conventions.
* Unsigned machine integers are `Nat`; the code studied here only stores,
  copies and compares them.
* A C `float` is carried as its bit pattern (`float`); the code only assigns
  and copies floats.
* `printf` / `fprintf` diagnostics and `usleep` pauses have no effect on the state
  and are left out.
* Values that come from the environment (the clock, the byte count reported by
  the transport, the contents of an uninitialised local) are explicit arguments.
* Constants declared in headers that are not part of the sources at hand are
  the fields of `Header`, an argument of every definition that uses one.
-/

namespace FakeGPS

/-! ## Data model -/

/-- A C `float`, kept as its IEEE-754 single-precision bit pattern. -/
structure float where
  bits : Nat
deriving DecidableEq, Repr

/-- The literal `0.0`. -/
def float.zero : float := ⟨0⟩

/-- The literal `1.0`. -/
def float.one : float := ⟨0x3F800000⟩

/-- The constant `NAN`: the quiet not-a-number of single precision. -/
def float.NAN : float := ⟨0x7FC00000⟩

/-- The conversion `(float)flag` of a `bool`: `1.0` for `true`, `0.0` for `false`. -/
def float.ofBool : Bool → float
  | true => float.one
  | false => float.zero

/-- Constants of `autopilot_interface.h`, `mavlink.h` and `msgq_id.h` used by the code.
The mask macros are literals for the 16-bit `type_mask` field, `MAV_FRAME_LOCAL_NED`
one for the 8-bit `coordinate_frame` field. -/
structure Header where
  MAVLINK_MSG_SET_POSITION_TARGET_LOCAL_NED_POSITION : Nat
  MAVLINK_MSG_SET_POSITION_TARGET_LOCAL_NED_VELOCITY : Nat
  MAVLINK_MSG_SET_POSITION_TARGET_LOCAL_NED_ACCELERATION : Nat
  MAVLINK_MSG_SET_POSITION_TARGET_LOCAL_NED_YAW_ANGLE : Nat
  MAVLINK_MSG_SET_POSITION_TARGET_LOCAL_NED_YAW_RATE : Nat
  MAV_FRAME_LOCAL_NED : Nat
  MSG_TYPE_RESPONSE : Nat
deriving DecidableEq, Repr

/-- The record `mavlink_set_position_target_local_ned_t`. -/
structure mavlink_set_position_target_local_ned_t where
  time_boot_ms : Nat
  x : float
  y : float
  z : float
  vx : float
  vy : float
  vz : float
  afx : float
  afy : float
  afz : float
  yaw : float
  yaw_rate : float
  type_mask : Nat
  target_system : Nat
  target_component : Nat
  coordinate_frame : Nat
deriving DecidableEq, Repr

/-- The record `mavlink_hil_gps_t`, with the fields `GPS_class::set` fills in. -/
structure mavlink_hil_gps_t where
  time_usec : Nat
  lat : Int
  lon : Int
  alt : Int
  eph : Nat
  epv : Nat
  vel : Nat
  vn : Int
  ve : Int
  vd : Int
  cog : Nat
  fix_type : Nat
  satellites_visible : Nat
deriving DecidableEq, Repr

/-- The commands of `mavlink.h` the command builders send. -/
inductive MAV_CMD where
  | MAV_CMD_NAV_LAND
  | MAV_CMD_NAV_TAKEOFF
  | MAV_CMD_NAV_LAND_LOCAL
  | MAV_CMD_NAV_TAKEOFF_LOCAL
  | MAV_CMD_NAV_GUIDED_ENABLE
  | MAV_CMD_COMPONENT_ARM_DISARM
  | MAV_CMD_SET_MESSAGE_INTERVAL
  | MAV_CMD_REQUEST_AUTOPILOT_CAPABILITIES
deriving DecidableEq, Repr

/-- The record `mavlink_command_long_t`, in the order of its brace initialiser. -/
structure mavlink_command_long_t where
  param1 : float
  param2 : float
  param3 : float
  param4 : float
  param5 : float
  param6 : float
  param7 : float
  command : MAV_CMD
  target_system : Nat
  target_component : Nat
  confirmation : Nat
deriving DecidableEq, Repr

/-- Message ids the code dispatches on or encodes; `OTHER n` is any id besides these. -/
inductive MAVLINK_MSG_ID where
  | HEARTBEAT
  | SYS_STATUS
  | BATTERY_STATUS
  | RADIO_STATUS
  | LOCAL_POSITION_NED
  | GLOBAL_POSITION_INT
  | POSITION_TARGET_LOCAL_NED
  | POSITION_TARGET_GLOBAL_INT
  | HIGHRES_IMU
  | ATTITUDE
  | GPS_RAW_INT
  | COMMAND_ACK
  | HIL_GPS
  | SET_POSITION_TARGET_LOCAL_NED
  | COMMAND_LONG
  | OTHER (n : Nat)
deriving DecidableEq, Repr

/-- The payload of a protocol message: a typed record for the kinds this code
encodes, the undecoded bytes for everything else. -/
inductive Payload where
  | hil_gps (p : mavlink_hil_gps_t)
  | set_position_target_local_ned (p : mavlink_set_position_target_local_ned_t)
  | command_long (p : mavlink_command_long_t)
  | raw (bytes : List Nat)
deriving DecidableEq, Repr

/-- The record `mavlink_message_t`: sender fields, message id and payload. -/
structure mavlink_message_t where
  sysid : Nat
  compid : Nat
  msgid : MAVLINK_MSG_ID
  payload : Payload
deriving DecidableEq, Repr

/-- Modelled from the spec: `encode(TypedMessage) -> bytes` is an external pure
function, assumed total and correct; `mavlink_msg_hil_gps_encode` is kept
symbolic, recording the sender ids and the encoded record. -/
def mavlink_msg_hil_gps_encode (system_id component_id : Nat)
    (gps_input : mavlink_hil_gps_t) : mavlink_message_t :=
  { sysid := system_id, compid := component_id, msgid := .HIL_GPS,
    payload := .hil_gps gps_input }

/-- Modelled from the spec: the external encoder of set-position-target
messages, kept symbolic like `mavlink_msg_hil_gps_encode`. -/
def mavlink_msg_set_position_target_local_ned_encode (system_id component_id : Nat)
    (sp : mavlink_set_position_target_local_ned_t) : mavlink_message_t :=
  { sysid := system_id, compid := component_id, msgid := .SET_POSITION_TARGET_LOCAL_NED,
    payload := .set_position_target_local_ned sp }

/-- Modelled from the spec: the external encoder of command messages, kept
symbolic like `mavlink_msg_hil_gps_encode`. -/
def mavlink_msg_command_long_encode (system_id component_id : Nat)
    (com : mavlink_command_long_t) : mavlink_message_t :=
  { sysid := system_id, compid := component_id, msgid := .COMMAND_LONG,
    payload := .command_long com }

/-! ## Setpoint helper functions -/

/-- The function `set_position(x, y, z, sp)`. -/
def set_position (H : Header) (x y z : float)
    (sp : mavlink_set_position_target_local_ned_t) :
    mavlink_set_position_target_local_ned_t :=
  let sp := { sp with type_mask := H.MAVLINK_MSG_SET_POSITION_TARGET_LOCAL_NED_POSITION }
  let sp := { sp with coordinate_frame := H.MAV_FRAME_LOCAL_NED }
  let sp := { sp with x := x }
  let sp := { sp with y := y }
  let sp := { sp with z := z }
  sp

/-- The function `set_velocity(vx, vy, vz, sp)`. -/
def set_velocity (H : Header) (vx vy vz : float)
    (sp : mavlink_set_position_target_local_ned_t) :
    mavlink_set_position_target_local_ned_t :=
  let sp := { sp with type_mask := H.MAVLINK_MSG_SET_POSITION_TARGET_LOCAL_NED_VELOCITY }
  let sp := { sp with coordinate_frame := H.MAV_FRAME_LOCAL_NED }
  let sp := { sp with vx := vx }
  let sp := { sp with vy := vy }
  let sp := { sp with vz := vz }
  sp

/-- The function `set_acceleration(ax, ay, az, sp)`: the record is passed by reference, so it
is the state of the computation; `throw 1` comes first and the assignments
after it are never reached. -/
def set_acceleration (H : Header) (ax ay az : float) :
    ExceptT Int (StateM mavlink_set_position_target_local_ned_t) Unit := do
  throw (1 : Int)
  modify fun sp => { sp with type_mask :=
    H.MAVLINK_MSG_SET_POSITION_TARGET_LOCAL_NED_ACCELERATION &&&
    H.MAVLINK_MSG_SET_POSITION_TARGET_LOCAL_NED_VELOCITY }
  modify fun sp => { sp with coordinate_frame := H.MAV_FRAME_LOCAL_NED }
  modify fun sp => { sp with afx := ax }
  modify fun sp => { sp with afy := ay }
  modify fun sp => { sp with afz := az }

/-- The function `set_yaw(yaw, sp)`. -/
def set_yaw (H : Header) (yaw : float)
    (sp : mavlink_set_position_target_local_ned_t) :
    mavlink_set_position_target_local_ned_t :=
  let sp := { sp with type_mask :=
    sp.type_mask &&& H.MAVLINK_MSG_SET_POSITION_TARGET_LOCAL_NED_YAW_ANGLE }
  let sp := { sp with yaw := yaw }
  sp

/-- The function `set_yaw_rate(yaw_rate, sp)`. -/
def set_yaw_rate (H : Header) (yaw_rate : float)
    (sp : mavlink_set_position_target_local_ned_t) :
    mavlink_set_position_target_local_ned_t :=
  let sp := { sp with type_mask :=
    sp.type_mask &&& H.MAVLINK_MSG_SET_POSITION_TARGET_LOCAL_NED_YAW_RATE }
  let sp := { sp with yaw_rate := yaw_rate }
  sp

/-! ## The autopilot interface object -/

/-- The record `Time_Stamps`: time of the last update of each telemetry kind, `0` for never. -/
structure Time_Stamps where
  heartbeat : Nat
  sys_status : Nat
  battery_status : Nat
  radio_status : Nat
  local_position_ned : Nat
  global_position_int : Nat
  position_target_local_ned : Nat
  position_target_global_int : Nat
  highres_imu : Nat
  attitude : Nat
  gps_raw_int : Nat
  command_ack : Nat
deriving DecidableEq, Repr

/-- The record `Mavlink_Messages`: sender ids of the last message, the last decoded
value of each kind (kept as the payload it was decoded from) and the time stamps. -/
structure Mavlink_Messages where
  sysid : Nat
  compid : Nat
  heartbeat : Payload
  sys_status : Payload
  battery_status : Payload
  radio_status : Payload
  local_position_ned : Payload
  global_position_int : Payload
  position_target_local_ned : Payload
  position_target_global_int : Payload
  highres_imu : Payload
  attitude : Payload
  gps_raw_int : Payload
  command_ack : Payload
  time_stamps : Time_Stamps
deriving DecidableEq, Repr

/-- Modelled from the spec: the transport collaborator `Generic_Port` with
`write_message(Message) -> bytes_written` and `is_running() -> bool`; `written`
lists the messages handed to `write_message`, oldest first. -/
structure Generic_Port where
  is_running : Bool
  written : List mavlink_message_t
deriving DecidableEq, Repr

/-- Modelled from the spec: `port->write_message(message)`; the byte count the
transport reports is the argument `len`. -/
def Generic_Port.write_message (len : Int) (message : mavlink_message_t)
    (port : Generic_Port) : Generic_Port × Int :=
  ({ port with written := port.written ++ [message] }, len)

/-- The members of `Autopilot_Interface`; `current_setpoint` is the record behind
the mutex of the setpoint cell. -/
structure Autopilot_Interface where
  write_count : Nat
  reading_status : Nat
  writing_status : Nat
  control_status : Nat
  time_to_exit : Bool
  system_id : Nat
  autopilot_id : Nat
  companion_id : Nat
  current_messages : Mavlink_Messages
  current_setpoint : mavlink_set_position_target_local_ned_t
  initial_position : mavlink_set_position_target_local_ned_t
  port : Generic_Port
deriving DecidableEq, Repr

/-- The method `Autopilot_Interface::update_setpoint(setpoint)`: the assignment made while
the lock is held. -/
def update_setpoint (setpoint : mavlink_set_position_target_local_ned_t)
    (ap : Autopilot_Interface) : Autopilot_Interface :=
  { ap with current_setpoint := setpoint }

/-- The method `Autopilot_Interface::write_message(message)`. -/
def write_message (len : Int) (message : mavlink_message_t)
    (ap : Autopilot_Interface) : Autopilot_Interface × Int :=
  let (port, len) := ap.port.write_message len message
  let ap := { ap with port := port }
  let ap := { ap with write_count := ap.write_count + 1 }
  (ap, len)

/-- The section `PACK PAYLOAD` of `Autopilot_Interface::write_setpoint()`: the
copy of the cell taken under the lock, then stamped; `now` is what
`get_time_usec()` returns. The ids are converted to the 8-bit fields they are
stored in. -/
def write_setpoint_PACK_PAYLOAD (now : Nat) (ap : Autopilot_Interface) :
    mavlink_set_position_target_local_ned_t :=
  let sp := ap.current_setpoint
  let sp := if sp.time_boot_ms = 0
    then { sp with time_boot_ms := (now / 1000) % 2 ^ 32 } else sp
  let sp := { sp with target_system := ap.system_id % 256 }
  let sp := { sp with target_component := ap.autopilot_id % 256 }
  sp

/-- The method `Autopilot_Interface::write_setpoint()`; `now` is what `get_time_usec()`
returns, `len` the byte count of the write. -/
def write_setpoint (now : Nat) (len : Int) (ap : Autopilot_Interface) :
    Autopilot_Interface :=
  let sp := write_setpoint_PACK_PAYLOAD now ap
  let message := mavlink_msg_set_position_target_local_ned_encode
    (ap.system_id % 256) (ap.companion_id % 256) sp
  let (ap, _len) := write_message len message ap
  ap

/-- The initial setpoint `write_thread()` prepares ("just stay put"): `local_sp`
is the content of the uninitialised local `sp` before the six assignments. -/
def write_thread_initial_setpoint (H : Header)
    (local_sp : mavlink_set_position_target_local_ned_t) :
    mavlink_set_position_target_local_ned_t :=
  let sp := local_sp
  let sp := { sp with type_mask :=
    H.MAVLINK_MSG_SET_POSITION_TARGET_LOCAL_NED_VELOCITY &&&
    H.MAVLINK_MSG_SET_POSITION_TARGET_LOCAL_NED_YAW_RATE }
  let sp := { sp with coordinate_frame := H.MAV_FRAME_LOCAL_NED }
  let sp := { sp with vx := float.zero }
  let sp := { sp with vy := float.zero }
  let sp := { sp with vz := float.zero }
  let sp := { sp with yaw_rate := float.zero }
  sp

/-- The method `Autopilot_Interface::write_thread()`, from its entry to the release
of the mutex: it signals startup, prepares its initial setpoint and puts it into
the cell. -/
def write_thread_install (H : Header) (local_sp : mavlink_set_position_target_local_ned_t)
    (ap : Autopilot_Interface) : Autopilot_Interface :=
  let ap := { ap with writing_status := 2 }
  let sp := write_thread_initial_setpoint H local_sp
  let ap := { ap with current_setpoint := sp }
  ap

/-- The method `Autopilot_Interface::write_thread()`, up to the streaming loop.
The thread releases the mutex after putting its initial setpoint into the cell
and takes it again in `write_setpoint()`; `between` lists the setpoints that
other threads commit with `update_setpoint` in that window, in order. -/
def write_thread_startup (H : Header) (local_sp : mavlink_set_position_target_local_ned_t)
    (between : List mavlink_set_position_target_local_ned_t)
    (now : Nat) (len : Int) (ap : Autopilot_Interface) : Autopilot_Interface :=
  let ap := write_thread_install H local_sp ap
  let ap := between.foldl (fun ap setpoint => update_setpoint setpoint ap) ap
  let ap := write_setpoint now len ap
  let ap := { ap with writing_status := 1 }
  ap

/-- The streaming loop of `write_thread()`: one entry of `cycles` per evaluation
of the loop condition, giving the value of `time_to_exit` read there (the flag
is set by `stop()` on another thread) and the clock and byte count of the send.
When the entries run out the thread is still in its loop. -/
def write_thread_loop : List (Bool × Nat × Int) → Autopilot_Interface → Autopilot_Interface
  | [], ap => ap
  | (exit, now, len) :: cycles, ap =>
    let ap := { ap with time_to_exit := exit }
    if ap.time_to_exit then
      { ap with writing_status := 0 }
    else
      write_thread_loop cycles (write_setpoint now len ap)

/-- The method `Autopilot_Interface::write_thread()`. -/
def write_thread (H : Header) (local_sp : mavlink_set_position_target_local_ned_t)
    (between : List mavlink_set_position_target_local_ned_t)
    (now : Nat) (len : Int) (cycles : List (Bool × Nat × Int))
    (ap : Autopilot_Interface) : Autopilot_Interface :=
  write_thread_loop cycles (write_thread_startup H local_sp between now len ap)

/-! ## Telemetry reader -/

/-- The locals of `read_messages()` that live across iterations. -/
structure read_messages_locals where
  received_all : Bool
  this_timestamps : Time_Stamps
deriving DecidableEq, Repr

/-- The value `Time_Stamps()` a fresh `this_timestamps` starts from. -/
def Time_Stamps.reset : Time_Stamps :=
  { heartbeat := 0, sys_status := 0, battery_status := 0, radio_status := 0,
    local_position_ned := 0, global_position_int := 0, position_target_local_ned := 0,
    position_target_global_int := 0, highres_imu := 0, attitude := 0, gps_raw_int := 0,
    command_ack := 0 }

/-- One pass through the body of the `while` loop of `read_messages()`:
`success` and `message` are what `port->read_message(message)` delivers, `now`
is what `get_time_usec()` returns in the selected `case`. The decoders are
external; the decoded value is kept as the payload it is decoded from. -/
def read_messages_iteration (success : Bool) (message : mavlink_message_t) (now : Nat)
    (ap : Autopilot_Interface) (loc : read_messages_locals) :
    Autopilot_Interface × read_messages_locals :=
  let (cm, ts) :=
    if success then
      let cm := ap.current_messages
      let ts := loc.this_timestamps
      let cm := { cm with sysid := message.sysid }
      let cm := { cm with compid := message.compid }
      match message.msgid with
      | .HEARTBEAT =>
        let cm := { cm with heartbeat := message.payload }
        let cm := { cm with time_stamps := { cm.time_stamps with heartbeat := now } }
        (cm, { ts with heartbeat := cm.time_stamps.heartbeat })
      | .SYS_STATUS =>
        let cm := { cm with sys_status := message.payload }
        let cm := { cm with time_stamps := { cm.time_stamps with sys_status := now } }
        (cm, { ts with sys_status := cm.time_stamps.sys_status })
      | .BATTERY_STATUS =>
        let cm := { cm with battery_status := message.payload }
        let cm := { cm with time_stamps := { cm.time_stamps with battery_status := now } }
        (cm, { ts with battery_status := cm.time_stamps.battery_status })
      | .RADIO_STATUS =>
        let cm := { cm with radio_status := message.payload }
        let cm := { cm with time_stamps := { cm.time_stamps with radio_status := now } }
        (cm, { ts with radio_status := cm.time_stamps.radio_status })
      | .LOCAL_POSITION_NED =>
        let cm := { cm with local_position_ned := message.payload }
        let cm := { cm with time_stamps := { cm.time_stamps with local_position_ned := now } }
        (cm, { ts with local_position_ned := cm.time_stamps.local_position_ned })
      | .GLOBAL_POSITION_INT =>
        let cm := { cm with global_position_int := message.payload }
        let cm := { cm with time_stamps := { cm.time_stamps with global_position_int := now } }
        (cm, { ts with global_position_int := cm.time_stamps.global_position_int })
      | .POSITION_TARGET_LOCAL_NED =>
        let cm := { cm with position_target_local_ned := message.payload }
        let cm :=
          { cm with time_stamps := { cm.time_stamps with position_target_local_ned := now } }
        (cm, { ts with position_target_local_ned := cm.time_stamps.position_target_local_ned })
      | .POSITION_TARGET_GLOBAL_INT =>
        let cm := { cm with position_target_global_int := message.payload }
        let cm :=
          { cm with time_stamps := { cm.time_stamps with position_target_global_int := now } }
        (cm, { ts with position_target_global_int := cm.time_stamps.position_target_global_int })
      | .HIGHRES_IMU =>
        let cm := { cm with highres_imu := message.payload }
        let cm := { cm with time_stamps := { cm.time_stamps with highres_imu := now } }
        (cm, { ts with highres_imu := cm.time_stamps.highres_imu })
      | .ATTITUDE =>
        let cm := { cm with attitude := message.payload }
        let cm := { cm with time_stamps := { cm.time_stamps with attitude := now } }
        (cm, { ts with attitude := cm.time_stamps.attitude })
      | .GPS_RAW_INT =>
        let cm := { cm with gps_raw_int := message.payload }
        let cm := { cm with time_stamps := { cm.time_stamps with gps_raw_int := now } }
        (cm, { ts with gps_raw_int := cm.time_stamps.gps_raw_int })
      | .COMMAND_ACK =>
        let cm := { cm with command_ack := message.payload }
        let cm := { cm with time_stamps := { cm.time_stamps with command_ack := now } }
        (cm, { ts with command_ack := cm.time_stamps.command_ack })
      | _ => (cm, ts)
    else (ap.current_messages, loc.this_timestamps)
  let received_all :=
    decide (ts.heartbeat ≠ 0) &&
    decide (ts.battery_status ≠ 0) &&
    decide (ts.radio_status ≠ 0) &&
    decide (ts.local_position_ned ≠ 0) &&
    decide (ts.global_position_int ≠ 0) &&
    decide (ts.position_target_local_ned ≠ 0) &&
    decide (ts.position_target_global_int ≠ 0) &&
    decide (ts.highres_imu ≠ 0) &&
    decide (ts.attitude ≠ 0) &&
    decide (ts.gps_raw_int ≠ 0) &&
    decide (ts.sys_status ≠ 0)
  ({ ap with current_messages := cm },
   { received_all := received_all, this_timestamps := ts })

/-- The `while` loop of `read_messages()`: one entry of `reads` per evaluation of
the loop condition, giving the value of `time_to_exit` read there and what the
receive of that pass delivers. When the entries run out the reader is still
waiting in `port->read_message`. -/
def read_messages_loop :
    List (Bool × Bool × mavlink_message_t × Nat) → Autopilot_Interface →
    read_messages_locals → Autopilot_Interface × read_messages_locals
  | [], ap, loc => (ap, loc)
  | (exit, success, message, now) :: reads, ap, loc =>
    let ap := { ap with time_to_exit := exit }
    if !loc.received_all && !ap.time_to_exit then
      let (ap, loc) := read_messages_iteration success message now ap loc
      read_messages_loop reads ap loc
    else (ap, loc)

/-- The method `Autopilot_Interface::read_messages()`. -/
def read_messages (reads : List (Bool × Bool × mavlink_message_t × Nat))
    (ap : Autopilot_Interface) : Autopilot_Interface :=
  (read_messages_loop reads ap
    { received_all := false, this_timestamps := Time_Stamps.reset }).1

/-- The section `GET SYSTEM and COMPONENT IDs` of `Autopilot_Interface::start()`,
reached once `current_messages.sysid` is non-zero. -/
def start_GET_SYSTEM_and_COMPONENT_IDs (ap : Autopilot_Interface) : Autopilot_Interface :=
  let ap := if ap.system_id = 0
    then { ap with system_id := ap.current_messages.sysid } else ap
  let ap := if ap.autopilot_id = 0
    then { ap with autopilot_id := ap.current_messages.compid } else ap
  ap

/-! ## GPS relay -/

/-- The queue identifiers of `msgq_id.h`, in the order of the pool table `MsgqPoolDefs`. -/
inductive MsgQueId where
  | MSGQ_NULL
  | MSGQ_MAVLINK
  | MSGQ_GPS
deriving DecidableEq, Repr

/-- The priorities a message is posted with. -/
inductive MsgPri where
  | MsgPriNormal
  | MsgPriHigh
deriving DecidableEq, Repr

/-- The record `message_t` of `GPS.h`. -/
structure message_t where
  num : Int
deriving DecidableEq, Repr

/-- Modelled from the spec: a `Packet` of the IPC channel, carrying its kind
(`getType()`), the queue to reply to and the payload handed out by `moveParam`. -/
structure MsgPacket (α : Type) where
  type : Nat
  reply : MsgQueId
  param : α
deriving DecidableEq, Repr

/-- Modelled from the spec: the IPC channel collaborator, one queue of it. The
entries are listed front first, in the order they arrive. `receive` waits until
there is an entry and hands out the one at the front; the entry stays in the
queue until `release` (`pop()`, "Release the message block") frees it. -/
structure MsgQueBlock (α : Type) where
  que : List (MsgPacket α)
deriving DecidableEq, Repr

/-- Modelled from the spec: `que->recv(TIME_FOREVER, &msg)`; `none` stands for a
wait that never ends because no entry ever arrives. -/
def MsgQueBlock.recv {α : Type} (que : MsgQueBlock α) : Option (MsgPacket α) :=
  que.que.head?

/-- Modelled from the spec: `que->pop()`, freeing the entry at the front. -/
def MsgQueBlock.pop {α : Type} (que : MsgQueBlock α) : MsgQueBlock α :=
  { que := que.que.tail }

/-- A call made by the relay to one of its collaborators. -/
inductive Call where
  | send (dest : MsgQueId) (pri : MsgPri) (type : Nat) (reply : MsgQueId) (param : message_t)
  | recv (que : MsgQueId) (msg : MsgPacket mavlink_hil_gps_t)
  | moveParam (msg : MsgPacket mavlink_hil_gps_t)
  | pop (que : MsgQueId) (msg : MsgPacket mavlink_hil_gps_t)
  | write_message (message : mavlink_message_t)
deriving DecidableEq, Repr

/-- The interface object together with the queue the relay receives on and the
log of the calls made to the queue library and the transport, oldest first. -/
structure World where
  ap : Autopilot_Interface
  MSGQ_MAVLINK : MsgQueBlock mavlink_hil_gps_t
  calls : List Call
deriving DecidableEq, Repr

/-- How the `while (1)` loop of the relay stands after a number of passes. -/
inductive Loop where
  | done (message : mavlink_message_t)
  | blocked
  | spinning
deriving DecidableEq, Repr

/-- How a call of the relay stands: it has returned a byte count, it waits in
`recv` on a queue that stays empty, or it is still going round its loop. -/
inductive Outcome where
  | returned (len : Int)
  | blocked
  | spinning
deriving DecidableEq, Repr

/-- The `while (1)` loop of `send_input_hil_gps_message`, run for at most
`passes` passes. -/
def send_input_hil_gps_message_loop (msg_type time_usec target_system target_component : Nat) :
    Nat → World → World × Loop
  | 0, w => (w, .spinning)
  | passes + 1, w =>
    match w.MSGQ_MAVLINK.recv with
    | none => (w, .blocked)
    | some msg =>
      let w := { w with calls := w.calls ++ [Call.recv .MSGQ_MAVLINK msg] }
      if msg.type = msg_type then
        let gps_input := msg.param
        let w := { w with calls := w.calls ++ [Call.moveParam msg] }
        let gps_input := { gps_input with time_usec := time_usec }
        let message := mavlink_msg_hil_gps_encode target_system target_component gps_input
        let w := { w with MSGQ_MAVLINK := w.MSGQ_MAVLINK.pop,
                          calls := w.calls ++ [Call.pop .MSGQ_MAVLINK msg] }
        (w, .done message)
      else
        send_input_hil_gps_message_loop msg_type time_usec target_system target_component
          passes w

/-- The method `Autopilot_Interface::send_input_hil_gps_message(time_usec)`, its loop run
for at most `passes` passes; `len` is the byte count of the write. -/
def send_input_hil_gps_message (H : Header) (passes : Nat) (time_usec : Nat) (len : Int)
    (w : World) : World × Outcome :=
  let target_system := w.ap.system_id % 256
  let target_component := w.ap.autopilot_id % 256
  let send_id := MsgQueId.MSGQ_GPS
  let ret_id := MsgQueId.MSGQ_MAVLINK
  let msg_type := H.MSG_TYPE_RESPONSE
  let q_msg : message_t := { num := 0 }
  let w := { w with calls := w.calls ++ [Call.send send_id .MsgPriNormal msg_type ret_id q_msg] }
  match send_input_hil_gps_message_loop msg_type time_usec target_system target_component
      passes w with
  | (w, .done message) =>
    let (port, len) := w.ap.port.write_message len message
    let w := { w with ap := { w.ap with port := port },
                      calls := w.calls ++ [Call.write_message message] }
    (w, .returned len)
  | (w, .blocked) => (w, .blocked)
  | (w, .spinning) => (w, .spinning)

/-! ## Interleavings of setpoint updates and streamer cycles -/

/-- A step on the setpoint cell. Three places of the code take its mutex: a call
of `update_setpoint`, the start of `write_thread()` that puts the initial
setpoint into the cell (`local_sp` is the content of the uninitialised local),
and the copy a cycle of the streamer (`write_setpoint`) takes. Each is one step;
a cycle touches the cell no more after its copy, so it is a single step too. -/
inductive SetpointOp where
  | update_setpoint (setpoint : mavlink_set_position_target_local_ned_t)
  | write_setpoint (now : Nat) (len : Int)
  | write_thread_install (local_sp : mavlink_set_position_target_local_ned_t)
deriving DecidableEq, Repr

/-- Whether the step is a cycle of the streamer. -/
def SetpointOp.isCycle : SetpointOp → Bool
  | .write_setpoint _ _ => true
  | _ => false

/-- The effect of one step. -/
def SetpointOp.run (H : Header) : SetpointOp → Autopilot_Interface → Autopilot_Interface
  | .update_setpoint setpoint, ap => FakeGPS.update_setpoint setpoint ap
  | .write_setpoint now len, ap => FakeGPS.write_setpoint now len ap
  | .write_thread_install local_sp, ap => FakeGPS.write_thread_install H local_sp ap

/-- The effect of a sequence of steps, first step first. -/
def runOps (H : Header) : List SetpointOp → Autopilot_Interface → Autopilot_Interface
  | [], ap => ap
  | op :: ops, ap => runOps H ops (op.run H ap)

/-- Whether the call is a `send` to a queue. -/
def Call.isSend : Call → Bool
  | .send _ _ _ _ _ => true
  | _ => false

/-- Whether the call is a `pop` of a queue. -/
def Call.isPop : Call → Bool
  | .pop _ _ => true
  | _ => false

/-- Whether the call is a write to the transport. -/
def Call.isWrite : Call → Bool
  | .write_message _ => true
  | _ => false

/-- The request every call of the relay starts with. -/
def relayRequest (H : Header) : Call :=
  Call.send .MSGQ_GPS .MsgPriNormal H.MSG_TYPE_RESPONSE .MSGQ_MAVLINK { num := 0 }

/-! ## Telemetry store: views by message kind -/

/-- Whether the `switch` of `read_messages()` has a `case` for the message id. -/
def MAVLINK_MSG_ID.recognized : MAVLINK_MSG_ID → Bool
  | .HEARTBEAT => true
  | .SYS_STATUS => true
  | .BATTERY_STATUS => true
  | .RADIO_STATUS => true
  | .LOCAL_POSITION_NED => true
  | .GLOBAL_POSITION_INT => true
  | .POSITION_TARGET_LOCAL_NED => true
  | .POSITION_TARGET_GLOBAL_INT => true
  | .HIGHRES_IMU => true
  | .ATTITUDE => true
  | .GPS_RAW_INT => true
  | .COMMAND_ACK => true
  | _ => false

/-- The time stamp kept for a message kind; `0` for an id that has none. -/
def Time_Stamps.get (ts : Time_Stamps) : MAVLINK_MSG_ID → Nat
  | .HEARTBEAT => ts.heartbeat
  | .SYS_STATUS => ts.sys_status
  | .BATTERY_STATUS => ts.battery_status
  | .RADIO_STATUS => ts.radio_status
  | .LOCAL_POSITION_NED => ts.local_position_ned
  | .GLOBAL_POSITION_INT => ts.global_position_int
  | .POSITION_TARGET_LOCAL_NED => ts.position_target_local_ned
  | .POSITION_TARGET_GLOBAL_INT => ts.position_target_global_int
  | .HIGHRES_IMU => ts.highres_imu
  | .ATTITUDE => ts.attitude
  | .GPS_RAW_INT => ts.gps_raw_int
  | .COMMAND_ACK => ts.command_ack
  | _ => 0

/-- The value stored for a message kind; an empty payload for an id that has none. -/
def Mavlink_Messages.get (cm : Mavlink_Messages) : MAVLINK_MSG_ID → Payload
  | .HEARTBEAT => cm.heartbeat
  | .SYS_STATUS => cm.sys_status
  | .BATTERY_STATUS => cm.battery_status
  | .RADIO_STATUS => cm.radio_status
  | .LOCAL_POSITION_NED => cm.local_position_ned
  | .GLOBAL_POSITION_INT => cm.global_position_int
  | .POSITION_TARGET_LOCAL_NED => cm.position_target_local_ned
  | .POSITION_TARGET_GLOBAL_INT => cm.position_target_global_int
  | .HIGHRES_IMU => cm.highres_imu
  | .ATTITUDE => cm.attitude
  | .GPS_RAW_INT => cm.gps_raw_int
  | .COMMAND_ACK => cm.command_ack
  | _ => .raw []

/-- The twelve message kinds the telemetry store has an entry for. -/
def twelveKinds : List MAVLINK_MSG_ID :=
  [.HEARTBEAT, .SYS_STATUS, .BATTERY_STATUS, .RADIO_STATUS, .LOCAL_POSITION_NED,
   .GLOBAL_POSITION_INT, .POSITION_TARGET_LOCAL_NED, .POSITION_TARGET_GLOBAL_INT,
   .HIGHRES_IMU, .ATTITUDE, .GPS_RAW_INT, .COMMAND_ACK]

/-- The eleven message kinds named in the conjunction that computes `received_all`. -/
def elevenKinds : List MAVLINK_MSG_ID :=
  [.HEARTBEAT, .BATTERY_STATUS, .RADIO_STATUS, .LOCAL_POSITION_NED,
   .GLOBAL_POSITION_INT, .POSITION_TARGET_LOCAL_NED, .POSITION_TARGET_GLOBAL_INT,
   .HIGHRES_IMU, .ATTITUDE, .GPS_RAW_INT, .SYS_STATUS]

/-- Consecutive passes through the body of the loop of `read_messages()`, one per
entry: whether the receive succeeded, the message and the clock. -/
def read_messages_passes :
    List (Bool × mavlink_message_t × Nat) → Autopilot_Interface → read_messages_locals →
    Autopilot_Interface × read_messages_locals
  | [], ap, loc => (ap, loc)
  | (success, message, now) :: reads, ap, loc =>
    read_messages_passes reads
      (read_messages_iteration success message now ap loc).1
      (read_messages_iteration success message now ap loc).2

/-- Whether a message of the kind has been received in one of the passes. -/
def receivedKind (reads : List (Bool × mavlink_message_t × Nat)) (K : MAVLINK_MSG_ID) : Prop :=
  ∃ r ∈ reads, r.1 = true ∧ r.2.1.msgid = K

instance (reads : List (Bool × mavlink_message_t × Nat)) (K : MAVLINK_MSG_ID) :
    Decidable (receivedKind reads K) := by
  unfold receivedKind; infer_instance

/-! ## Command dispatcher -/

/-- The brace initialiser every command builder starts its record from: `NAN` in
the seven parameters, `0` in the other fields. The first command of the
enumeration stands for the `0` in `command`, which every builder overwrites. -/
def command_long_initialiser : mavlink_command_long_t :=
  { param1 := float.NAN, param2 := float.NAN, param3 := float.NAN, param4 := float.NAN,
    param5 := float.NAN, param6 := float.NAN, param7 := float.NAN,
    command := .MAV_CMD_NAV_LAND, target_system := 0, target_component := 0,
    confirmation := 0 }

/-- The command record `arm_disarm(flag)` prepares. -/
def arm_disarm_com (flag : Bool) (ap : Autopilot_Interface) : mavlink_command_long_t :=
  let com := command_long_initialiser
  let com := { com with target_system := ap.system_id % 256 }
  let com := { com with target_component := ap.autopilot_id % 256 }
  let com := { com with command := .MAV_CMD_COMPONENT_ARM_DISARM }
  let com := { com with confirmation := 0 }
  let com := { com with param1 := float.ofBool flag }
  let com := { com with param2 := float.NAN }
  com

/-- The method `Autopilot_Interface::arm_disarm(flag)`; `len` is the byte count of the write. -/
def arm_disarm (len : Int) (flag : Bool) (ap : Autopilot_Interface) :
    Autopilot_Interface × Int :=
  let com := arm_disarm_com flag ap
  let message := mavlink_msg_command_long_encode (ap.system_id % 256)
    (ap.companion_id % 256) com
  let (port, len) := ap.port.write_message len message
  ({ ap with port := port }, len)

/-- The command record `toggle_offboard_control(flag)` prepares. -/
def toggle_offboard_control_com (flag : Bool) (ap : Autopilot_Interface) :
    mavlink_command_long_t :=
  let com := command_long_initialiser
  let com := { com with target_system := ap.system_id % 256 }
  let com := { com with target_component := ap.autopilot_id % 256 }
  let com := { com with command := .MAV_CMD_NAV_GUIDED_ENABLE }
  let com := { com with confirmation := 0 }
  let com := { com with param1 := float.ofBool flag }
  com

/-- The method `Autopilot_Interface::toggle_offboard_control(flag)`. -/
def toggle_offboard_control (len : Int) (flag : Bool) (ap : Autopilot_Interface) :
    Autopilot_Interface × Int :=
  let com := toggle_offboard_control_com flag ap
  let message := mavlink_msg_command_long_encode (ap.system_id % 256)
    (ap.companion_id % 256) com
  let (port, len) := ap.port.write_message len message
  ({ ap with port := port }, len)

/-- The command record `autopilot_calibrate()` prepares; `param1 = 1` asks for the
autopilot version. -/
def autopilot_calibrate_com (ap : Autopilot_Interface) : mavlink_command_long_t :=
  let com := command_long_initialiser
  let com := { com with target_system := ap.system_id % 256 }
  let com := { com with target_component := ap.autopilot_id % 256 }
  let com := { com with command := .MAV_CMD_REQUEST_AUTOPILOT_CAPABILITIES }
  let com := { com with confirmation := 0 }
  let com := { com with param1 := float.one }
  com

/-- The method `Autopilot_Interface::autopilot_calibrate()`. -/
def autopilot_calibrate (len : Int) (ap : Autopilot_Interface) :
    Autopilot_Interface × Int :=
  let com := autopilot_calibrate_com ap
  let message := mavlink_msg_command_long_encode (ap.system_id % 256)
    (ap.companion_id % 256) com
  let (port, len) := ap.port.write_message len message
  ({ ap with port := port }, len)

/-- The command record `set_message_interval(msg_id, interval_us)` prepares. -/
def set_message_interval_com (msg_id interval_us : float) (ap : Autopilot_Interface) :
    mavlink_command_long_t :=
  let com := command_long_initialiser
  let com := { com with target_system := ap.system_id % 256 }
  let com := { com with target_component := ap.autopilot_id % 256 }
  let com := { com with command := .MAV_CMD_SET_MESSAGE_INTERVAL }
  let com := { com with confirmation := 0 }
  let com := { com with param1 := msg_id }
  let com := { com with param2 := interval_us }
  let com := { com with param7 := float.NAN }
  com

/-- The method `Autopilot_Interface::set_message_interval(msg_id, interval_us)`. -/
def set_message_interval (len : Int) (msg_id interval_us : float) (ap : Autopilot_Interface) :
    Autopilot_Interface × Int :=
  let com := set_message_interval_com msg_id interval_us ap
  let message := mavlink_msg_command_long_encode (ap.system_id % 256)
    (ap.companion_id % 256) com
  let (port, len) := ap.port.write_message len message
  ({ ap with port := port }, len)

/-- The command record `takeoff_local(asec_rate, yaw, x, y, z)` prepares. -/
def takeoff_local_com (asec_rate yaw x y z : float) (ap : Autopilot_Interface) :
    mavlink_command_long_t :=
  let com := command_long_initialiser
  let com := { com with target_system := ap.system_id % 256 }
  let com := { com with target_component := ap.autopilot_id % 256 }
  let com := { com with command := .MAV_CMD_NAV_TAKEOFF_LOCAL }
  let com := { com with confirmation := 0 }
  let com := { com with param3 := asec_rate }
  let com := { com with param4 := yaw }
  let com := { com with param5 := x }
  let com := { com with param6 := y }
  let com := { com with param7 := z }
  com

/-- The method `Autopilot_Interface::takeoff_local(asec_rate, yaw, x, y, z)`. -/
def takeoff_local (len : Int) (asec_rate yaw x y z : float) (ap : Autopilot_Interface) :
    Autopilot_Interface × Int :=
  let com := takeoff_local_com asec_rate yaw x y z ap
  let message := mavlink_msg_command_long_encode (ap.system_id % 256)
    (ap.companion_id % 256) com
  let (port, len) := ap.port.write_message len message
  ({ ap with port := port }, len)

/-- The command record `land_local(asec_rate, yaw, x, y, z)` prepares. -/
def land_local_com (asec_rate yaw x y z : float) (ap : Autopilot_Interface) :
    mavlink_command_long_t :=
  let com := command_long_initialiser
  let com := { com with target_system := ap.system_id % 256 }
  let com := { com with target_component := ap.autopilot_id % 256 }
  let com := { com with command := .MAV_CMD_NAV_LAND_LOCAL }
  let com := { com with confirmation := 0 }
  let com := { com with param3 := asec_rate }
  let com := { com with param4 := yaw }
  let com := { com with param5 := x }
  let com := { com with param6 := y }
  let com := { com with param7 := z }
  com

/-- The method `Autopilot_Interface::land_local(asec_rate, yaw, x, y, z)`. -/
def land_local (len : Int) (asec_rate yaw x y z : float) (ap : Autopilot_Interface) :
    Autopilot_Interface × Int :=
  let com := land_local_com asec_rate yaw x y z ap
  let message := mavlink_msg_command_long_encode (ap.system_id % 256)
    (ap.companion_id % 256) com
  let (port, len) := ap.port.write_message len message
  ({ ap with port := port }, len)

/-- The command record `takeoff(pitch, yaw, latitude, longitude, altitude)` prepares. -/
def takeoff_com (pitch yaw latitude longitude altitude : float) (ap : Autopilot_Interface) :
    mavlink_command_long_t :=
  let com := command_long_initialiser
  let com := { com with target_system := ap.system_id % 256 }
  let com := { com with target_component := ap.autopilot_id % 256 }
  let com := { com with command := .MAV_CMD_NAV_TAKEOFF }
  let com := { com with confirmation := 0 }
  let com := { com with param1 := pitch }
  let com := { com with param4 := yaw }
  let com := { com with param5 := latitude }
  let com := { com with param6 := longitude }
  let com := { com with param7 := altitude }
  com

/-- The method `Autopilot_Interface::takeoff(pitch, yaw, latitude, longitude, altitude)`. -/
def takeoff (len : Int) (pitch yaw latitude longitude altitude : float)
    (ap : Autopilot_Interface) : Autopilot_Interface × Int :=
  let com := takeoff_com pitch yaw latitude longitude altitude ap
  let message := mavlink_msg_command_long_encode (ap.system_id % 256)
    (ap.companion_id % 256) com
  let (port, len) := ap.port.write_message len message
  ({ ap with port := port }, len)

/-- The command record `land(land_mode, yaw, latitude, longitude, altitude)`
prepares; `int_to_float` is the conversion of the `int` argument `land_mode` to
`float` that the assignment to `param2` performs. -/
def land_com (int_to_float : Int → float) (land_mode : Int)
    (yaw latitude longitude altitude : float) (ap : Autopilot_Interface) :
    mavlink_command_long_t :=
  let com := command_long_initialiser
  let com := { com with target_system := ap.system_id % 256 }
  let com := { com with target_component := ap.autopilot_id % 256 }
  let com := { com with command := .MAV_CMD_NAV_LAND }
  let com := { com with confirmation := 0 }
  let com := { com with param1 := float.NAN }
  let com := { com with param2 := int_to_float land_mode }
  let com := { com with param4 := yaw }
  let com := { com with param5 := latitude }
  let com := { com with param6 := longitude }
  let com := { com with param7 := altitude }
  com

/-- The method `Autopilot_Interface::land(land_mode, yaw, latitude, longitude, altitude)`. -/
def land (int_to_float : Int → float) (len : Int) (land_mode : Int)
    (yaw latitude longitude altitude : float) (ap : Autopilot_Interface) :
    Autopilot_Interface × Int :=
  let com := land_com int_to_float land_mode yaw latitude longitude altitude ap
  let message := mavlink_msg_command_long_encode (ap.system_id % 256)
    (ap.companion_id % 256) com
  let (port, len) := ap.port.write_message len message
  ({ ap with port := port }, len)

/-- The method `Autopilot_Interface::enable_offboard_control()`; `len` is the byte
count of the write the toggle command makes, if it is sent. The test
`if (success)` on the `int` holds for every value but `0`. -/
def enable_offboard_control (len : Int) (ap : Autopilot_Interface) : Autopilot_Interface :=
  if ap.control_status = 0 then
    let (ap, success) := toggle_offboard_control len true ap
    if success ≠ 0 then
      { ap with control_status := 1 }
    else
      ap
  else
    ap

/-- The method `Autopilot_Interface::disable_offboard_control()`. -/
def disable_offboard_control (len : Int) (ap : Autopilot_Interface) : Autopilot_Interface :=
  if ap.control_status = 1 then
    let (ap, success) := toggle_offboard_control len false ap
    if success ≠ 0 then
      { ap with control_status := 0 }
    else
      ap
  else
    ap

/-- The state after one write of `message` through the port, nothing else changed. -/
def afterWrite (message : mavlink_message_t) (ap : Autopilot_Interface) :
    Autopilot_Interface :=
  { ap with port := { ap.port with written := ap.port.written ++ [message] } }

/-! ## Lifecycle: `start()`, the read thread and the write thread

The three threads run interleaved; a step of the interleaving is one statement
(or one evaluation of a loop condition) of one thread. `usleep` pauses take no
step of their own. -/

/-- Where the thread that called `start()` stands, by the section of `start()` it
is about to execute. A polling loop that finds its condition unchanged stays
where it is. -/
inductive start_pc where
  | CHECK_PORT
  | READ_THREAD
  | CHECK_FOR_MESSAGES
  | GET_SYSTEM_and_COMPONENT_IDs
  | WRITE_THREAD
  | wait_for_write_thread
  | returned_on_exit
  | returned
  | thrown (error : Int)
deriving DecidableEq, Repr

/-- Where the read thread stands in `start_read_thread()`, `read_thread()` and
`read_messages()`. -/
inductive read_thread_pc where
  | not_created
  | start_read_thread
  | signal_reading
  | read_thread_test
  | read_messages_test
  | read_messages_body
  | signal_end
  | already_running
  | ended
deriving DecidableEq, Repr

/-- Where the write thread stands in `start_write_thread()` and `write_thread()`. -/
inductive write_thread_pc where
  | not_created
  | start_write_thread
  | signal_startup
  | set_position_target
  | first_write
  | signal_writing
  | loop_test
  | loop_body
  | signal_end
  | already_running
  | ended
deriving DecidableEq, Repr

/-- The interface object shared by the threads, where each thread stands, the
locals of the running `read_messages()`, and the number of calls of
`port->read_message` made so far. -/
structure Lifecycle where
  ap : Autopilot_Interface
  start : start_pc
  read : read_thread_pc
  read_locals : read_messages_locals
  write : write_thread_pc
  receives : Nat
deriving DecidableEq, Repr

/-- A step of the interleaving: which thread moves, with what the environment
supplies if the statement executed asks for it (the result of `pthread_create`;
the outcome of the receive and the clock; the content of the uninitialised local,
the clock and the byte count). `stop` is the assignment `time_to_exit = true` of
`stop()`, made by whoever calls it. -/
inductive Move where
  | start (result : Int)
  | read (success : Bool) (message : mavlink_message_t) (now : Nat)
  | write (local_sp : mavlink_set_position_target_local_ned_t) (now : Nat) (len : Int)
  | stop
deriving DecidableEq, Repr

/-- One step of `Autopilot_Interface::start()`. The branch on `FC_GPS`, which is
`false`, is never taken. -/
def start_step (result : Int) (s : Lifecycle) : Lifecycle :=
  match s.start with
  | .CHECK_PORT =>
    if !s.ap.port.is_running then { s with start := .thrown 1 }
    else { s with start := .READ_THREAD }
  | .READ_THREAD =>
    if result ≠ 0 then { s with start := .thrown result }
    else { s with read := .start_read_thread, start := .CHECK_FOR_MESSAGES }
  | .CHECK_FOR_MESSAGES =>
    if s.ap.current_messages.sysid = 0 then
      if s.ap.time_to_exit then { s with start := .returned_on_exit } else s
    else { s with start := .GET_SYSTEM_and_COMPONENT_IDs }
  | .GET_SYSTEM_and_COMPONENT_IDs =>
    { s with ap := start_GET_SYSTEM_and_COMPONENT_IDs s.ap, start := .WRITE_THREAD }
  | .WRITE_THREAD =>
    if result ≠ 0 then { s with start := .thrown result }
    else { s with write := .start_write_thread, start := .wait_for_write_thread }
  | .wait_for_write_thread =>
    if s.ap.writing_status = 0 then s else { s with start := .returned }
  | .returned_on_exit => s
  | .returned => s
  | .thrown _ => s

/-- One step of the read thread: `start_read_thread()`, then `read_thread()` with
`read_messages()` inside its loop. -/
def read_thread_step (success : Bool) (message : mavlink_message_t) (now : Nat)
    (s : Lifecycle) : Lifecycle :=
  match s.read with
  | .not_created => s
  | .start_read_thread =>
    if s.ap.reading_status ≠ 0 then { s with read := .already_running }
    else { s with read := .signal_reading }
  | .signal_reading =>
    { s with ap := { s.ap with reading_status := 1 }, read := .read_thread_test }
  | .read_thread_test =>
    if !s.ap.time_to_exit then
      { s with read_locals := { received_all := false, this_timestamps := Time_Stamps.reset },
               read := .read_messages_test }
    else { s with read := .signal_end }
  | .read_messages_test =>
    if !s.read_locals.received_all && !s.ap.time_to_exit then
      { s with read := .read_messages_body }
    else { s with read := .read_thread_test }
  | .read_messages_body =>
    { s with ap := (read_messages_iteration success message now s.ap s.read_locals).1,
             read_locals := (read_messages_iteration success message now s.ap s.read_locals).2,
             receives := s.receives + 1,
             read := .read_messages_test }
  | .signal_end =>
    { s with ap := { s.ap with reading_status := 0 }, read := .ended }
  | .already_running => s
  | .ended => s

/-- One step of the write thread: `start_write_thread()`, then `write_thread()`. -/
def write_thread_step (H : Header) (local_sp : mavlink_set_position_target_local_ned_t)
    (now : Nat) (len : Int) (s : Lifecycle) : Lifecycle :=
  match s.write with
  | .not_created => s
  | .start_write_thread =>
    if s.ap.writing_status ≠ 0 then { s with write := .already_running }
    else { s with write := .signal_startup }
  | .signal_startup =>
    { s with ap := { s.ap with writing_status := 2 }, write := .set_position_target }
  | .set_position_target =>
    { s with ap := { s.ap with current_setpoint := write_thread_initial_setpoint H local_sp },
             write := .first_write }
  | .first_write =>
    { s with ap := write_setpoint now len s.ap, write := .signal_writing }
  | .signal_writing =>
    { s with ap := { s.ap with writing_status := 1 }, write := .loop_test }
  | .loop_test =>
    if !s.ap.time_to_exit then { s with write := .loop_body }
    else { s with write := .signal_end }
  | .loop_body =>
    { s with ap := write_setpoint now len s.ap, write := .loop_test }
  | .signal_end =>
    { s with ap := { s.ap with writing_status := 0 }, write := .ended }
  | .already_running => s
  | .ended => s

/-- One step of the interleaving. -/
def Lifecycle.step (H : Header) : Move → Lifecycle → Lifecycle
  | .start result, s => start_step result s
  | .read success message now, s => read_thread_step success message now s
  | .write local_sp now len, s => write_thread_step H local_sp now len s
  | .stop, s => { s with ap := { s.ap with time_to_exit := true } }

/-- The steps of an interleaving, first step first. -/
def Lifecycle.run (H : Header) : List Move → Lifecycle → Lifecycle
  | [], s => s
  | m :: ms, s => Lifecycle.run H ms (Lifecycle.step H m s)

/-- The moment `start()` is called on the object: no thread created yet. -/
def Lifecycle.init (ap : Autopilot_Interface) : Lifecycle :=
  { ap := ap, start := .CHECK_PORT, read := .not_created,
    read_locals := { received_all := false, this_timestamps := Time_Stamps.reset },
    write := .not_created, receives := 0 }

/-- Whether `start()` has not yet created the write thread. -/
def start_pc.before_write_thread : start_pc → Bool
  | .wait_for_write_thread => false
  | .returned => false
  | _ => true

/-- Whether `start()` has not yet created the read thread. -/
def start_pc.before_read_thread : start_pc → Bool
  | .CHECK_PORT => true
  | .READ_THREAD => true
  | _ => false

/-- Whether the write thread has executed `writing_status = 2`, its startup signal. -/
def write_thread_pc.signalled : write_thread_pc → Bool
  | .not_created => false
  | .start_write_thread => false
  | .signal_startup => false
  | .already_running => false
  | _ => true

/-- Whether the write thread has completed its first send. -/
def write_thread_pc.sent_first : write_thread_pc → Bool
  | .signal_writing => true
  | .loop_test => true
  | .loop_body => true
  | .signal_end => true
  | .ended => true
  | _ => false

/-- The number of sends the write thread can still make once `time_to_exit` is set. -/
def write_thread_pc.sends_due : write_thread_pc → Nat
  | .not_created => 1
  | .start_write_thread => 1
  | .signal_startup => 1
  | .set_position_target => 1
  | .first_write => 1
  | .loop_body => 1
  | _ => 0

/-- The number of receives the read thread can still make once `time_to_exit` is set. -/
def read_thread_pc.receives_due : read_thread_pc → Nat
  | .read_messages_body => 1
  | _ => 0

/-- No step of the list is the assignment of `stop()`. -/
def noStop (moves : List Move) : Prop :=
  ∀ m ∈ moves, m ≠ Move.stop

/-- What holds of every state reached from the call of `start()`: a thread that
`start()` has not created yet has not moved, and a thread that has ended has
cleared its flag. -/
def Lifecycle.wf (s : Lifecycle) : Prop :=
  (s.start.before_write_thread = true → s.write = .not_created) ∧
  (s.start.before_read_thread = true → s.read = .not_created) ∧
  (s.write = .ended → s.ap.writing_status = 0) ∧
  (s.read = .ended → s.ap.reading_status = 0)

/-- What holds of every state reached from the call of `start()` on an object
whose `writing_status` is `0`: the flag is non-zero only once the write thread
has given its startup signal, and `start()` has returned from its wait only
then. -/
def Lifecycle.gated (s : Lifecycle) : Prop :=
  (s.start.before_write_thread = true → s.write = .not_created) ∧
  (s.write.signalled = false → s.ap.writing_status = 0) ∧
  s.write ≠ .already_running ∧
  (s.start = .returned → s.write.signalled = true)

/-- The number of its own steps the write thread needs to reach its end once
`time_to_exit` is set. -/
def write_thread_pc.steps_to_end : write_thread_pc → Nat
  | .not_created => 0
  | .start_write_thread => 7
  | .signal_startup => 6
  | .set_position_target => 5
  | .first_write => 4
  | .signal_writing => 3
  | .loop_body => 3
  | .loop_test => 2
  | .signal_end => 1
  | .already_running => 0
  | .ended => 0

/-- The number of its own steps the read thread needs to reach its end once
`time_to_exit` is set. -/
def read_thread_pc.steps_to_end : read_thread_pc → Nat
  | .not_created => 0
  | .start_read_thread => 4
  | .signal_reading => 3
  | .read_messages_body => 4
  | .read_messages_test => 3
  | .read_thread_test => 2
  | .signal_end => 1
  | .already_running => 0
  | .ended => 0

/-! ## GPS producer -/

/-- Modelled from the spec: the status a queue operation reports, `OK` or one of
the error codes of the queue subsystem. -/
inductive err_t where
  | ERR_OK
  | error (code : Nat)
deriving DecidableEq, Repr

/-- The members of `GPS_class` that `GPS_main.cxx` uses; `que` and `msg` only hold
what the last `recv` returned. -/
structure GPS_class where
  gps_input : mavlink_hil_gps_t
  send_id : MsgQueId
  ret_id : MsgQueId
  msg_type : Nat
deriving DecidableEq, Repr

/-- The constructor `GPS_class::GPS_class()`; `gps_input` is the content of the
member it leaves uninitialised. -/
def GPS_class.construct (H : Header) (gps_input : mavlink_hil_gps_t) : GPS_class :=
  { gps_input := gps_input, send_id := .MSGQ_MAVLINK, ret_id := .MSGQ_GPS,
    msg_type := H.MSG_TYPE_RESPONSE }

/-- The method `GPS_class::set()`; `UINT16_MAX` is `65535`. -/
def GPS_class.set (g : GPS_class) : GPS_class :=
  let gps_input := g.gps_input
  let gps_input := { gps_input with time_usec := 0 }
  let gps_input := { gps_input with lat := 351523041 }
  let gps_input := { gps_input with lon := 1369686962 }
  let gps_input := { gps_input with alt := 0 }
  let gps_input := { gps_input with eph := 65535 }
  let gps_input := { gps_input with epv := 65535 }
  let gps_input := { gps_input with vel := 65535 }
  let gps_input := { gps_input with vn := 0 }
  let gps_input := { gps_input with ve := 0 }
  let gps_input := { gps_input with vd := 0 }
  let gps_input := { gps_input with cog := 65535 }
  let gps_input := { gps_input with fix_type := 3 }
  let gps_input := { gps_input with satellites_visible := 1 }
  { g with gps_input := gps_input }

/-- A call made by the producer to the queue library. -/
inductive ProducerCall where
  | recv (que : MsgQueId) (msg : MsgPacket message_t)
  | moveParam (msg : MsgPacket message_t)
  | send (dest : MsgQueId) (pri : MsgPri) (type : Nat) (reply : MsgQueId)
      (param : mavlink_hil_gps_t)
  | pop (que : MsgQueId) (msg : MsgPacket message_t)
deriving DecidableEq, Repr

/-- The producer object, the queue it receives requests on (`ret_id`, which the
constructor sets to `MSGQ_GPS`), the queue it posts replies to (`send_id`,
`MSGQ_MAVLINK`), and the log of its calls to the queue library, oldest first. -/
structure ProducerWorld where
  gps : GPS_class
  MSGQ_GPS : MsgQueBlock message_t
  MSGQ_MAVLINK : MsgQueBlock mavlink_hil_gps_t
  calls : List ProducerCall
deriving DecidableEq, Repr

/-- How a call of `GPS_class::send()` stands: returned, or waiting in `recv` on a
queue that stays empty. -/
inductive ProducerOutcome where
  | returned
  | blocked
deriving DecidableEq, Repr

/-- Modelled from the spec: `send(queue_id, priority, kind, reply_to, payload) ->
status` on the reply queue; `err` is the status the library reports, and the
packet is at the back of the queue exactly when that is `ERR_OK`. -/
def MsgQueBlock.send {α : Type} (err : err_t) (type : Nat) (reply : MsgQueId) (param : α)
    (que : MsgQueBlock α) : MsgQueBlock α × err_t :=
  match err with
  | .ERR_OK => ({ que := que.que ++ [{ type := type, reply := reply, param := param }] }, err)
  | .error _ => (que, err)

/-- The method `GPS_class::send()`; `err` is the status `MsgLib::send` reports. -/
def GPS_class.send (err : err_t) (w : ProducerWorld) : ProducerWorld × ProducerOutcome :=
  match w.MSGQ_GPS.recv with
  | none => (w, .blocked)
  | some msg =>
    let w := { w with calls := w.calls ++ [ProducerCall.recv w.gps.ret_id msg] }
    if msg.type = w.gps.msg_type then
      let _message := msg.param
      let w := { w with calls := w.calls ++ [ProducerCall.moveParam msg] }
      let (que, _err) := w.MSGQ_MAVLINK.send err w.gps.msg_type w.gps.ret_id w.gps.gps_input
      let w := { w with MSGQ_MAVLINK := que,
                        calls := w.calls ++ [ProducerCall.send w.gps.send_id .MsgPriNormal
                          w.gps.msg_type w.gps.ret_id w.gps.gps_input] }
      let w := { w with MSGQ_GPS := w.MSGQ_GPS.pop,
                        calls := w.calls ++ [ProducerCall.pop w.gps.ret_id msg] }
      (w, .returned)
    else
      (w, .returned)

/-- One pass of the loop of `main` in `GPS_main.cxx`: `gps.set()` then `gps.send()`. -/
def GPS_main_pass (err : err_t) (w : ProducerWorld) : ProducerWorld × ProducerOutcome :=
  GPS_class.send err { w with gps := w.gps.set }

/-- Whether the call of the producer is a `send`. -/
def ProducerCall.isSend : ProducerCall → Bool
  | .send _ _ _ _ _ => true
  | _ => false

/-- Whether the call of the producer is a `pop`. -/
def ProducerCall.isPop : ProducerCall → Bool
  | .pop _ _ => true
  | _ => false

/-- Whether the step is one of the write thread. -/
def Move.isWrite : Move → Bool
  | .write _ _ _ => true
  | _ => false

/-- Whether the step is one of the read thread. -/
def Move.isRead : Move → Bool
  | .read _ _ _ => true
  | _ => false

/-- Whether the read thread has executed `reading_status = true`. -/
def read_thread_pc.signalled : read_thread_pc → Bool
  | .not_created => false
  | .start_read_thread => false
  | .signal_reading => false
  | .already_running => false
  | _ => true

/-- The write thread has been created and is running `write_thread()` or about to:
it has not returned from `start_write_thread()` as "already running", and if it
still stands before that test, the test will let it through. -/
def Lifecycle.write_runs (s : Lifecycle) : Prop :=
  s.write ≠ .not_created ∧ s.write ≠ .already_running ∧
  (s.write = .start_write_thread → s.ap.writing_status = 0)

/-- The read thread has been created and is running `read_thread()` or about to. -/
def Lifecycle.read_runs (s : Lifecycle) : Prop :=
  s.read ≠ .not_created ∧ s.read ≠ .already_running ∧
  (s.read = .start_read_thread → s.ap.reading_status = 0)

/-- What holds of every state reached from the call of `start()` on an object
whose `reading_status` is `0`: the flag is non-zero only once the read thread has
set it, and the read thread has not found itself "already running". -/
def Lifecycle.gated_read (s : Lifecycle) : Prop :=
  (s.start.before_read_thread = true → s.read = .not_created) ∧
  (s.read.signalled = false → s.ap.reading_status = 0) ∧
  s.read ≠ .already_running

instance (s : Lifecycle) : Decidable s.write_runs := by
  unfold Lifecycle.write_runs; infer_instance

instance (s : Lifecycle) : Decidable s.read_runs := by
  unfold Lifecycle.read_runs; infer_instance

/-! ## Concrete inputs -/

/-- The mask and frame constants as the upstream `autopilot_interface.h` and
`mavlink.h` give them, with `7` for the response kind; used to evaluate the
definitions on concrete inputs. -/
def exampleHeader : Header :=
  { MAVLINK_MSG_SET_POSITION_TARGET_LOCAL_NED_POSITION := 0b0000110111111000,
    MAVLINK_MSG_SET_POSITION_TARGET_LOCAL_NED_VELOCITY := 0b0000110111000111,
    MAVLINK_MSG_SET_POSITION_TARGET_LOCAL_NED_ACCELERATION := 0b0000110000111111,
    MAVLINK_MSG_SET_POSITION_TARGET_LOCAL_NED_YAW_ANGLE := 0b0000100111111111,
    MAVLINK_MSG_SET_POSITION_TARGET_LOCAL_NED_YAW_RATE := 0b0000010111111111,
    MAV_FRAME_LOCAL_NED := 1,
    MSG_TYPE_RESPONSE := 7 }

/-- A setpoint record with every field zero. -/
def exampleSetpoint : mavlink_set_position_target_local_ned_t :=
  { time_boot_ms := 0, x := float.zero, y := float.zero, z := float.zero,
    vx := float.zero, vy := float.zero, vz := float.zero,
    afx := float.zero, afy := float.zero, afz := float.zero,
    yaw := float.zero, yaw_rate := float.zero, type_mask := 0,
    target_system := 0, target_component := 0, coordinate_frame := 0 }

/-- A telemetry store in which nothing has been received. -/
def exampleMessages : Mavlink_Messages :=
  { sysid := 0, compid := 0,
    heartbeat := .raw [], sys_status := .raw [], battery_status := .raw [],
    radio_status := .raw [], local_position_ned := .raw [], global_position_int := .raw [],
    position_target_local_ned := .raw [], position_target_global_int := .raw [],
    highres_imu := .raw [], attitude := .raw [], gps_raw_int := .raw [],
    command_ack := .raw [], time_stamps := Time_Stamps.reset }

/-- The object as its constructor leaves it, on an open port that has written
nothing; the members the constructor does not assign are taken as zero. -/
def exampleInterface : Autopilot_Interface :=
  { write_count := 0, reading_status := 0, writing_status := 0, control_status := 0,
    time_to_exit := false, system_id := 0, autopilot_id := 0, companion_id := 0,
    current_messages := exampleMessages, current_setpoint := exampleSetpoint,
    initial_position := exampleSetpoint,
    port := { is_running := true, written := [] } }

/-- The object once `start()` has learned the ids `1`, `1` of the vehicle. -/
def exampleStarted : Autopilot_Interface :=
  { exampleInterface with
    system_id := 1, autopilot_id := 1,
    current_messages := { exampleMessages with sysid := 1, compid := 1 } }

/-- The fix `GPS_class::set` prepares. -/
def exampleFix : mavlink_hil_gps_t :=
  { time_usec := 0, lat := 351523041, lon := 1369686962, alt := 0,
    eph := 65535, epv := 65535, vel := 65535, vn := 0, ve := 0, vd := 0,
    cog := 65535, fix_type := 3, satellites_visible := 1 }

/-- The reply of the producer: the fix, with the kind of `exampleHeader`. -/
def exampleReply : MsgPacket mavlink_hil_gps_t :=
  { type := 7, reply := .MSGQ_GPS, param := exampleFix }

/-- A packet of another kind. -/
def exampleStray : MsgPacket mavlink_hil_gps_t :=
  { type := 8, reply := .MSGQ_GPS, param := { exampleFix with lat := 0, lon := 0 } }

/-- The inbound queue holds the reply of the producer. -/
def exampleWorld : World :=
  { ap := exampleStarted, MSGQ_MAVLINK := { que := [exampleReply] }, calls := [] }

/-- The inbound queue holds a packet of another kind, then the reply of the producer. -/
def exampleWorldStray : World :=
  { ap := exampleStarted, MSGQ_MAVLINK := { que := [exampleStray, exampleReply] },
    calls := [] }

/-- A first message, from system `1`, component `1`. -/
def exampleFirstMessage : mavlink_message_t :=
  { sysid := 1, compid := 1, msgid := .HEARTBEAT, payload := .raw [] }

/-- A later message, from system `2`, component `50`. -/
def exampleLaterMessage : mavlink_message_t :=
  { sysid := 2, compid := 50, msgid := .ATTITUDE, payload := .raw [] }

/-- One message of each kind named in the conjunction of `received_all`, none of
kind `COMMAND_ACK`, each received at a non-zero time. -/
def exampleElevenReads : List (Bool × mavlink_message_t × Nat) :=
  [(true, { sysid := 1, compid := 1, msgid := .HEARTBEAT, payload := .raw [] }, 101),
   (true, { sysid := 1, compid := 1, msgid := .SYS_STATUS, payload := .raw [] }, 102),
   (true, { sysid := 1, compid := 1, msgid := .BATTERY_STATUS, payload := .raw [] }, 103),
   (true, { sysid := 1, compid := 1, msgid := .RADIO_STATUS, payload := .raw [] }, 104),
   (true, { sysid := 1, compid := 1, msgid := .LOCAL_POSITION_NED, payload := .raw [] }, 105),
   (true, { sysid := 1, compid := 1, msgid := .GLOBAL_POSITION_INT, payload := .raw [] }, 106),
   (true, { sysid := 1, compid := 1, msgid := .POSITION_TARGET_LOCAL_NED,
            payload := .raw [] }, 107),
   (true, { sysid := 1, compid := 1, msgid := .POSITION_TARGET_GLOBAL_INT,
            payload := .raw [] }, 108),
   (true, { sysid := 1, compid := 1, msgid := .HIGHRES_IMU, payload := .raw [] }, 109),
   (true, { sysid := 1, compid := 1, msgid := .ATTITUDE, payload := .raw [] }, 110),
   (true, { sysid := 1, compid := 1, msgid := .GPS_RAW_INT, payload := .raw [] }, 111)]

/-- The locals of `read_messages()` on entry to its loop. -/
def exampleLocals : read_messages_locals :=
  { received_all := false, this_timestamps := Time_Stamps.reset }

/-- The object with off-board control switched on. -/
def exampleOffboard : Autopilot_Interface :=
  { exampleStarted with control_status := 1 }

/-- The object as its constructor leaves it, on a port that is not open. -/
def exampleClosed : Autopilot_Interface :=
  { exampleInterface with port := { is_running := false, written := [] } }

/-- An interleaving from the call of `start()`: the read thread is created and
receives a first message, `start()` learns the ids and creates the write thread,
the write thread executes `writing_status = 2`, and `start()` then evaluates the
condition of its last wait. -/
def exampleGateSchedule : List Move :=
  [.start 0, .start 0,
   .read true exampleFirstMessage 100, .read true exampleFirstMessage 100,
   .read true exampleFirstMessage 100, .read true exampleFirstMessage 100,
   .read true exampleFirstMessage 100,
   .start 0, .start 0, .start 0,
   .write exampleSetpoint 200 30, .write exampleSetpoint 200 30,
   .start 0]

/-- The interleaving `exampleGateSchedule` followed by the assignment of `stop()`. -/
def exampleStopSchedule : List Move :=
  exampleGateSchedule ++ [.stop]

/-- Steps of both threads after the assignment of `stop()`, seven of each. -/
def exampleAfterStop : List Move :=
  [.write exampleSetpoint 300 30, .read true exampleLaterMessage 300,
   .write exampleSetpoint 300 30, .read true exampleLaterMessage 300,
   .write exampleSetpoint 300 30, .read true exampleLaterMessage 300,
   .write exampleSetpoint 300 30, .read true exampleLaterMessage 300,
   .write exampleSetpoint 300 30, .read true exampleLaterMessage 300,
   .write exampleSetpoint 300 30, .read true exampleLaterMessage 300,
   .write exampleSetpoint 300 30, .read true exampleLaterMessage 300]

/-- The velocity setpoint `vx = 1.0`, `vy = 0`, `vz = 0` a caller commits. -/
def exampleCommitted : mavlink_set_position_target_local_ned_t :=
  set_velocity exampleHeader float.one float.zero float.zero exampleSetpoint

/-- The object with the ids `1`, `1` whose setpoint cell holds a record that
already carries a time and the target ids `5`, `9`. -/
def exampleAddressed : Autopilot_Interface :=
  { exampleStarted with
    current_setpoint :=
      { exampleSetpoint with time_boot_ms := 77, target_system := 5, target_component := 9 } }

/-- The request as the relay posts it: kind of `exampleHeader`, reply queue
`MSGQ_MAVLINK`, payload `{0}`. -/
def exampleRequest : MsgPacket message_t :=
  { type := 7, reply := .MSGQ_MAVLINK, param := { num := 0 } }

/-- A packet of another kind on the producer queue. -/
def exampleStrayRequest : MsgPacket message_t :=
  { type := 8, reply := .MSGQ_MAVLINK, param := { num := 0 } }

/-- The producer after its constructor, with a request waiting and no reply posted. -/
def exampleProducer : ProducerWorld :=
  { gps := GPS_class.construct exampleHeader { exampleFix with lat := 0, lon := 0, fix_type := 0 },
    MSGQ_GPS := { que := [exampleRequest] },
    MSGQ_MAVLINK := { que := [] },
    calls := [] }

/-- The producer after its constructor, with a packet of another kind waiting. -/
def exampleProducerStray : ProducerWorld :=
  { exampleProducer with MSGQ_GPS := { que := [exampleStrayRequest, exampleRequest] } }

/-! ## Setpoint helpers: theorems -/

/-- C8: for every `ax`, `ay`, `az` and every setpoint record `sp`, `set_acceleration`
raises the error `1` and leaves `sp` as it was, every field included. -/
theorem set_acceleration_fails_and_leaves_sp (H : Header) (ax ay az : float)
    (sp : mavlink_set_position_target_local_ned_t) :
    (set_acceleration H ax ay az).run.run sp = (Except.error 1, sp) := by
  rfl

/-- C9: `set_velocity` sets `type_mask` to the VELOCITY mask whatever it was,
`coordinate_frame` to `MAV_FRAME_LOCAL_NED` and `vx`, `vy`, `vz` to its arguments, and
leaves every other field alone; `set_position` does the same with the POSITION mask
and `x`, `y`, `z`. The two masks being different constants, the mask left by either
call is that of exactly one of position and velocity. -/
theorem set_position_set_velocity_effect (H : Header) (a b c : float)
    (sp : mavlink_set_position_target_local_ned_t) :
    ((set_velocity H a b c sp).type_mask = H.MAVLINK_MSG_SET_POSITION_TARGET_LOCAL_NED_VELOCITY ∧
     (set_velocity H a b c sp).coordinate_frame = H.MAV_FRAME_LOCAL_NED ∧
     (set_velocity H a b c sp).vx = a ∧
     (set_velocity H a b c sp).vy = b ∧
     (set_velocity H a b c sp).vz = c ∧
     (set_velocity H a b c sp).x = sp.x ∧
     (set_velocity H a b c sp).y = sp.y ∧
     (set_velocity H a b c sp).z = sp.z ∧
     (set_velocity H a b c sp).afx = sp.afx ∧
     (set_velocity H a b c sp).afy = sp.afy ∧
     (set_velocity H a b c sp).afz = sp.afz ∧
     (set_velocity H a b c sp).yaw = sp.yaw ∧
     (set_velocity H a b c sp).yaw_rate = sp.yaw_rate ∧
     (set_velocity H a b c sp).time_boot_ms = sp.time_boot_ms ∧
     (set_velocity H a b c sp).target_system = sp.target_system ∧
     (set_velocity H a b c sp).target_component = sp.target_component) ∧
    ((set_position H a b c sp).type_mask = H.MAVLINK_MSG_SET_POSITION_TARGET_LOCAL_NED_POSITION ∧
     (set_position H a b c sp).coordinate_frame = H.MAV_FRAME_LOCAL_NED ∧
     (set_position H a b c sp).x = a ∧
     (set_position H a b c sp).y = b ∧
     (set_position H a b c sp).z = c ∧
     (set_position H a b c sp).vx = sp.vx ∧
     (set_position H a b c sp).vy = sp.vy ∧
     (set_position H a b c sp).vz = sp.vz ∧
     (set_position H a b c sp).afx = sp.afx ∧
     (set_position H a b c sp).afy = sp.afy ∧
     (set_position H a b c sp).afz = sp.afz ∧
     (set_position H a b c sp).yaw = sp.yaw ∧
     (set_position H a b c sp).yaw_rate = sp.yaw_rate ∧
     (set_position H a b c sp).time_boot_ms = sp.time_boot_ms ∧
     (set_position H a b c sp).target_system = sp.target_system ∧
     (set_position H a b c sp).target_component = sp.target_component) ∧
    (H.MAVLINK_MSG_SET_POSITION_TARGET_LOCAL_NED_POSITION ≠
        H.MAVLINK_MSG_SET_POSITION_TARGET_LOCAL_NED_VELOCITY →
      (set_velocity H a b c sp).type_mask ≠
          H.MAVLINK_MSG_SET_POSITION_TARGET_LOCAL_NED_POSITION ∧
      (set_position H a b c sp).type_mask ≠
          H.MAVLINK_MSG_SET_POSITION_TARGET_LOCAL_NED_VELOCITY) := by
  refine ⟨?_, ?_, ?_⟩
  · simp [set_velocity]
  · simp [set_position]
  · intro hne
    exact ⟨fun h => hne (by simpa [set_velocity] using h.symm),
           fun h => hne (by simpa [set_position] using h)⟩

/-! ## Setpoint cell and streamer: theorems -/

/-- A streamer cycle writes one message, the encoding of the stamped copy of the cell. -/
theorem write_setpoint_written (now : Nat) (len : Int) (ap : Autopilot_Interface) :
    (write_setpoint now len ap).port.written = ap.port.written ++
      [mavlink_msg_set_position_target_local_ned_encode (ap.system_id % 256)
        (ap.companion_id % 256) (write_setpoint_PACK_PAYLOAD now ap)] := by
  simp [write_setpoint, write_message, Generic_Port.write_message]

/-- A streamer cycle changes the transport and the write counter only. -/
theorem write_setpoint_frame (now : Nat) (len : Int) (ap : Autopilot_Interface) :
    (write_setpoint now len ap).current_setpoint = ap.current_setpoint ∧
    (write_setpoint now len ap).system_id = ap.system_id ∧
    (write_setpoint now len ap).autopilot_id = ap.autopilot_id ∧
    (write_setpoint now len ap).companion_id = ap.companion_id := by
  simp [write_setpoint, write_message, Generic_Port.write_message]

/-- Stamping touches `time_boot_ms`, `target_system` and `target_component` only. -/
theorem write_setpoint_PACK_PAYLOAD_fields (now : Nat) (ap : Autopilot_Interface) :
    (write_setpoint_PACK_PAYLOAD now ap).x = ap.current_setpoint.x ∧
    (write_setpoint_PACK_PAYLOAD now ap).y = ap.current_setpoint.y ∧
    (write_setpoint_PACK_PAYLOAD now ap).z = ap.current_setpoint.z ∧
    (write_setpoint_PACK_PAYLOAD now ap).vx = ap.current_setpoint.vx ∧
    (write_setpoint_PACK_PAYLOAD now ap).vy = ap.current_setpoint.vy ∧
    (write_setpoint_PACK_PAYLOAD now ap).vz = ap.current_setpoint.vz ∧
    (write_setpoint_PACK_PAYLOAD now ap).afx = ap.current_setpoint.afx ∧
    (write_setpoint_PACK_PAYLOAD now ap).afy = ap.current_setpoint.afy ∧
    (write_setpoint_PACK_PAYLOAD now ap).afz = ap.current_setpoint.afz ∧
    (write_setpoint_PACK_PAYLOAD now ap).yaw = ap.current_setpoint.yaw ∧
    (write_setpoint_PACK_PAYLOAD now ap).yaw_rate = ap.current_setpoint.yaw_rate ∧
    (write_setpoint_PACK_PAYLOAD now ap).type_mask = ap.current_setpoint.type_mask ∧
    (write_setpoint_PACK_PAYLOAD now ap).coordinate_frame =
      ap.current_setpoint.coordinate_frame := by
  by_cases h0 : ap.current_setpoint.time_boot_ms = 0 <;>
    simp [write_setpoint_PACK_PAYLOAD, h0]

/-- The streaming loop only adds to what has been written. -/
theorem write_thread_loop_written (cycles : List (Bool × Nat × Int))
    (ap : Autopilot_Interface) :
    ∃ rest, (write_thread_loop cycles ap).port.written = ap.port.written ++ rest := by
  induction cycles generalizing ap with
  | nil => exact ⟨[], by simp [write_thread_loop]⟩
  | cons c cycles ih =>
    obtain ⟨exit, now, len⟩ := c
    cases exit with
    | true => exact ⟨[], by simp [write_thread_loop]⟩
    | false =>
      obtain ⟨rest, hrest⟩ := ih (write_setpoint now len { ap with time_to_exit := false })
      refine ⟨mavlink_msg_set_position_target_local_ned_encode (ap.system_id % 256)
        (ap.companion_id % 256)
        (write_setpoint_PACK_PAYLOAD now { ap with time_to_exit := false }) :: rest, ?_⟩
      simp only [write_thread_loop, Bool.false_eq_true, if_false]
      rw [hrest, write_setpoint_written]
      simp

/-! ## GPS relay: theorems -/

/-- No pass of the loop is made when none is allowed. -/
theorem relay_loop_zero (msg_type t ts tc : Nat) (w : World) :
    send_input_hil_gps_message_loop msg_type t ts tc 0 w = (w, Loop.spinning) := rfl

/-- On an empty queue the loop waits in `recv`. -/
theorem relay_loop_empty (msg_type t ts tc passes : Nat) (w : World)
    (h : w.MSGQ_MAVLINK.que = []) :
    send_input_hil_gps_message_loop msg_type t ts tc (passes + 1) w = (w, Loop.blocked) := by
  simp [send_input_hil_gps_message_loop, MsgQueBlock.recv, h]

/-- With an entry of the expected type at the front the loop is left in its first pass. -/
theorem relay_loop_match (msg_type t ts tc passes : Nat) (w : World)
    (msg : MsgPacket mavlink_hil_gps_t) (rest : List (MsgPacket mavlink_hil_gps_t))
    (h : w.MSGQ_MAVLINK.que = msg :: rest) (hty : msg.type = msg_type) :
    send_input_hil_gps_message_loop msg_type t ts tc (passes + 1) w =
      ({ w with MSGQ_MAVLINK := { que := rest },
                calls := w.calls ++ [Call.recv .MSGQ_MAVLINK msg, Call.moveParam msg,
                  Call.pop .MSGQ_MAVLINK msg] },
       Loop.done (mavlink_msg_hil_gps_encode ts tc { msg.param with time_usec := t })) := by
  simp [send_input_hil_gps_message_loop, MsgQueBlock.recv, MsgQueBlock.pop, h, hty]

/-- With an entry of another type at the front every pass receives that same
entry and changes nothing but the log. -/
theorem relay_loop_mismatch (msg_type t ts tc : Nat) (msg : MsgPacket mavlink_hil_gps_t)
    (rest : List (MsgPacket mavlink_hil_gps_t)) (hty : msg.type ≠ msg_type) :
    ∀ (passes : Nat) (w : World), w.MSGQ_MAVLINK.que = msg :: rest →
      send_input_hil_gps_message_loop msg_type t ts tc passes w =
        ({ w with calls := w.calls ++
            List.replicate passes (Call.recv .MSGQ_MAVLINK msg) }, Loop.spinning) := by
  intro passes
  induction passes with
  | zero => intro w _; simp [send_input_hil_gps_message_loop]
  | succ n ih =>
    intro w h
    have h' : ({ w with calls := w.calls ++ [Call.recv .MSGQ_MAVLINK msg] } :
        World).MSGQ_MAVLINK.que = msg :: rest := h
    simp only [send_input_hil_gps_message_loop, MsgQueBlock.recv, h, List.head?_cons,
      hty, if_false]
    rw [ih _ h']
    simp [List.replicate_succ]

/-- With no pass allowed the relay has only posted its request. -/
theorem relay_zero (H : Header) (t : Nat) (len : Int) (w : World) :
    send_input_hil_gps_message H 0 t len w =
      ({ w with calls := w.calls ++ [relayRequest H] }, Outcome.spinning) := by
  simp [send_input_hil_gps_message, send_input_hil_gps_message_loop, relayRequest]

/-- On an empty queue the relay posts its request and waits in `recv`. -/
theorem relay_empty (H : Header) (passes t : Nat) (len : Int) (w : World)
    (h : w.MSGQ_MAVLINK.que = []) :
    send_input_hil_gps_message H (passes + 1) t len w =
      ({ w with calls := w.calls ++ [relayRequest H] }, Outcome.blocked) := by
  have h' : ({ w with calls := w.calls ++ [relayRequest H] } : World).MSGQ_MAVLINK.que = [] := h
  simp only [send_input_hil_gps_message]
  rw [← relayRequest, relay_loop_empty _ _ _ _ _ _ h']

/-- With a packet of the expected type at the front the relay returns after one pass. -/
theorem relay_match (H : Header) (passes t : Nat) (len : Int) (w : World)
    (msg : MsgPacket mavlink_hil_gps_t) (rest : List (MsgPacket mavlink_hil_gps_t))
    (h : w.MSGQ_MAVLINK.que = msg :: rest) (hty : msg.type = H.MSG_TYPE_RESPONSE) :
    send_input_hil_gps_message H (passes + 1) t len w =
      ({ w with
          ap := { w.ap with port := { w.ap.port with written := w.ap.port.written ++
            [mavlink_msg_hil_gps_encode (w.ap.system_id % 256) (w.ap.autopilot_id % 256)
              { msg.param with time_usec := t }] } },
          MSGQ_MAVLINK := { que := rest },
          calls := w.calls ++ [relayRequest H, Call.recv .MSGQ_MAVLINK msg,
            Call.moveParam msg, Call.pop .MSGQ_MAVLINK msg,
            Call.write_message (mavlink_msg_hil_gps_encode (w.ap.system_id % 256)
              (w.ap.autopilot_id % 256) { msg.param with time_usec := t })] },
       Outcome.returned len) := by
  have h' : ({ w with calls := w.calls ++ [relayRequest H] } : World).MSGQ_MAVLINK.que
      = msg :: rest := h
  simp only [send_input_hil_gps_message]
  rw [← relayRequest, relay_loop_match _ _ _ _ _ _ msg rest h' hty]
  simp [Generic_Port.write_message]

/-- With a packet of another type at the front the relay never leaves its loop. -/
theorem relay_mismatch (H : Header) (passes t : Nat) (len : Int) (w : World)
    (msg : MsgPacket mavlink_hil_gps_t) (rest : List (MsgPacket mavlink_hil_gps_t))
    (h : w.MSGQ_MAVLINK.que = msg :: rest) (hty : msg.type ≠ H.MSG_TYPE_RESPONSE) :
    send_input_hil_gps_message H passes t len w =
      ({ w with calls := w.calls ++ relayRequest H ::
          List.replicate passes (Call.recv .MSGQ_MAVLINK msg) }, Outcome.spinning) := by
  have h' : ({ w with calls := w.calls ++ [relayRequest H] } : World).MSGQ_MAVLINK.que
      = msg :: rest := h
  simp only [send_input_hil_gps_message]
  rw [← relayRequest, relay_loop_mismatch _ _ _ _ msg rest hty passes _ h']
  simp

/-- C1: whatever the inbound queue holds and whatever the caller time, however far
a call of the relay gets: the payload is taken (`moveParam`) only from packets of
the expected type, and every message the call hands to the transport is the
encoding of the payload of a received packet of the expected type, stamped with
the caller time. -/
theorem relay_forwards_only_expected_type (H : Header) (passes t : Nat) (len : Int)
    (w : World) :
    ∃ (calls : List Call) (sent : List mavlink_message_t),
      (send_input_hil_gps_message H passes t len w).1.calls = w.calls ++ calls ∧
      (send_input_hil_gps_message H passes t len w).1.ap.port.written =
        w.ap.port.written ++ sent ∧
      (∀ q, Call.moveParam q ∈ calls → q.type = H.MSG_TYPE_RESPONSE) ∧
      (∀ m, Call.write_message m ∈ calls → m ∈ sent) ∧
      ∀ m ∈ sent, ∃ q, q ∈ w.MSGQ_MAVLINK.que ∧ q.type = H.MSG_TYPE_RESPONSE ∧
        Call.recv .MSGQ_MAVLINK q ∈ calls ∧ Call.moveParam q ∈ calls ∧
        m = mavlink_msg_hil_gps_encode (w.ap.system_id % 256) (w.ap.autopilot_id % 256)
          { q.param with time_usec := t } := by
  cases passes with
  | zero =>
    refine ⟨[relayRequest H], [], ?_, ?_, ?_, ?_, ?_⟩ <;> simp [relay_zero, relayRequest]
  | succ n =>
    cases hq : w.MSGQ_MAVLINK.que with
    | nil =>
      refine ⟨[relayRequest H], [], ?_, ?_, ?_, ?_, ?_⟩ <;>
        simp [relay_empty H n t len w hq, relayRequest]
    | cons msg rest =>
      by_cases hty : msg.type = H.MSG_TYPE_RESPONSE
      · refine ⟨[relayRequest H, Call.recv .MSGQ_MAVLINK msg, Call.moveParam msg,
            Call.pop .MSGQ_MAVLINK msg,
            Call.write_message (mavlink_msg_hil_gps_encode (w.ap.system_id % 256)
              (w.ap.autopilot_id % 256) { msg.param with time_usec := t })],
          [mavlink_msg_hil_gps_encode (w.ap.system_id % 256) (w.ap.autopilot_id % 256)
              { msg.param with time_usec := t }], ?_, ?_, ?_, ?_, ?_⟩
        · simp [relay_match H n t len w msg rest hq hty]
        · simp [relay_match H n t len w msg rest hq hty]
        · intro q hmem
          simp [relayRequest] at hmem
          rw [hmem]; exact hty
        · intro m hmem
          simp [relayRequest] at hmem
          simp [hmem]
        · intro m hm
          refine ⟨msg, by simp, hty, by simp, by simp, ?_⟩
          simpa using hm
      · refine ⟨relayRequest H :: List.replicate (n + 1) (Call.recv .MSGQ_MAVLINK msg), [],
          ?_, ?_, ?_, ?_, ?_⟩
        · simp [relay_mismatch H (n + 1) t len w msg rest hq hty]
        · simp [relay_mismatch H (n + 1) t len w msg rest hq hty]
        · intro q hmem
          simp [relayRequest, List.mem_replicate] at hmem
        · intro m hmem
          simp [relayRequest, List.mem_replicate] at hmem
        · simp

/-- C3: with a reply of the expected type carrying the fix `f` at the front of the
inbound queue, the relay returns, and the record it encodes and hands to the
transport has `time_usec` equal to the caller time `t` and every other field
equal to that of `f`. -/
theorem relay_transmits_fix_with_caller_time (H : Header) (passes t : Nat) (len : Int)
    (w : World) (reply : MsgQueId) (f : mavlink_hil_gps_t)
    (rest : List (MsgPacket mavlink_hil_gps_t))
    (h : w.MSGQ_MAVLINK.que =
      { type := H.MSG_TYPE_RESPONSE, reply := reply, param := f } :: rest) :
    ∃ tx : mavlink_hil_gps_t,
      (send_input_hil_gps_message H (passes + 1) t len w).2 = Outcome.returned len ∧
      (send_input_hil_gps_message H (passes + 1) t len w).1.ap.port.written =
        w.ap.port.written ++
          [mavlink_msg_hil_gps_encode (w.ap.system_id % 256) (w.ap.autopilot_id % 256) tx] ∧
      tx.time_usec = t ∧
      tx.lat = f.lat ∧ tx.lon = f.lon ∧ tx.alt = f.alt ∧
      tx.eph = f.eph ∧ tx.epv = f.epv ∧ tx.vel = f.vel ∧
      tx.vn = f.vn ∧ tx.ve = f.ve ∧ tx.vd = f.vd ∧
      tx.cog = f.cog ∧ tx.fix_type = f.fix_type ∧
      tx.satellites_visible = f.satellites_visible := by
  refine ⟨{ f with time_usec := t }, ?_, ?_, ?_⟩
  · rw [relay_match H passes t len w _ rest h rfl]
  · rw [relay_match H passes t len w _ rest h rfl]
  · simp

/-- C4: in a call of the relay that returns, the calls made are, in this order:
the request, one `recv` delivering a packet of the expected type, `moveParam` on
that packet, one `pop` releasing it, one write to the transport; so `pop` and the
write happen exactly once each, the release after the payload is taken and the
write after the release. -/
theorem relay_releases_once_then_writes_once (H : Header) (passes t : Nat)
    (len l : Int) (w : World)
    (h : (send_input_hil_gps_message H passes t len w).2 = Outcome.returned l) :
    ∃ (msg : MsgPacket mavlink_hil_gps_t) (rest : List (MsgPacket mavlink_hil_gps_t))
      (calls : List Call) (m : mavlink_message_t),
      w.MSGQ_MAVLINK.que = msg :: rest ∧
      msg.type = H.MSG_TYPE_RESPONSE ∧
      l = len ∧
      (send_input_hil_gps_message H passes t len w).1.calls = w.calls ++ calls ∧
      calls = [relayRequest H, Call.recv .MSGQ_MAVLINK msg, Call.moveParam msg,
        Call.pop .MSGQ_MAVLINK msg, Call.write_message m] ∧
      calls.filter Call.isPop = [Call.pop .MSGQ_MAVLINK msg] ∧
      calls.filter Call.isWrite = [Call.write_message m] ∧
      (send_input_hil_gps_message H passes t len w).1.MSGQ_MAVLINK.que = rest ∧
      (send_input_hil_gps_message H passes t len w).1.ap.port.written =
        w.ap.port.written ++ [m] := by
  cases passes with
  | zero => simp [relay_zero] at h
  | succ n =>
    cases hq : w.MSGQ_MAVLINK.que with
    | nil => simp [relay_empty H n t len w hq] at h
    | cons msg rest =>
      by_cases hty : msg.type = H.MSG_TYPE_RESPONSE
      · refine ⟨msg, rest, _, mavlink_msg_hil_gps_encode (w.ap.system_id % 256)
          (w.ap.autopilot_id % 256) { msg.param with time_usec := t },
          rfl, hty, ?_, ?_, rfl, ?_, ?_, ?_, ?_⟩
        · rw [relay_match H n t len w msg rest hq hty] at h
          exact (Outcome.returned.inj h).symm
        · rw [relay_match H n t len w msg rest hq hty]
        · simp [relayRequest, Call.isPop]
        · simp [relayRequest, Call.isWrite]
        · rw [relay_match H n t len w msg rest hq hty]
        · rw [relay_match H n t len w msg rest hq hty]
      · simp [relay_mismatch H (n + 1) t len w msg rest hq hty] at h

/-- C5: however many passes a call of the relay makes and whatever it receives,
the first call it makes is one `send` to `MSGQ_GPS` at normal priority, with
reply queue `MSGQ_MAVLINK`, the kind `msg_type` the reply is then checked against
and the payload `{0}`; no later call is a `send`, and every `recv` comes after it. -/
theorem relay_posts_one_request_first (H : Header) (passes t : Nat) (len : Int)
    (w : World) :
    ∃ later : List Call,
      (send_input_hil_gps_message H passes t len w).1.calls =
        w.calls ++ Call.send .MSGQ_GPS .MsgPriNormal H.MSG_TYPE_RESPONSE .MSGQ_MAVLINK
          { num := 0 } :: later ∧
      (∀ c ∈ later, c.isSend = false) ∧
      ((w.calls ++ Call.send .MSGQ_GPS .MsgPriNormal H.MSG_TYPE_RESPONSE .MSGQ_MAVLINK
          { num := 0 } :: later).filter Call.isSend).length =
        (w.calls.filter Call.isSend).length + 1 := by
  have hcount : ∀ later : List Call, (∀ c ∈ later, c.isSend = false) →
      ((w.calls ++ Call.send .MSGQ_GPS .MsgPriNormal H.MSG_TYPE_RESPONSE .MSGQ_MAVLINK
          { num := 0 } :: later).filter Call.isSend).length =
        (w.calls.filter Call.isSend).length + 1 := by
    intro later hl
    have : later.filter Call.isSend = [] := by
      rw [List.filter_eq_nil_iff]
      intro c hc
      simp [hl c hc]
    simp [List.filter_append, List.filter_cons, Call.isSend, this]
  have key : ∃ later : List Call,
      (send_input_hil_gps_message H passes t len w).1.calls =
        w.calls ++ relayRequest H :: later ∧ (∀ c ∈ later, c.isSend = false) := by
    cases passes with
    | zero => exact ⟨[], by simp [relay_zero]⟩
    | succ n =>
      cases hq : w.MSGQ_MAVLINK.que with
      | nil => exact ⟨[], by simp [relay_empty H n t len w hq]⟩
      | cons msg rest =>
        by_cases hty : msg.type = H.MSG_TYPE_RESPONSE
        · refine ⟨_, by rw [relay_match H n t len w msg rest hq hty], ?_⟩
          intro c hc
          simp at hc
          rcases hc with rfl | rfl | rfl | rfl <;> rfl
        · refine ⟨_, by rw [relay_mismatch H (n + 1) t len w msg rest hq hty], ?_⟩
          intro c hc
          rw [List.mem_replicate] at hc
          rw [hc.2]; rfl
  obtain ⟨later, h1, h2⟩ := key
  exact ⟨later, h1, h2, hcount later h2⟩

/-! ## Theorems on concrete inputs -/

/-- C2, at the queue holding one packet of another kind and then the reply: however
many passes the loop of the relay makes, it receives the packet of the other kind
again each time, releases nothing, writes nothing and has not returned. -/
theorem relay_stuck_behind_stray_packet (passes : Nat) (len : Int) :
    (send_input_hil_gps_message exampleHeader passes 1000 len exampleWorldStray).2 =
      Outcome.spinning ∧
    (send_input_hil_gps_message exampleHeader passes 1000 len exampleWorldStray).1.MSGQ_MAVLINK.que
      = [exampleStray, exampleReply] ∧
    (send_input_hil_gps_message exampleHeader passes 1000 len exampleWorldStray).1.ap.port.written
      = [] ∧
    (send_input_hil_gps_message exampleHeader passes 1000 len exampleWorldStray).1.calls =
      relayRequest exampleHeader ::
        List.replicate passes (Call.recv .MSGQ_MAVLINK exampleStray) := by
  have h := relay_mismatch exampleHeader passes 1000 len exampleWorldStray exampleStray
    [exampleReply] rfl (by decide)
  rw [h]
  exact ⟨rfl, rfl, rfl, by simp [exampleWorldStray]⟩

/-- C3, the scenario of the specification: the reply carries `lat = 351523041`,
`lon = 1369686962`, `fix_type = 3` and the caller time is `1000`. -/
theorem relay_transmits_fix_with_caller_time_witness :
    exampleWorld.MSGQ_MAVLINK.que =
      [{ type := exampleHeader.MSG_TYPE_RESPONSE, reply := .MSGQ_GPS, param := exampleFix }] ∧
    ∃ tx : mavlink_hil_gps_t,
      (send_input_hil_gps_message exampleHeader 1 1000 42 exampleWorld).2 =
        Outcome.returned 42 ∧
      (send_input_hil_gps_message exampleHeader 1 1000 42 exampleWorld).1.ap.port.written =
        [] ++ [mavlink_msg_hil_gps_encode 1 1 tx] ∧
      tx.time_usec = 1000 ∧
      tx.lat = 351523041 ∧ tx.lon = 1369686962 ∧ tx.alt = 0 ∧
      tx.eph = 65535 ∧ tx.epv = 65535 ∧ tx.vel = 65535 ∧
      tx.vn = 0 ∧ tx.ve = 0 ∧ tx.vd = 0 ∧
      tx.cog = 65535 ∧ tx.fix_type = 3 ∧ tx.satellites_visible = 1 :=
  ⟨rfl, relay_transmits_fix_with_caller_time exampleHeader 0 1000 42 exampleWorld
    .MSGQ_GPS exampleFix [] rfl⟩

/-- C4, on the queue holding the reply of the producer. -/
theorem relay_releases_once_then_writes_once_witness :
    (send_input_hil_gps_message exampleHeader 3 1000 42 exampleWorld).2 =
      Outcome.returned 42 ∧
    ∃ (msg : MsgPacket mavlink_hil_gps_t) (rest : List (MsgPacket mavlink_hil_gps_t))
      (calls : List Call) (m : mavlink_message_t),
      exampleWorld.MSGQ_MAVLINK.que = msg :: rest ∧
      msg.type = exampleHeader.MSG_TYPE_RESPONSE ∧
      (42 : Int) = 42 ∧
      (send_input_hil_gps_message exampleHeader 3 1000 42 exampleWorld).1.calls =
        exampleWorld.calls ++ calls ∧
      calls = [relayRequest exampleHeader, Call.recv .MSGQ_MAVLINK msg, Call.moveParam msg,
        Call.pop .MSGQ_MAVLINK msg, Call.write_message m] ∧
      calls.filter Call.isPop = [Call.pop .MSGQ_MAVLINK msg] ∧
      calls.filter Call.isWrite = [Call.write_message m] ∧
      (send_input_hil_gps_message exampleHeader 3 1000 42 exampleWorld).1.MSGQ_MAVLINK.que
        = rest ∧
      (send_input_hil_gps_message exampleHeader 3 1000 42 exampleWorld).1.ap.port.written =
        exampleWorld.ap.port.written ++ [m] :=
  ⟨by decide, relay_releases_once_then_writes_once exampleHeader 3 1000 42 42 exampleWorld
    (by decide)⟩

/-- C9, with the masks of `exampleHeader`: after `set_velocity` the mask is not the
POSITION mask, after `set_position` it is not the VELOCITY mask. -/
theorem set_position_set_velocity_effect_witness :
    exampleHeader.MAVLINK_MSG_SET_POSITION_TARGET_LOCAL_NED_POSITION ≠
      exampleHeader.MAVLINK_MSG_SET_POSITION_TARGET_LOCAL_NED_VELOCITY ∧
    (set_velocity exampleHeader float.one float.zero float.zero
      (set_position exampleHeader float.one float.one float.one exampleSetpoint)).type_mask ≠
        exampleHeader.MAVLINK_MSG_SET_POSITION_TARGET_LOCAL_NED_POSITION ∧
    (set_position exampleHeader float.one float.zero float.zero
      (set_position exampleHeader float.one float.one float.one exampleSetpoint)).type_mask ≠
        exampleHeader.MAVLINK_MSG_SET_POSITION_TARGET_LOCAL_NED_VELOCITY :=
  ⟨by decide,
   (set_position_set_velocity_effect exampleHeader float.one float.zero float.zero
      (set_position exampleHeader float.one float.one float.one exampleSetpoint)).2.2
      (by decide)⟩

/-! ## Session identity: theorems -/

/-- C10 as stated fails: the reader has recorded the sender ids `1`, `1` of a first
message; after a later message from system `2`, component `50`, the recorded ids
are `2` and `50`. -/
theorem reader_overwrites_recorded_sender_ids :
    ((read_messages [(false, true, exampleFirstMessage, 100)]
        exampleInterface).current_messages.sysid = 1 ∧
     (read_messages [(false, true, exampleFirstMessage, 100)]
        exampleInterface).current_messages.compid = 1) ∧
    ((read_messages [(false, true, exampleFirstMessage, 100),
        (false, true, exampleLaterMessage, 200)] exampleInterface).current_messages.sysid = 2 ∧
     (read_messages [(false, true, exampleFirstMessage, 100),
        (false, true, exampleLaterMessage, 200)] exampleInterface).current_messages.compid
        = 50) := by
  decide

/-- One pass of the reader leaves the members `system_id` and `autopilot_id` alone. -/
theorem read_messages_iteration_ids (success : Bool) (message : mavlink_message_t)
    (now : Nat) (ap : Autopilot_Interface) (loc : read_messages_locals) :
    (read_messages_iteration success message now ap loc).1.system_id = ap.system_id ∧
    (read_messages_iteration success message now ap loc).1.autopilot_id = ap.autopilot_id := by
  simp [read_messages_iteration]

/-- The loop of the reader leaves the members `system_id` and `autopilot_id` alone. -/
theorem read_messages_loop_ids (reads : List (Bool × Bool × mavlink_message_t × Nat))
    (ap : Autopilot_Interface) (loc : read_messages_locals) :
    (read_messages_loop reads ap loc).1.system_id = ap.system_id ∧
    (read_messages_loop reads ap loc).1.autopilot_id = ap.autopilot_id := by
  induction reads generalizing ap loc with
  | nil => simp [read_messages_loop]
  | cons r reads ih =>
    obtain ⟨exit, success, message, now⟩ := r
    simp only [read_messages_loop]
    split
    · have h1 := ih (read_messages_iteration success message now
        { ap with time_to_exit := exit } loc).1
        (read_messages_iteration success message now { ap with time_to_exit := exit } loc).2
      have h2 := read_messages_iteration_ids success message now
        { ap with time_to_exit := exit } loc
      exact ⟨h1.1.trans h2.1, h1.2.trans h2.2⟩
    · exact ⟨rfl, rfl⟩

/-- C10, amended: each successfully received message overwrites the sender ids the
reader keeps in `current_messages`; the session identity `system_id`,
`autopilot_id` is what is never overwritten: the reader does not change it, and
`start()` copies each of the two from `current_messages` only while it is zero. -/
theorem session_identity_first_writer_wins (success : Bool) (message : mavlink_message_t)
    (now : Nat) (ap : Autopilot_Interface) (loc : read_messages_locals)
    (reads : List (Bool × Bool × mavlink_message_t × Nat)) :
    (success = true →
      (read_messages_iteration success message now ap loc).1.current_messages.sysid =
        message.sysid ∧
      (read_messages_iteration success message now ap loc).1.current_messages.compid =
        message.compid) ∧
    ((read_messages_iteration success message now ap loc).1.system_id = ap.system_id ∧
     (read_messages_iteration success message now ap loc).1.autopilot_id = ap.autopilot_id) ∧
    ((read_messages reads ap).system_id = ap.system_id ∧
     (read_messages reads ap).autopilot_id = ap.autopilot_id) ∧
    (ap.system_id ≠ 0 →
      (start_GET_SYSTEM_and_COMPONENT_IDs ap).system_id = ap.system_id) ∧
    (ap.autopilot_id ≠ 0 →
      (start_GET_SYSTEM_and_COMPONENT_IDs ap).autopilot_id = ap.autopilot_id) ∧
    (ap.system_id = 0 →
      (start_GET_SYSTEM_and_COMPONENT_IDs ap).system_id = ap.current_messages.sysid) ∧
    (ap.autopilot_id = 0 →
      (start_GET_SYSTEM_and_COMPONENT_IDs ap).autopilot_id = ap.current_messages.compid) := by
  refine ⟨?_, read_messages_iteration_ids success message now ap loc,
    read_messages_loop_ids reads ap _, ?_, ?_, ?_, ?_⟩
  · intro hs
    subst hs
    cases hid : message.msgid <;> simp [read_messages_iteration, hid]
  · intro h
    by_cases h2 : ap.autopilot_id = 0 <;> simp [start_GET_SYSTEM_and_COMPONENT_IDs, h, h2]
  · intro h
    by_cases h2 : ap.system_id = 0 <;> simp [start_GET_SYSTEM_and_COMPONENT_IDs, h, h2]
  · intro h
    by_cases h2 : ap.autopilot_id = 0 <;> simp [start_GET_SYSTEM_and_COMPONENT_IDs, h, h2]
  · intro h
    by_cases h2 : ap.system_id = 0 <;> simp [start_GET_SYSTEM_and_COMPONENT_IDs, h, h2]

/-- C10, amended, on the object that has learned the ids `1`, `1`: the later message
from system `2`, component `50` replaces the ids in `current_messages` and leaves
`system_id` and `autopilot_id` at `1`, as does the identity section of `start()`. -/
theorem session_identity_first_writer_wins_witness :
    ((read_messages_iteration true exampleLaterMessage 200 exampleStarted
        { received_all := false, this_timestamps := Time_Stamps.reset }).1.current_messages.sysid
        = 2 ∧
     (read_messages_iteration true exampleLaterMessage 200 exampleStarted
        { received_all := false, this_timestamps := Time_Stamps.reset }).1.current_messages.compid
        = 50) ∧
    ((read_messages_iteration true exampleLaterMessage 200 exampleStarted
        { received_all := false, this_timestamps := Time_Stamps.reset }).1.system_id = 1 ∧
     (read_messages_iteration true exampleLaterMessage 200 exampleStarted
        { received_all := false, this_timestamps := Time_Stamps.reset }).1.autopilot_id = 1) ∧
    (start_GET_SYSTEM_and_COMPONENT_IDs exampleStarted).system_id = 1 ∧
    (start_GET_SYSTEM_and_COMPONENT_IDs exampleStarted).autopilot_id = 1 :=
  ⟨(session_identity_first_writer_wins true exampleLaterMessage 200 exampleStarted
      { received_all := false, this_timestamps := Time_Stamps.reset } []).1 rfl,
   (session_identity_first_writer_wins true exampleLaterMessage 200 exampleStarted
      { received_all := false, this_timestamps := Time_Stamps.reset } []).2.1,
   (session_identity_first_writer_wins true exampleLaterMessage 200 exampleStarted
      { received_all := false, this_timestamps := Time_Stamps.reset } []).2.2.2.1
      (by decide),
   (session_identity_first_writer_wins true exampleLaterMessage 200 exampleStarted
      { received_all := false, this_timestamps := Time_Stamps.reset } []).2.2.2.2.1
      (by decide)⟩

/-! ## Telemetry reader: theorems -/

/-- The time stamp of a recognized kind after one pass: the clock if a message of
that kind was received, the value before otherwise. -/
theorem read_messages_iteration_stamp (success : Bool) (message : mavlink_message_t)
    (now : Nat) (ap : Autopilot_Interface) (loc : read_messages_locals)
    (K : MAVLINK_MSG_ID) (hK : K.recognized = true) :
    (read_messages_iteration success message now ap loc).2.this_timestamps.get K =
      if success = true ∧ message.msgid = K then now else loc.this_timestamps.get K := by
  cases success
  · simp [read_messages_iteration]
  · cases K <;> simp [MAVLINK_MSG_ID.recognized] at hK <;>
      cases hm : message.msgid <;>
      simp [read_messages_iteration, Time_Stamps.get, hm]

/-- The flag `received_all` after a pass is the conjunction over the eleven kinds. -/
theorem read_messages_iteration_received_all (success : Bool) (message : mavlink_message_t)
    (now : Nat) (ap : Autopilot_Interface) (loc : read_messages_locals) :
    (read_messages_iteration success message now ap loc).2.received_all = true ↔
      ∀ K ∈ elevenKinds,
        (read_messages_iteration success message now ap loc).2.this_timestamps.get K ≠ 0 := by
  simp only [read_messages_iteration, elevenKinds, Time_Stamps.get, List.forall_mem_cons,
    List.not_mem_nil, Bool.and_eq_true, decide_eq_true_eq]
  tauto

/-- The eleven kinds of the conjunction all have a `case` in the `switch`. -/
theorem elevenKinds_recognized : ∀ K ∈ elevenKinds, K.recognized = true := by
  decide

/-- The time stamp of a recognized kind is non-zero after some passes exactly when
it was non-zero before or a message of that kind was received in one of them,
receipt times being non-zero. -/
theorem read_messages_passes_stamp (reads : List (Bool × mavlink_message_t × Nat))
    (ap : Autopilot_Interface) (loc : read_messages_locals) (K : MAVLINK_MSG_ID)
    (hK : K.recognized = true) (hnow : ∀ r ∈ reads, r.1 = true → r.2.2 ≠ 0) :
    (read_messages_passes reads ap loc).2.this_timestamps.get K ≠ 0 ↔
      loc.this_timestamps.get K ≠ 0 ∨ receivedKind reads K := by
  induction reads generalizing ap loc with
  | nil => simp [read_messages_passes, receivedKind]
  | cons r reads ih =>
    obtain ⟨success, message, now⟩ := r
    have hrest : ∀ x ∈ reads, x.1 = true → x.2.2 ≠ 0 :=
      fun x hx => hnow x (List.mem_cons_of_mem _ hx)
    have hhead : success = true → now ≠ 0 :=
      fun hs => hnow (success, message, now) (List.mem_cons_self _ _) hs
    simp only [read_messages_passes]
    rw [ih _ _ hrest, read_messages_iteration_stamp success message now ap loc K hK]
    simp only [receivedKind, List.exists_mem_cons_iff]
    by_cases hc : success = true ∧ message.msgid = K
    · have hn : now ≠ 0 := hhead hc.1
      simp [hc, hn]
    · simp only [hc, if_false, false_or]

/-- After at least one pass `received_all` is the conjunction over the eleven kinds
of the time stamps of the loop. -/
theorem read_messages_passes_received_all (reads : List (Bool × mavlink_message_t × Nat))
    (hne : reads ≠ []) (ap : Autopilot_Interface) (loc : read_messages_locals) :
    (read_messages_passes reads ap loc).2.received_all = true ↔
      ∀ K ∈ elevenKinds, (read_messages_passes reads ap loc).2.this_timestamps.get K ≠ 0 := by
  induction reads generalizing ap loc with
  | nil => exact absurd rfl hne
  | cons r reads ih =>
    obtain ⟨success, message, now⟩ := r
    by_cases hrest : reads = []
    · subst hrest
      simp only [read_messages_passes]
      exact read_messages_iteration_received_all success message now ap loc
    · simp only [read_messages_passes]
      exact ih hrest _ _

/-- C11 as stated fails: after one message of each of eleven kinds, none of them a
command acknowledgement, `received_all` is true, in the loop of `read_messages()`
as in its passes taken one by one. -/
theorem received_all_without_command_ack :
    (read_messages_loop (exampleElevenReads.map fun r => (false, r)) exampleInterface
        exampleLocals).2.received_all = true ∧
    (read_messages_passes exampleElevenReads exampleInterface exampleLocals).2.received_all
      = true ∧
    (∀ r ∈ exampleElevenReads, r.2.2 ≠ 0) ∧
    ¬ receivedKind exampleElevenReads .COMMAND_ACK ∧
    ¬ (∀ K ∈ twelveKinds, receivedKind exampleElevenReads K) := by
  decide

/-- C11, amended: after any number of passes of the loop of `read_messages()`, at
least one, with non-zero receipt times, `received_all` is true if and only if a
message of each of the eleven kinds heartbeat, battery, radio-status,
local-position, global-position, position-target-local, position-target-global,
imu, attitude, gps-raw and system-status has been received since the loop
started; command-ack is not among them. -/
theorem received_all_iff_eleven_kinds_received
    (reads : List (Bool × mavlink_message_t × Nat)) (ap : Autopilot_Interface)
    (hne : reads ≠ []) (hnow : ∀ r ∈ reads, r.1 = true → r.2.2 ≠ 0) :
    ((read_messages_passes reads ap
        { received_all := false, this_timestamps := Time_Stamps.reset }).2.received_all = true ↔
      ∀ K ∈ elevenKinds, receivedKind reads K) ∧
    MAVLINK_MSG_ID.COMMAND_ACK ∉ elevenKinds := by
  refine ⟨?_, by decide⟩
  rw [read_messages_passes_received_all reads hne]
  constructor
  · intro h K hK
    have h1 := (read_messages_passes_stamp reads ap _ K (elevenKinds_recognized K hK) hnow).1
      (h K hK)
    rcases h1 with h0 | hr
    · exact absurd (by cases K <;> rfl) h0
    · exact hr
  · intro h K hK
    exact (read_messages_passes_stamp reads ap _ K (elevenKinds_recognized K hK) hnow).2
      (Or.inr (h K hK))

/-- C11, amended, on one message of each of the eleven kinds. -/
theorem received_all_iff_eleven_kinds_received_witness :
    exampleElevenReads ≠ [] ∧
    (∀ r ∈ exampleElevenReads, r.1 = true → r.2.2 ≠ 0) ∧
    ((read_messages_passes exampleElevenReads exampleInterface
        { received_all := false, this_timestamps := Time_Stamps.reset }).2.received_all = true ↔
      ∀ K ∈ elevenKinds, receivedKind exampleElevenReads K) ∧
    MAVLINK_MSG_ID.COMMAND_ACK ∉ elevenKinds :=
  ⟨by decide, by decide,
   received_all_iff_eleven_kinds_received exampleElevenReads exampleInterface
     (by decide) (by decide)⟩

/-- C12: in one pass of the loop of `read_messages()`, a successfully received
message of a recognized kind sets the stored value and the time stamp of its kind
and leaves those of every other kind as they were; a message of an unrecognized
kind changes nothing but the recorded sender ids; a failed receive changes
nothing at all. -/
theorem read_messages_iteration_store_frame (success : Bool) (message : mavlink_message_t)
    (now : Nat) (ap : Autopilot_Interface) (loc : read_messages_locals) :
    (success = true → message.msgid.recognized = true →
      (read_messages_iteration success message now ap loc).1.current_messages.get
          message.msgid = message.payload ∧
      (read_messages_iteration success message now ap loc).1.current_messages.time_stamps.get
          message.msgid = now ∧
      ∀ K, K ≠ message.msgid →
        (read_messages_iteration success message now ap loc).1.current_messages.get K =
          ap.current_messages.get K ∧
        (read_messages_iteration success message now ap loc).1.current_messages.time_stamps.get K
          = ap.current_messages.time_stamps.get K) ∧
    (success = true → message.msgid.recognized = false →
      (read_messages_iteration success message now ap loc).1.current_messages =
        { ap.current_messages with sysid := message.sysid, compid := message.compid }) ∧
    (success = false → (read_messages_iteration success message now ap loc).1 = ap) ∧
    (read_messages_iteration success message now ap loc).1 =
      { ap with current_messages :=
          (read_messages_iteration success message now ap loc).1.current_messages } := by
  refine ⟨?_, ?_, ?_, rfl⟩
  · intro hs hrec
    subst hs
    cases hm : message.msgid <;> simp [hm, MAVLINK_MSG_ID.recognized] at hrec <;>
      refine ⟨by simp [read_messages_iteration, Mavlink_Messages.get, hm],
        by simp [read_messages_iteration, Time_Stamps.get, hm], ?_⟩ <;>
      intro K hK <;>
      cases K <;>
      simp [read_messages_iteration, Mavlink_Messages.get, Time_Stamps.get, hm] at hK ⊢
  · intro hs hrec
    subst hs
    cases hm : message.msgid <;> simp [hm, MAVLINK_MSG_ID.recognized] at hrec <;>
      simp [read_messages_iteration, hm]
  · intro hs
    subst hs
    simp [read_messages_iteration]

/-! ## Command dispatcher: theorems -/

/-- C13: in the command record each builder prepares, every one of `param1` to
`param7` holds the argument assigned to it or `NAN`, which is not zero:
`arm_disarm` and `toggle_offboard_control` fill `param1` with the flag,
`autopilot_calibrate` fills `param1` with its request code `1`,
`set_message_interval` fills `param1` and `param2`, `takeoff_local` and
`land_local` fill `param3` to `param7`, `takeoff` fills `param1` and `param4` to
`param7`, `land` fills `param2` and `param4` to `param7`; all others are `NAN`. -/
theorem command_params_argument_or_NAN (flag : Bool) (a b c d e : float) (land_mode : Int)
    (int_to_float : Int → float) (ap : Autopilot_Interface) :
    float.NAN ≠ float.zero ∧
    ((arm_disarm_com flag ap).param1 = float.ofBool flag ∧
     (arm_disarm_com flag ap).param2 = float.NAN ∧
     (arm_disarm_com flag ap).param3 = float.NAN ∧
     (arm_disarm_com flag ap).param4 = float.NAN ∧
     (arm_disarm_com flag ap).param5 = float.NAN ∧
     (arm_disarm_com flag ap).param6 = float.NAN ∧
     (arm_disarm_com flag ap).param7 = float.NAN) ∧
    ((toggle_offboard_control_com flag ap).param1 = float.ofBool flag ∧
     (toggle_offboard_control_com flag ap).param2 = float.NAN ∧
     (toggle_offboard_control_com flag ap).param3 = float.NAN ∧
     (toggle_offboard_control_com flag ap).param4 = float.NAN ∧
     (toggle_offboard_control_com flag ap).param5 = float.NAN ∧
     (toggle_offboard_control_com flag ap).param6 = float.NAN ∧
     (toggle_offboard_control_com flag ap).param7 = float.NAN) ∧
    ((autopilot_calibrate_com ap).param1 = float.one ∧
     (autopilot_calibrate_com ap).param2 = float.NAN ∧
     (autopilot_calibrate_com ap).param3 = float.NAN ∧
     (autopilot_calibrate_com ap).param4 = float.NAN ∧
     (autopilot_calibrate_com ap).param5 = float.NAN ∧
     (autopilot_calibrate_com ap).param6 = float.NAN ∧
     (autopilot_calibrate_com ap).param7 = float.NAN) ∧
    ((set_message_interval_com a b ap).param1 = a ∧
     (set_message_interval_com a b ap).param2 = b ∧
     (set_message_interval_com a b ap).param3 = float.NAN ∧
     (set_message_interval_com a b ap).param4 = float.NAN ∧
     (set_message_interval_com a b ap).param5 = float.NAN ∧
     (set_message_interval_com a b ap).param6 = float.NAN ∧
     (set_message_interval_com a b ap).param7 = float.NAN) ∧
    ((takeoff_local_com a b c d e ap).param1 = float.NAN ∧
     (takeoff_local_com a b c d e ap).param2 = float.NAN ∧
     (takeoff_local_com a b c d e ap).param3 = a ∧
     (takeoff_local_com a b c d e ap).param4 = b ∧
     (takeoff_local_com a b c d e ap).param5 = c ∧
     (takeoff_local_com a b c d e ap).param6 = d ∧
     (takeoff_local_com a b c d e ap).param7 = e) ∧
    ((land_local_com a b c d e ap).param1 = float.NAN ∧
     (land_local_com a b c d e ap).param2 = float.NAN ∧
     (land_local_com a b c d e ap).param3 = a ∧
     (land_local_com a b c d e ap).param4 = b ∧
     (land_local_com a b c d e ap).param5 = c ∧
     (land_local_com a b c d e ap).param6 = d ∧
     (land_local_com a b c d e ap).param7 = e) ∧
    ((takeoff_com a b c d e ap).param1 = a ∧
     (takeoff_com a b c d e ap).param2 = float.NAN ∧
     (takeoff_com a b c d e ap).param3 = float.NAN ∧
     (takeoff_com a b c d e ap).param4 = b ∧
     (takeoff_com a b c d e ap).param5 = c ∧
     (takeoff_com a b c d e ap).param6 = d ∧
     (takeoff_com a b c d e ap).param7 = e) ∧
    ((land_com int_to_float land_mode b c d e ap).param1 = float.NAN ∧
     (land_com int_to_float land_mode b c d e ap).param2 = int_to_float land_mode ∧
     (land_com int_to_float land_mode b c d e ap).param3 = float.NAN ∧
     (land_com int_to_float land_mode b c d e ap).param4 = b ∧
     (land_com int_to_float land_mode b c d e ap).param5 = c ∧
     (land_com int_to_float land_mode b c d e ap).param6 = d ∧
     (land_com int_to_float land_mode b c d e ap).param7 = e) := by
  refine ⟨by decide, ?_, ?_, ?_, ?_, ?_, ?_, ?_, ?_⟩
  · simp [arm_disarm_com, command_long_initialiser]
  · simp [toggle_offboard_control_com, command_long_initialiser]
  · simp [autopilot_calibrate_com, command_long_initialiser]
  · simp [set_message_interval_com, command_long_initialiser]
  · simp [takeoff_local_com, command_long_initialiser]
  · simp [land_local_com, command_long_initialiser]
  · simp [takeoff_com, command_long_initialiser]
  · simp [land_com, command_long_initialiser]

/-- C14: each command builder hands exactly one message, the encoding of the
record it prepared, to the transport, changes nothing else, and returns the byte
count that write reported, whatever its sign. -/
theorem command_written_once_and_count_returned (len : Int) (flag : Bool)
    (a b c d e : float) (land_mode : Int) (int_to_float : Int → float)
    (ap : Autopilot_Interface) :
    arm_disarm len flag ap =
      (afterWrite (mavlink_msg_command_long_encode (ap.system_id % 256)
        (ap.companion_id % 256) (arm_disarm_com flag ap)) ap, len) ∧
    toggle_offboard_control len flag ap =
      (afterWrite (mavlink_msg_command_long_encode (ap.system_id % 256)
        (ap.companion_id % 256) (toggle_offboard_control_com flag ap)) ap, len) ∧
    autopilot_calibrate len ap =
      (afterWrite (mavlink_msg_command_long_encode (ap.system_id % 256)
        (ap.companion_id % 256) (autopilot_calibrate_com ap)) ap, len) ∧
    set_message_interval len a b ap =
      (afterWrite (mavlink_msg_command_long_encode (ap.system_id % 256)
        (ap.companion_id % 256) (set_message_interval_com a b ap)) ap, len) ∧
    takeoff_local len a b c d e ap =
      (afterWrite (mavlink_msg_command_long_encode (ap.system_id % 256)
        (ap.companion_id % 256) (takeoff_local_com a b c d e ap)) ap, len) ∧
    land_local len a b c d e ap =
      (afterWrite (mavlink_msg_command_long_encode (ap.system_id % 256)
        (ap.companion_id % 256) (land_local_com a b c d e ap)) ap, len) ∧
    takeoff len a b c d e ap =
      (afterWrite (mavlink_msg_command_long_encode (ap.system_id % 256)
        (ap.companion_id % 256) (takeoff_com a b c d e ap)) ap, len) ∧
    land int_to_float len land_mode b c d e ap =
      (afterWrite (mavlink_msg_command_long_encode (ap.system_id % 256)
        (ap.companion_id % 256) (land_com int_to_float land_mode b c d e ap)) ap, len) ∧
    ∀ message, (afterWrite message ap).port.written.length = ap.port.written.length + 1 := by
  refine ⟨rfl, rfl, rfl, rfl, rfl, rfl, rfl, rfl, ?_⟩
  intro message
  simp [afterWrite]

/-- What `enable_offboard_control` does when off-board control is off: it sends the
toggle command and sets the flag unless the byte count is `0`. -/
theorem enable_offboard_control_off (len : Int) (ap : Autopilot_Interface)
    (h : ap.control_status = 0) :
    enable_offboard_control len ap =
      if len ≠ 0 then
        { afterWrite (mavlink_msg_command_long_encode (ap.system_id % 256)
            (ap.companion_id % 256) (toggle_offboard_control_com true ap)) ap with
          control_status := 1 }
      else
        afterWrite (mavlink_msg_command_long_encode (ap.system_id % 256)
          (ap.companion_id % 256) (toggle_offboard_control_com true ap)) ap := by
  simp only [enable_offboard_control, h, if_true, toggle_offboard_control,
    Generic_Port.write_message, afterWrite]

/-- What `disable_offboard_control` does when off-board control is on. -/
theorem disable_offboard_control_on (len : Int) (ap : Autopilot_Interface)
    (h : ap.control_status = 1) :
    disable_offboard_control len ap =
      if len ≠ 0 then
        { afterWrite (mavlink_msg_command_long_encode (ap.system_id % 256)
            (ap.companion_id % 256) (toggle_offboard_control_com false ap)) ap with
          control_status := 0 }
      else
        afterWrite (mavlink_msg_command_long_encode (ap.system_id % 256)
          (ap.companion_id % 256) (toggle_offboard_control_com false ap)) ap := by
  simp only [disable_offboard_control, h, if_true, toggle_offboard_control,
    Generic_Port.write_message, afterWrite]

/-- C15, at the byte count `-1` a failed write reports: `enable_offboard_control`
sets the flag that was clear, and `disable_offboard_control` clears the flag that
was set, although nothing was transmitted. -/
theorem offboard_flag_changes_on_negative_count :
    (exampleStarted.control_status = 0 ∧
     (enable_offboard_control (-1) exampleStarted).control_status = 1) ∧
    (exampleOffboard.control_status = 1 ∧
     (disable_offboard_control (-1) exampleOffboard).control_status = 0) := by
  decide

/-- C16 as stated fails: the first write reports `0`, the flag stays clear and the
second call sends the toggle command again, two messages in total. -/
theorem enable_twice_sends_twice_after_failed_write :
    exampleStarted.control_status = 0 ∧
    exampleStarted.port.written = [] ∧
    (enable_offboard_control 0 exampleStarted).control_status = 0 ∧
    (enable_offboard_control 21 (enable_offboard_control 0 exampleStarted)).port.written =
      [mavlink_msg_command_long_encode 1 0 (toggle_offboard_control_com true exampleStarted),
       mavlink_msg_command_long_encode 1 0 (toggle_offboard_control_com true exampleStarted)]
    := by
  decide

/-- C16, amended: starting with the flag clear, two consecutive calls of
`enable_offboard_control` hand the toggle command to the transport exactly once
in total when the first write reports a positive byte count; when it reports `0`
the flag stays clear and the second call hands it over again. -/
theorem enable_twice_sends_once_unless_first_write_fails (len₁ len₂ : Int)
    (ap : Autopilot_Interface) (h : ap.control_status = 0) :
    (0 < len₁ →
      (enable_offboard_control len₂ (enable_offboard_control len₁ ap)).port.written =
        ap.port.written ++ [mavlink_msg_command_long_encode (ap.system_id % 256)
          (ap.companion_id % 256) (toggle_offboard_control_com true ap)] ∧
      (enable_offboard_control len₂ (enable_offboard_control len₁ ap)).control_status = 1) ∧
    (len₁ = 0 →
      (enable_offboard_control len₂ (enable_offboard_control len₁ ap)).port.written =
        ap.port.written ++ [mavlink_msg_command_long_encode (ap.system_id % 256)
          (ap.companion_id % 256) (toggle_offboard_control_com true ap),
          mavlink_msg_command_long_encode (ap.system_id % 256)
          (ap.companion_id % 256) (toggle_offboard_control_com true ap)]) := by
  constructor
  · intro hpos
    have h1 : len₁ ≠ 0 := ne_of_gt hpos
    rw [enable_offboard_control_off len₁ ap h]
    simp [h1, enable_offboard_control, afterWrite]
  · intro h1
    subst h1
    rw [enable_offboard_control_off 0 ap h]
    simp only [ne_eq, not_true_eq_false, if_false]
    rw [enable_offboard_control_off len₂ _ (by simpa [afterWrite] using h)]
    by_cases h2 : len₂ = 0 <;>
      simp [h2, afterWrite, toggle_offboard_control_com]

/-- C16, amended, on the object with the flag clear: first write reporting `21`
bytes, then the case of a first write reporting `0`. -/
theorem enable_twice_sends_once_unless_first_write_fails_witness :
    exampleStarted.control_status = 0 ∧
    (0 : Int) < 21 ∧
    ((enable_offboard_control 21 (enable_offboard_control 21 exampleStarted)).port.written =
        exampleStarted.port.written ++
          [mavlink_msg_command_long_encode (exampleStarted.system_id % 256)
            (exampleStarted.companion_id % 256)
            (toggle_offboard_control_com true exampleStarted)] ∧
      (enable_offboard_control 21 (enable_offboard_control 21 exampleStarted)).control_status
        = 1) :=
  ⟨by decide, by decide,
   (enable_twice_sends_once_unless_first_write_fails 21 21 exampleStarted (by decide)).1
     (by decide)⟩

/-- C17: with off-board control already on, `enable_offboard_control` leaves the
whole state, transport included, as it is; with off-board control off,
`disable_offboard_control` does. -/
theorem offboard_control_no_op (len : Int) (ap : Autopilot_Interface) :
    (ap.control_status ≠ 0 → enable_offboard_control len ap = ap) ∧
    (ap.control_status = 0 → disable_offboard_control len ap = ap) := by
  constructor
  · intro h
    simp [enable_offboard_control, h]
  · intro h
    simp [disable_offboard_control, h]

/-- C17, on the object with off-board control on and on the one with it off. -/
theorem offboard_control_no_op_witness :
    (exampleOffboard.control_status ≠ 0 ∧
      enable_offboard_control 21 exampleOffboard = exampleOffboard) ∧
    (exampleStarted.control_status = 0 ∧
      disable_offboard_control 21 exampleStarted = exampleStarted) :=
  ⟨⟨by decide, (offboard_control_no_op 21 exampleOffboard).1 (by decide)⟩,
   ⟨by decide, (offboard_control_no_op 21 exampleStarted).2 (by decide)⟩⟩

/-! ## Lifecycle: theorems -/

/-- A streamer cycle leaves the flags of the lifecycle alone. -/
theorem write_setpoint_flags (now : Nat) (len : Int) (ap : Autopilot_Interface) :
    (write_setpoint now len ap).time_to_exit = ap.time_to_exit ∧
    (write_setpoint now len ap).writing_status = ap.writing_status ∧
    (write_setpoint now len ap).reading_status = ap.reading_status := by
  simp [write_setpoint, write_message, Generic_Port.write_message]

/-- A pass of the reader leaves the flags of the lifecycle and the transport alone. -/
theorem read_messages_iteration_flags (success : Bool) (message : mavlink_message_t)
    (now : Nat) (ap : Autopilot_Interface) (loc : read_messages_locals) :
    (read_messages_iteration success message now ap loc).1.time_to_exit = ap.time_to_exit ∧
    (read_messages_iteration success message now ap loc).1.writing_status = ap.writing_status ∧
    (read_messages_iteration success message now ap loc).1.reading_status = ap.reading_status ∧
    (read_messages_iteration success message now ap loc).1.port = ap.port := by
  simp [read_messages_iteration]

/-- The identity section of `start()` leaves the flags and the transport alone. -/
theorem start_GET_SYSTEM_and_COMPONENT_IDs_flags (ap : Autopilot_Interface) :
    (start_GET_SYSTEM_and_COMPONENT_IDs ap).time_to_exit = ap.time_to_exit ∧
    (start_GET_SYSTEM_and_COMPONENT_IDs ap).writing_status = ap.writing_status ∧
    (start_GET_SYSTEM_and_COMPONENT_IDs ap).reading_status = ap.reading_status ∧
    (start_GET_SYSTEM_and_COMPONENT_IDs ap).port = ap.port := by
  unfold start_GET_SYSTEM_and_COMPONENT_IDs
  by_cases h1 : ap.system_id = 0 <;> by_cases h2 : ap.autopilot_id = 0 <;> simp [h1, h2]

/-- Once set, `time_to_exit` stays set. -/
theorem Lifecycle.step_time_to_exit (H : Header) (m : Move) (s : Lifecycle)
    (h : s.ap.time_to_exit = true) : (Lifecycle.step H m s).ap.time_to_exit = true := by
  obtain ⟨ap, st, rd, loc, wr, n⟩ := s
  simp only at h
  cases m with
  | start result =>
    cases st <;> simp only [Lifecycle.step, start_step] <;> (try split) <;>
      simp [h, (start_GET_SYSTEM_and_COMPONENT_IDs_flags ap).1]
  | read success message now =>
    cases rd <;> simp only [Lifecycle.step, read_thread_step] <;> (try split) <;>
      simp [h, (read_messages_iteration_flags success message now ap loc).1]
  | write local_sp now len =>
    cases wr <;> simp only [Lifecycle.step, write_thread_step] <;> (try split) <;>
      simp [h, (write_setpoint_flags now len ap).1]
  | stop => simp [Lifecycle.step]

/-- The state at the call of `start()` is well formed. -/
theorem Lifecycle.wf_init (ap : Autopilot_Interface) : (Lifecycle.init ap).wf := by
  simp [Lifecycle.wf, Lifecycle.init, start_pc.before_write_thread,
    start_pc.before_read_thread]

/-- Steps keep the state well formed. -/
theorem Lifecycle.wf_step (H : Header) (m : Move) (s : Lifecycle) (h : s.wf) :
    (Lifecycle.step H m s).wf := by
  obtain ⟨ap, st, rd, loc, wr, n⟩ := s
  obtain ⟨h1, h2, h3, h4⟩ := h
  simp only at h1 h2 h3 h4
  cases m with
  | start result =>
    cases st <;> simp only [Lifecycle.step, start_step] <;> (try split) <;> (try split) <;>
      simp_all [Lifecycle.wf, start_pc.before_write_thread, start_pc.before_read_thread,
        start_GET_SYSTEM_and_COMPONENT_IDs_flags]
  | read success message now =>
    cases rd <;> simp only [Lifecycle.step, read_thread_step] <;> (try split) <;>
      simp_all [Lifecycle.wf, read_messages_iteration_flags]
  | write local_sp now len =>
    cases wr <;> simp only [Lifecycle.step, write_thread_step] <;> (try split) <;>
      simp_all [Lifecycle.wf, write_setpoint_flags]
  | stop => exact ⟨h1, h2, h3, h4⟩

/-- Every state reached from the call of `start()` is well formed. -/
theorem Lifecycle.wf_run (H : Header) (moves : List Move) (s : Lifecycle) (h : s.wf) :
    (Lifecycle.run H moves s).wf := by
  induction moves generalizing s with
  | nil => exact h
  | cons m ms ih => exact ih _ (Lifecycle.wf_step H m s h)

/-- Once `time_to_exit` is set, a step that sends uses up the one send that is due. -/
theorem Lifecycle.step_sends (H : Header) (m : Move) (s : Lifecycle) (hwf : s.wf)
    (h : s.ap.time_to_exit = true) :
    (Lifecycle.step H m s).ap.port.written.length + (Lifecycle.step H m s).write.sends_due ≤
      s.ap.port.written.length + s.write.sends_due := by
  obtain ⟨ap, st, rd, loc, wr, n⟩ := s
  obtain ⟨h1, -, -, -⟩ := hwf
  simp only at h h1
  cases m with
  | start result =>
    cases st <;> simp only [Lifecycle.step, start_step] <;> (try split) <;>
      simp_all [start_pc.before_write_thread, write_thread_pc.sends_due,
        start_GET_SYSTEM_and_COMPONENT_IDs_flags]
  | read success message now =>
    cases rd <;> simp only [Lifecycle.step, read_thread_step] <;> (try split) <;>
      simp [read_messages_iteration_flags]
  | write local_sp now len =>
    cases wr <;> simp only [Lifecycle.step, write_thread_step] <;> (try split) <;>
      simp_all [write_thread_pc.sends_due, write_setpoint_written]
  | stop => simp [Lifecycle.step]

/-- Once `time_to_exit` is set, a step that receives uses up the one receive that is due. -/
theorem Lifecycle.step_receives (H : Header) (m : Move) (s : Lifecycle)
    (h : s.ap.time_to_exit = true) :
    (Lifecycle.step H m s).receives + (Lifecycle.step H m s).read.receives_due ≤
      s.receives + s.read.receives_due := by
  obtain ⟨ap, st, rd, loc, wr, n⟩ := s
  simp only at h
  cases m with
  | start result =>
    cases st <;> simp only [Lifecycle.step, start_step] <;> (try split) <;>
      simp [read_thread_pc.receives_due]
  | read success message now =>
    cases rd <;> simp only [Lifecycle.step, read_thread_step] <;> (try split) <;>
      simp_all [read_thread_pc.receives_due]
  | write local_sp now len =>
    cases wr <;> simp only [Lifecycle.step, write_thread_step] <;> (try split) <;>
      simp [read_thread_pc.receives_due]
  | stop => simp [Lifecycle.step]

/-- Once `time_to_exit` is set, the sends of a run are bounded by what is due. -/
theorem Lifecycle.run_sends (H : Header) (moves : List Move) (s : Lifecycle) (hwf : s.wf)
    (h : s.ap.time_to_exit = true) :
    (Lifecycle.run H moves s).ap.port.written.length +
        (Lifecycle.run H moves s).write.sends_due ≤
      s.ap.port.written.length + s.write.sends_due := by
  induction moves generalizing s with
  | nil => exact le_refl _
  | cons m ms ih =>
    exact le_trans
      (ih _ (Lifecycle.wf_step H m s hwf) (Lifecycle.step_time_to_exit H m s h))
      (Lifecycle.step_sends H m s hwf h)

/-- Once `time_to_exit` is set, the receives of a run are bounded by what is due. -/
theorem Lifecycle.run_receives (H : Header) (moves : List Move) (s : Lifecycle)
    (h : s.ap.time_to_exit = true) :
    (Lifecycle.run H moves s).receives + (Lifecycle.run H moves s).read.receives_due ≤
      s.receives + s.read.receives_due := by
  induction moves generalizing s with
  | nil => exact le_refl _
  | cons m ms ih =>
    exact le_trans (ih _ (Lifecycle.step_time_to_exit H m s h))
      (Lifecycle.step_receives H m s h)

/-- After `start()` has thrown with no thread created, no thread moves. -/
theorem Lifecycle.run_thrown (H : Header) (moves : List Move) (s : Lifecycle) (error : Int)
    (hs : s.start = .thrown error) (hr : s.read = .not_created)
    (hw : s.write = .not_created) (hns : noStop moves) :
    Lifecycle.run H moves s = s := by
  induction moves with
  | nil => rfl
  | cons m ms ih =>
    have hm : m ≠ Move.stop := hns m (List.mem_cons_self _ _)
    have hms : noStop ms := fun x hx => hns x (List.mem_cons_of_mem _ hx)
    have hstep : Lifecycle.step H m s = s := by
      cases m with
      | start result => simp [Lifecycle.step, start_step, hs]
      | read success message now => simp [Lifecycle.step, read_thread_step, hr]
      | write local_sp now len => simp [Lifecycle.step, write_thread_step, hw]
      | stop => exact absurd rfl hm
    simp only [Lifecycle.run, hstep]
    exact ih hms

/-- C18: when the transport reports that it is not running, the first step of
`start()` throws `1`, and whatever the threads do afterwards the state stays the
one at the call with `start()` thrown: no thread is created, and the session
identity, the telemetry store, the setpoint cell and the flags are unchanged. -/
theorem start_throws_on_closed_port (H : Header) (ap : Autopilot_Interface) (result : Int)
    (moves : List Move) (hclosed : ap.port.is_running = false) (hns : noStop moves) :
    Lifecycle.step H (.start result) (Lifecycle.init ap) =
      { Lifecycle.init ap with start := .thrown 1 } ∧
    Lifecycle.run H (.start result :: moves) (Lifecycle.init ap) =
      { ap := ap, start := .thrown 1, read := .not_created,
        read_locals := (Lifecycle.init ap).read_locals, write := .not_created,
        receives := 0 } := by
  have hstep : Lifecycle.step H (.start result) (Lifecycle.init ap) =
      { Lifecycle.init ap with start := .thrown 1 } := by
    simp [Lifecycle.step, start_step, Lifecycle.init, hclosed]
  refine ⟨hstep, ?_⟩
  simp only [Lifecycle.run, hstep]
  exact Lifecycle.run_thrown H moves _ 1 rfl rfl rfl hns

/-- C18, on the object whose port is not open, with both threads and `start()`
scheduled afterwards. -/
theorem start_throws_on_closed_port_witness :
    exampleClosed.port.is_running = false ∧
    noStop [.read true exampleFirstMessage 100, .write exampleSetpoint 200 30, .start 0] ∧
    Lifecycle.step exampleHeader (.start 0) (Lifecycle.init exampleClosed) =
      { Lifecycle.init exampleClosed with start := .thrown 1 } ∧
    Lifecycle.run exampleHeader
        (.start 0 :: [.read true exampleFirstMessage 100, .write exampleSetpoint 200 30,
          .start 0])
        (Lifecycle.init exampleClosed) =
      { ap := exampleClosed, start := .thrown 1, read := .not_created,
        read_locals := (Lifecycle.init exampleClosed).read_locals, write := .not_created,
        receives := 0 } :=
  ⟨rfl, by simp [noStop],
   start_throws_on_closed_port exampleHeader exampleClosed 0 _ rfl (by simp [noStop])⟩

/-- The state at the call of `start()` with `writing_status` at `0` is gated. -/
theorem Lifecycle.gated_init (ap : Autopilot_Interface) (h : ap.writing_status = 0) :
    (Lifecycle.init ap).gated := by
  simp [Lifecycle.gated, Lifecycle.init, start_pc.before_write_thread,
    write_thread_pc.signalled, h]

/-- Steps keep the state gated. -/
theorem Lifecycle.gated_step (H : Header) (m : Move) (s : Lifecycle) (h : s.gated) :
    (Lifecycle.step H m s).gated := by
  obtain ⟨ap, st, rd, loc, wr, n⟩ := s
  obtain ⟨h1, h2, h3, h4⟩ := h
  simp only at h1 h2 h3 h4
  cases m with
  | start result =>
    cases st <;> cases wr <;> simp only [Lifecycle.step, start_step] <;> (try split) <;>
      (try split) <;>
      simp_all [Lifecycle.gated, start_pc.before_write_thread, write_thread_pc.signalled,
        start_GET_SYSTEM_and_COMPONENT_IDs_flags]
  | read success message now =>
    cases rd <;> simp only [Lifecycle.step, read_thread_step] <;> (try split) <;>
      simp_all [Lifecycle.gated, read_messages_iteration_flags]
  | write local_sp now len =>
    cases wr <;> cases st <;> simp only [Lifecycle.step, write_thread_step] <;>
      (try split) <;>
      simp_all [Lifecycle.gated, start_pc.before_write_thread, write_thread_pc.signalled,
        write_setpoint_flags]
  | stop => exact ⟨h1, h2, h3, h4⟩

/-- Every state reached from the call of `start()` with `writing_status` at `0` is gated. -/
theorem Lifecycle.gated_run (H : Header) (moves : List Move) (s : Lifecycle) (h : s.gated) :
    (Lifecycle.run H moves s).gated := by
  induction moves generalizing s with
  | nil => exact h
  | cons m ms ih => exact ih _ (Lifecycle.gated_step H m s h)

/-- C20 as stated fails: in this interleaving `start()` has returned from its wait
for the write thread while the write thread has only executed
`writing_status = 2`: it has not yet put the default into the setpoint cell and
has sent nothing. -/
theorem start_returns_before_first_send :
    (Lifecycle.run exampleHeader exampleGateSchedule (Lifecycle.init exampleInterface)).start
      = .returned ∧
    (Lifecycle.run exampleHeader exampleGateSchedule (Lifecycle.init exampleInterface)).write
      = .set_position_target ∧
    (Lifecycle.run exampleHeader exampleGateSchedule
      (Lifecycle.init exampleInterface)).write.sent_first = false ∧
    (Lifecycle.run exampleHeader exampleGateSchedule
      (Lifecycle.init exampleInterface)).ap.writing_status = 2 ∧
    (Lifecycle.run exampleHeader exampleGateSchedule
      (Lifecycle.init exampleInterface)).ap.port.written = [] ∧
    (Lifecycle.run exampleHeader exampleGateSchedule
      (Lifecycle.init exampleInterface)).ap.current_setpoint =
        exampleInterface.current_setpoint := by
  decide

/-- C20, amended: in every interleaving from the call of `start()` on an object
whose `writing_status` is `0`, `start()` has returned from its wait for the write
thread only in states where the write thread has given its startup signal, the
assignment `writing_status = 2` it begins with. -/
theorem start_returns_only_after_startup_signal (H : Header) (ap : Autopilot_Interface)
    (moves : List Move) (h0 : ap.writing_status = 0)
    (hret : (Lifecycle.run H moves (Lifecycle.init ap)).start = .returned) :
    (Lifecycle.run H moves (Lifecycle.init ap)).write.signalled = true ∧
    (Lifecycle.run H moves (Lifecycle.init ap)).write ≠ .not_created ∧
    (Lifecycle.run H moves (Lifecycle.init ap)).write ≠ .start_write_thread ∧
    (Lifecycle.run H moves (Lifecycle.init ap)).write ≠ .signal_startup := by
  have hg := Lifecycle.gated_run H moves _ (Lifecycle.gated_init ap h0)
  have hs := hg.2.2.2 hret
  refine ⟨hs, ?_, ?_, ?_⟩ <;> intro hw <;> rw [hw] at hs <;>
    simp [write_thread_pc.signalled] at hs

/-- C20, amended, on the interleaving of `exampleGateSchedule`. -/
theorem start_returns_only_after_startup_signal_witness :
    exampleInterface.writing_status = 0 ∧
    (Lifecycle.run exampleHeader exampleGateSchedule (Lifecycle.init exampleInterface)).start
      = .returned ∧
    (Lifecycle.run exampleHeader exampleGateSchedule
      (Lifecycle.init exampleInterface)).write.signalled = true :=
  ⟨by decide, by decide,
   (start_returns_only_after_startup_signal exampleHeader exampleInterface
      exampleGateSchedule (by decide) (by decide)).1⟩

/-! ## Streamer stamping and yaw helpers: theorems -/

/-- C21 as stated fails: the cell holds the non-zero target ids `5` and `9`, and
the record the cycle transmits carries the ids `1` and `1` of the session; the
non-zero time `77` is transmitted as it is. -/
theorem write_setpoint_overwrites_target_ids :
    (exampleAddressed.current_setpoint.target_system = 5 ∧
     exampleAddressed.current_setpoint.target_component = 9 ∧
     exampleAddressed.current_setpoint.time_boot_ms = 77) ∧
    (write_setpoint 5000 30 exampleAddressed).port.written =
      [mavlink_msg_set_position_target_local_ned_encode 1 0
        { exampleSetpoint with time_boot_ms := 77, target_system := 1,
                               target_component := 1 }] := by
  decide

/-- C21, amended: of the record a cycle transmits, `time_boot_ms` is that of the
setpoint cell when it is non-zero and the clock in milliseconds, truncated to 32
bits, when it is zero; `target_system` and `target_component` are always the
session identity `system_id`, `autopilot_id`, as 8-bit values, whatever the cell
holds; the cell is not modified by the cycle. -/
theorem write_setpoint_stamping (now : Nat) (len : Int) (ap : Autopilot_Interface) :
    ∃ tx : mavlink_set_position_target_local_ned_t,
      (write_setpoint now len ap).port.written = ap.port.written ++
        [mavlink_msg_set_position_target_local_ned_encode (ap.system_id % 256)
          (ap.companion_id % 256) tx] ∧
      (ap.current_setpoint.time_boot_ms ≠ 0 →
        tx.time_boot_ms = ap.current_setpoint.time_boot_ms) ∧
      (ap.current_setpoint.time_boot_ms = 0 →
        tx.time_boot_ms = (now / 1000) % 2 ^ 32) ∧
      tx.target_system = ap.system_id % 256 ∧
      tx.target_component = ap.autopilot_id % 256 ∧
      (ap.system_id < 256 → tx.target_system = ap.system_id) ∧
      (ap.autopilot_id < 256 → tx.target_component = ap.autopilot_id) ∧
      (write_setpoint now len ap).current_setpoint = ap.current_setpoint := by
  refine ⟨write_setpoint_PACK_PAYLOAD now ap, write_setpoint_written now len ap,
    ?_, ?_, ?_, ?_, ?_, ?_, (write_setpoint_frame now len ap).1⟩
  · intro h
    simp [write_setpoint_PACK_PAYLOAD, h]
  · intro h
    simp [write_setpoint_PACK_PAYLOAD, h]
  · by_cases h : ap.current_setpoint.time_boot_ms = 0 <;>
      simp [write_setpoint_PACK_PAYLOAD, h]
  · by_cases h : ap.current_setpoint.time_boot_ms = 0 <;>
      simp [write_setpoint_PACK_PAYLOAD, h]
  · intro hlt
    by_cases h : ap.current_setpoint.time_boot_ms = 0 <;>
      simp [write_setpoint_PACK_PAYLOAD, h, Nat.mod_eq_of_lt hlt]
  · intro hlt
    by_cases h : ap.current_setpoint.time_boot_ms = 0 <;>
      simp [write_setpoint_PACK_PAYLOAD, h, Nat.mod_eq_of_lt hlt]

/-- C21, amended, on the cell that carries the time `77` and the target ids `5`,
`9`, and on the cell whose time is zero, at the clock `5000000` microseconds. -/
theorem write_setpoint_stamping_witness :
    (exampleAddressed.current_setpoint.time_boot_ms ≠ 0 ∧
     exampleStarted.current_setpoint.time_boot_ms = 0 ∧
     exampleAddressed.system_id < 256 ∧ exampleAddressed.autopilot_id < 256) ∧
    (∃ tx : mavlink_set_position_target_local_ned_t,
      (write_setpoint 5000000 30 exampleAddressed).port.written =
        exampleAddressed.port.written ++
          [mavlink_msg_set_position_target_local_ned_encode
            (exampleAddressed.system_id % 256) (exampleAddressed.companion_id % 256) tx] ∧
      (exampleAddressed.current_setpoint.time_boot_ms ≠ 0 →
        tx.time_boot_ms = exampleAddressed.current_setpoint.time_boot_ms) ∧
      (exampleAddressed.current_setpoint.time_boot_ms = 0 →
        tx.time_boot_ms = (5000000 / 1000) % 2 ^ 32) ∧
      tx.target_system = exampleAddressed.system_id % 256 ∧
      tx.target_component = exampleAddressed.autopilot_id % 256 ∧
      (exampleAddressed.system_id < 256 → tx.target_system = exampleAddressed.system_id) ∧
      (exampleAddressed.autopilot_id < 256 →
        tx.target_component = exampleAddressed.autopilot_id) ∧
      (write_setpoint 5000000 30 exampleAddressed).current_setpoint =
        exampleAddressed.current_setpoint) ∧
    (write_setpoint_PACK_PAYLOAD 5000000 exampleStarted).time_boot_ms = 5000 :=
  ⟨by decide, write_setpoint_stamping 5000000 30 exampleAddressed, by decide⟩

/-- C22: `set_yaw` sets `yaw` and replaces `type_mask` by its AND with the YAW_ANGLE
mask, `set_yaw_rate` sets `yaw_rate` and replaces `type_mask` by its AND with the
YAW_RATE mask, each leaving every other field alone. Hence neither sets a mask
bit that was clear, the two calls commute, each is idempotent, and a later
`set_position` or `set_velocity` leaves the mask it would leave without them. -/
theorem set_yaw_set_yaw_rate_effect (H : Header) (y r a b c : float)
    (sp : mavlink_set_position_target_local_ned_t) :
    ((set_yaw H y sp).yaw = y ∧
     (set_yaw H y sp).type_mask =
        sp.type_mask &&& H.MAVLINK_MSG_SET_POSITION_TARGET_LOCAL_NED_YAW_ANGLE ∧
     (set_yaw H y sp).time_boot_ms = sp.time_boot_ms ∧
     (set_yaw H y sp).x = sp.x ∧ (set_yaw H y sp).y = sp.y ∧ (set_yaw H y sp).z = sp.z ∧
     (set_yaw H y sp).vx = sp.vx ∧ (set_yaw H y sp).vy = sp.vy ∧
     (set_yaw H y sp).vz = sp.vz ∧
     (set_yaw H y sp).afx = sp.afx ∧ (set_yaw H y sp).afy = sp.afy ∧
     (set_yaw H y sp).afz = sp.afz ∧
     (set_yaw H y sp).yaw_rate = sp.yaw_rate ∧
     (set_yaw H y sp).target_system = sp.target_system ∧
     (set_yaw H y sp).target_component = sp.target_component ∧
     (set_yaw H y sp).coordinate_frame = sp.coordinate_frame) ∧
    ((set_yaw_rate H r sp).yaw_rate = r ∧
     (set_yaw_rate H r sp).type_mask =
        sp.type_mask &&& H.MAVLINK_MSG_SET_POSITION_TARGET_LOCAL_NED_YAW_RATE ∧
     (set_yaw_rate H r sp).time_boot_ms = sp.time_boot_ms ∧
     (set_yaw_rate H r sp).x = sp.x ∧ (set_yaw_rate H r sp).y = sp.y ∧
     (set_yaw_rate H r sp).z = sp.z ∧
     (set_yaw_rate H r sp).vx = sp.vx ∧ (set_yaw_rate H r sp).vy = sp.vy ∧
     (set_yaw_rate H r sp).vz = sp.vz ∧
     (set_yaw_rate H r sp).afx = sp.afx ∧ (set_yaw_rate H r sp).afy = sp.afy ∧
     (set_yaw_rate H r sp).afz = sp.afz ∧
     (set_yaw_rate H r sp).yaw = sp.yaw ∧
     (set_yaw_rate H r sp).target_system = sp.target_system ∧
     (set_yaw_rate H r sp).target_component = sp.target_component ∧
     (set_yaw_rate H r sp).coordinate_frame = sp.coordinate_frame) ∧
    (∀ i, (set_yaw H y sp).type_mask.testBit i = true → sp.type_mask.testBit i = true) ∧
    (∀ i, (set_yaw_rate H r sp).type_mask.testBit i = true →
      sp.type_mask.testBit i = true) ∧
    set_yaw H y (set_yaw_rate H r sp) = set_yaw_rate H r (set_yaw H y sp) ∧
    set_yaw H y (set_yaw H y sp) = set_yaw H y sp ∧
    set_yaw_rate H r (set_yaw_rate H r sp) = set_yaw_rate H r sp ∧
    ((set_position H a b c (set_yaw_rate H r (set_yaw H y sp))).type_mask =
        H.MAVLINK_MSG_SET_POSITION_TARGET_LOCAL_NED_POSITION ∧
     (set_position H a b c (set_yaw_rate H r (set_yaw H y sp))).type_mask =
        (set_position H a b c sp).type_mask) ∧
    ((set_velocity H a b c (set_yaw_rate H r (set_yaw H y sp))).type_mask =
        H.MAVLINK_MSG_SET_POSITION_TARGET_LOCAL_NED_VELOCITY ∧
     (set_velocity H a b c (set_yaw_rate H r (set_yaw H y sp))).type_mask =
        (set_velocity H a b c sp).type_mask) := by
  refine ⟨by simp [set_yaw], by simp [set_yaw_rate], ?_, ?_, ?_, ?_, ?_, ?_, ?_⟩
  · intro i h
    simp only [set_yaw, Nat.testBit_land, Bool.and_eq_true] at h
    exact h.1
  · intro i h
    simp only [set_yaw_rate, Nat.testBit_land, Bool.and_eq_true] at h
    exact h.1
  · simp only [set_yaw, set_yaw_rate]
    rw [Nat.land_assoc, Nat.land_assoc,
      Nat.land_comm H.MAVLINK_MSG_SET_POSITION_TARGET_LOCAL_NED_YAW_RATE]
  · simp only [set_yaw]
    rw [Nat.land_assoc, Nat.and_self]
  · simp only [set_yaw_rate]
    rw [Nat.land_assoc, Nat.and_self]
  · simp [set_position]
  · simp [set_velocity]

/-! ## GPS producer: theorems -/

/-- C23: one pass of the producer (`set()` then `send()`) with a packet of the
expected type at the front of `MSGQ_GPS` makes, in this order, one `recv`, one
`moveParam`, one `send` to `MSGQ_MAVLINK` of a reply of that same type carrying
`lat = 351523041`, `lon = 1369686962`, `alt = 0`, `vn = ve = vd = 0`,
`fix_type = 3`, `satellites_visible = 1`, `time_usec = 0`, and one `pop` that
releases the request; with a packet of any other type at the front it makes the
`recv` only: no reply is sent and nothing is released. -/
theorem producer_replies_once_to_expected_request (H : Header) (gps_input : mavlink_hil_gps_t)
    (err : err_t) (w : ProducerWorld) (msg : MsgPacket message_t)
    (rest : List (MsgPacket message_t))
    (hg : w.gps = GPS_class.construct H gps_input) (hq : w.MSGQ_GPS.que = msg :: rest) :
    (msg.type = H.MSG_TYPE_RESPONSE →
      ∃ fix : mavlink_hil_gps_t,
        (GPS_main_pass err w).2 = ProducerOutcome.returned ∧
        (GPS_main_pass err w).1.calls = w.calls ++
          [ProducerCall.recv .MSGQ_GPS msg, ProducerCall.moveParam msg,
           ProducerCall.send .MSGQ_MAVLINK .MsgPriNormal H.MSG_TYPE_RESPONSE .MSGQ_GPS fix,
           ProducerCall.pop .MSGQ_GPS msg] ∧
        (fix.lat = 351523041 ∧ fix.lon = 1369686962 ∧ fix.alt = 0 ∧
         fix.vn = 0 ∧ fix.ve = 0 ∧ fix.vd = 0 ∧
         fix.fix_type = 3 ∧ fix.satellites_visible = 1 ∧ fix.time_usec = 0 ∧
         fix.eph = 65535 ∧ fix.epv = 65535 ∧ fix.vel = 65535 ∧ fix.cog = 65535) ∧
        (GPS_main_pass err w).1.MSGQ_GPS.que = rest ∧
        (err = err_t.ERR_OK →
          (GPS_main_pass err w).1.MSGQ_MAVLINK.que = w.MSGQ_MAVLINK.que ++
            [{ type := H.MSG_TYPE_RESPONSE, reply := .MSGQ_GPS, param := fix }]) ∧
        (err ≠ err_t.ERR_OK →
          (GPS_main_pass err w).1.MSGQ_MAVLINK.que = w.MSGQ_MAVLINK.que)) ∧
    (msg.type ≠ H.MSG_TYPE_RESPONSE →
      (GPS_main_pass err w).2 = ProducerOutcome.returned ∧
      (GPS_main_pass err w).1.calls = w.calls ++ [ProducerCall.recv .MSGQ_GPS msg] ∧
      (GPS_main_pass err w).1.MSGQ_GPS.que = msg :: rest ∧
      (GPS_main_pass err w).1.MSGQ_MAVLINK.que = w.MSGQ_MAVLINK.que) := by
  constructor
  · intro hty
    refine ⟨(GPS_class.construct H gps_input).set.gps_input, ?_, ?_, ?_, ?_, ?_, ?_⟩
    · simp [GPS_main_pass, GPS_class.send, MsgQueBlock.recv, hq, hg, hty,
        GPS_class.construct, GPS_class.set]
    · simp [GPS_main_pass, GPS_class.send, MsgQueBlock.recv, hq, hg, hty,
        GPS_class.construct, GPS_class.set]
    · simp [GPS_class.construct, GPS_class.set]
    · simp [GPS_main_pass, GPS_class.send, MsgQueBlock.recv, MsgQueBlock.pop, hq, hg, hty,
        GPS_class.construct, GPS_class.set]
    · intro herr
      subst herr
      simp [GPS_main_pass, GPS_class.send, MsgQueBlock.recv, MsgQueBlock.send, hq, hg, hty,
        GPS_class.construct, GPS_class.set]
    · intro herr
      cases err with
      | ERR_OK => exact absurd rfl herr
      | error code =>
        simp [GPS_main_pass, GPS_class.send, MsgQueBlock.recv, MsgQueBlock.send, hq, hg, hty,
          GPS_class.construct, GPS_class.set]
  · intro hty
    simp [GPS_main_pass, GPS_class.send, MsgQueBlock.recv, hq, hg, hty,
      GPS_class.construct, GPS_class.set]

/-- C23, on the producer with the request of the relay waiting: the reply it posts
is the packet the relay expects; and on the producer with a packet of another
kind waiting. -/
theorem producer_replies_once_to_expected_request_witness :
    (exampleProducer.gps = GPS_class.construct exampleHeader
        { exampleFix with lat := 0, lon := 0, fix_type := 0 } ∧
     exampleProducer.MSGQ_GPS.que = exampleRequest :: [] ∧
     exampleRequest.type = exampleHeader.MSG_TYPE_RESPONSE ∧
     exampleProducerStray.MSGQ_GPS.que = exampleStrayRequest :: [exampleRequest] ∧
     exampleStrayRequest.type ≠ exampleHeader.MSG_TYPE_RESPONSE) ∧
    (∃ fix : mavlink_hil_gps_t,
        (GPS_main_pass .ERR_OK exampleProducer).2 = ProducerOutcome.returned ∧
        (GPS_main_pass .ERR_OK exampleProducer).1.calls = exampleProducer.calls ++
          [ProducerCall.recv .MSGQ_GPS exampleRequest, ProducerCall.moveParam exampleRequest,
           ProducerCall.send .MSGQ_MAVLINK .MsgPriNormal exampleHeader.MSG_TYPE_RESPONSE
             .MSGQ_GPS fix,
           ProducerCall.pop .MSGQ_GPS exampleRequest] ∧
        (fix.lat = 351523041 ∧ fix.lon = 1369686962 ∧ fix.alt = 0 ∧
         fix.vn = 0 ∧ fix.ve = 0 ∧ fix.vd = 0 ∧
         fix.fix_type = 3 ∧ fix.satellites_visible = 1 ∧ fix.time_usec = 0 ∧
         fix.eph = 65535 ∧ fix.epv = 65535 ∧ fix.vel = 65535 ∧ fix.cog = 65535) ∧
        (GPS_main_pass .ERR_OK exampleProducer).1.MSGQ_GPS.que = [] ∧
        (err_t.ERR_OK = err_t.ERR_OK →
          (GPS_main_pass .ERR_OK exampleProducer).1.MSGQ_MAVLINK.que =
            exampleProducer.MSGQ_MAVLINK.que ++
              [{ type := exampleHeader.MSG_TYPE_RESPONSE, reply := .MSGQ_GPS,
                 param := fix }]) ∧
        (err_t.ERR_OK ≠ err_t.ERR_OK →
          (GPS_main_pass .ERR_OK exampleProducer).1.MSGQ_MAVLINK.que =
            exampleProducer.MSGQ_MAVLINK.que)) ∧
    ((GPS_main_pass .ERR_OK exampleProducerStray).2 = ProducerOutcome.returned ∧
      (GPS_main_pass .ERR_OK exampleProducerStray).1.calls =
        exampleProducerStray.calls ++ [ProducerCall.recv .MSGQ_GPS exampleStrayRequest] ∧
      (GPS_main_pass .ERR_OK exampleProducerStray).1.MSGQ_GPS.que =
        exampleStrayRequest :: [exampleRequest] ∧
      (GPS_main_pass .ERR_OK exampleProducerStray).1.MSGQ_MAVLINK.que =
        exampleProducerStray.MSGQ_MAVLINK.que) ∧
    (GPS_main_pass .ERR_OK exampleProducer).1.MSGQ_MAVLINK.que = [exampleReply] :=
  ⟨by decide,
   (producer_replies_once_to_expected_request exampleHeader
      { exampleFix with lat := 0, lon := 0, fix_type := 0 } .ERR_OK exampleProducer
      exampleRequest [] rfl rfl).1 (by decide),
   (producer_replies_once_to_expected_request exampleHeader
      { exampleFix with lat := 0, lon := 0, fix_type := 0 } .ERR_OK exampleProducerStray
      exampleStrayRequest [exampleRequest] rfl rfl).2 (by decide),
   by decide⟩

/-! ## Setpoint cell under interleaving: theorems -/

/-- Running a concatenation is running the parts in turn. -/
theorem runOps_append (H : Header) (ops₁ ops₂ : List SetpointOp) (ap : Autopilot_Interface) :
    runOps H (ops₁ ++ ops₂) ap = runOps H ops₂ (runOps H ops₁ ap) := by
  induction ops₁ generalizing ap with
  | nil => rfl
  | cons op ops ih => simp [runOps, ih]

/-- Steps that are all streamer cycles leave the cell as it is. -/
theorem runOps_cycles_cell (H : Header) (ops : List SetpointOp) (ap : Autopilot_Interface)
    (h : ∀ op ∈ ops, op.isCycle = true) :
    (runOps H ops ap).current_setpoint = ap.current_setpoint := by
  induction ops generalizing ap with
  | nil => rfl
  | cons op ops ih =>
    have hop : op.isCycle = true := h op (List.mem_cons_self _ _)
    have hrest : ∀ o ∈ ops, o.isCycle = true :=
      fun o ho => h o (List.mem_cons_of_mem _ ho)
    cases op with
    | update_setpoint setpoint => simp [SetpointOp.isCycle] at hop
    | write_thread_install local_sp => simp [SetpointOp.isCycle] at hop
    | write_setpoint now len =>
      simp only [runOps, SetpointOp.run]
      rw [ih _ hrest]
      exact (write_setpoint_frame now len ap).1

/-- A cycle transmits the cell it finds, in every field but the three it stamps. -/
theorem write_setpoint_transmits_cell (now : Nat) (len : Int) (ap : Autopilot_Interface)
    (cell : mavlink_set_position_target_local_ned_t) (hcell : ap.current_setpoint = cell) :
    ∃ tx : mavlink_set_position_target_local_ned_t,
      (write_setpoint now len ap).port.written = ap.port.written ++
        [mavlink_msg_set_position_target_local_ned_encode (ap.system_id % 256)
          (ap.companion_id % 256) tx] ∧
      tx.x = cell.x ∧ tx.y = cell.y ∧ tx.z = cell.z ∧
      tx.vx = cell.vx ∧ tx.vy = cell.vy ∧ tx.vz = cell.vz ∧
      tx.afx = cell.afx ∧ tx.afy = cell.afy ∧ tx.afz = cell.afz ∧
      tx.yaw = cell.yaw ∧ tx.yaw_rate = cell.yaw_rate ∧
      tx.type_mask = cell.type_mask ∧ tx.coordinate_frame = cell.coordinate_frame := by
  refine ⟨write_setpoint_PACK_PAYLOAD now ap, write_setpoint_written now len ap, ?_⟩
  have h := write_setpoint_PACK_PAYLOAD_fields now ap
  rw [hcell] at h
  exact h

/-- C6 as stated fails: a caller commits the velocity `vx = 1.0`, the write thread
then puts its initial setpoint into the cell, and the cycle that follows transmits
`vx = 0` with the mask of the initial setpoint, not the committed value. The
order arises when `update_setpoint` is called right after `start()` has
returned: in the interleaving `exampleGateSchedule` `start()` has returned while
the write thread still stands before that assignment, and the two next steps of
the thread after the call write the same message. -/
theorem cycle_after_install_transmits_default :
    (exampleCommitted.vx = float.one ∧ exampleCommitted.type_mask = 3527 ∧
     float.one ≠ float.zero) ∧
    (runOps exampleHeader
        [.update_setpoint exampleCommitted, .write_thread_install exampleSetpoint,
         .write_setpoint 5000000 30] exampleStarted).port.written =
      [mavlink_msg_set_position_target_local_ned_encode 1 0
        { exampleSetpoint with time_boot_ms := 5000, target_system := 1,
                               target_component := 1, type_mask := 1479,
                               coordinate_frame := 1 }] ∧
    (Lifecycle.run exampleHeader exampleGateSchedule (Lifecycle.init exampleInterface)).start
      = .returned ∧
    (Lifecycle.run exampleHeader
      [.write exampleSetpoint 5000000 30, .write exampleSetpoint 5000000 30]
      { Lifecycle.run exampleHeader exampleGateSchedule (Lifecycle.init exampleInterface) with
        ap := update_setpoint exampleCommitted
          (Lifecycle.run exampleHeader exampleGateSchedule
            (Lifecycle.init exampleInterface)).ap }).ap.port.written =
      [mavlink_msg_set_position_target_local_ned_encode 1 0
        { exampleSetpoint with time_boot_ms := 5000, target_system := 1,
                               target_component := 1, type_mask := 1479,
                               coordinate_frame := 1 }] := by
  decide

/-- C6, amended: in every sequence of `update_setpoint` calls, installs of the
initial setpoint by the write thread and streamer cycles, a cycle transmits, in
every field other than `time_boot_ms`, `target_system` and `target_component`,
the value last written to the cell before it: `sp` after `update_setpoint sp`,
the initial setpoint after an install, with only cycles in between. -/
theorem cycle_transmits_last_written (H : Header) (ap : Autopilot_Interface)
    (pre mid : List SetpointOp)
    (sp local_sp : mavlink_set_position_target_local_ned_t)
    (now : Nat) (len : Int) (hmid : ∀ op ∈ mid, op.isCycle = true) :
    (∃ tx : mavlink_set_position_target_local_ned_t,
      (write_setpoint now len
          (runOps H (pre ++ SetpointOp.update_setpoint sp :: mid) ap)).port.written =
        (runOps H (pre ++ SetpointOp.update_setpoint sp :: mid) ap).port.written ++
          [mavlink_msg_set_position_target_local_ned_encode
            ((runOps H (pre ++ SetpointOp.update_setpoint sp :: mid) ap).system_id % 256)
            ((runOps H (pre ++ SetpointOp.update_setpoint sp :: mid) ap).companion_id % 256)
            tx] ∧
      tx.x = sp.x ∧ tx.y = sp.y ∧ tx.z = sp.z ∧
      tx.vx = sp.vx ∧ tx.vy = sp.vy ∧ tx.vz = sp.vz ∧
      tx.afx = sp.afx ∧ tx.afy = sp.afy ∧ tx.afz = sp.afz ∧
      tx.yaw = sp.yaw ∧ tx.yaw_rate = sp.yaw_rate ∧
      tx.type_mask = sp.type_mask ∧ tx.coordinate_frame = sp.coordinate_frame) ∧
    (∃ tx : mavlink_set_position_target_local_ned_t,
      (write_setpoint now len
          (runOps H (pre ++ SetpointOp.write_thread_install local_sp :: mid) ap)).port.written =
        (runOps H (pre ++ SetpointOp.write_thread_install local_sp :: mid) ap).port.written ++
          [mavlink_msg_set_position_target_local_ned_encode
            ((runOps H (pre ++ SetpointOp.write_thread_install local_sp :: mid) ap).system_id
              % 256)
            ((runOps H (pre ++ SetpointOp.write_thread_install local_sp :: mid) ap).companion_id
              % 256)
            tx] ∧
      tx.x = local_sp.x ∧ tx.y = local_sp.y ∧ tx.z = local_sp.z ∧
      tx.vx = float.zero ∧ tx.vy = float.zero ∧ tx.vz = float.zero ∧
      tx.afx = local_sp.afx ∧ tx.afy = local_sp.afy ∧ tx.afz = local_sp.afz ∧
      tx.yaw = local_sp.yaw ∧ tx.yaw_rate = float.zero ∧
      tx.type_mask =
        H.MAVLINK_MSG_SET_POSITION_TARGET_LOCAL_NED_VELOCITY &&&
        H.MAVLINK_MSG_SET_POSITION_TARGET_LOCAL_NED_YAW_RATE ∧
      tx.coordinate_frame = H.MAV_FRAME_LOCAL_NED) := by
  constructor
  · have hcell : (runOps H (pre ++ SetpointOp.update_setpoint sp :: mid) ap).current_setpoint
        = sp := by
      rw [runOps_append]
      simp only [runOps, SetpointOp.run]
      rw [runOps_cycles_cell H mid _ hmid]
      rfl
    exact write_setpoint_transmits_cell now len _ sp hcell
  · have hcell :
        (runOps H (pre ++ SetpointOp.write_thread_install local_sp :: mid) ap).current_setpoint
          = write_thread_initial_setpoint H local_sp := by
      rw [runOps_append]
      simp only [runOps, SetpointOp.run]
      rw [runOps_cycles_cell H mid _ hmid]
      rfl
    obtain ⟨tx, hw, h⟩ := write_setpoint_transmits_cell now len _ _ hcell
    refine ⟨tx, hw, ?_⟩
    simpa [write_thread_initial_setpoint] using h

/-- C6, amended, the scenario of the specification: after `update_setpoint` with
the velocity setpoint `vx = 1.0`, `vy = 0`, `vz = 0` the next cycle transmits
that velocity. -/
theorem cycle_transmits_last_written_witness :
    (∀ op ∈ ([] : List SetpointOp), op.isCycle = true) ∧
    ∃ tx : mavlink_set_position_target_local_ned_t,
      (write_setpoint 5000 30 (runOps exampleHeader
          ([] ++ SetpointOp.update_setpoint exampleCommitted :: []) exampleStarted)).port.written =
        (runOps exampleHeader ([] ++ SetpointOp.update_setpoint exampleCommitted :: [])
          exampleStarted).port.written ++
          [mavlink_msg_set_position_target_local_ned_encode
            ((runOps exampleHeader ([] ++ SetpointOp.update_setpoint exampleCommitted :: [])
              exampleStarted).system_id % 256)
            ((runOps exampleHeader ([] ++ SetpointOp.update_setpoint exampleCommitted :: [])
              exampleStarted).companion_id % 256)
            tx] ∧
      tx.x = float.zero ∧ tx.y = float.zero ∧ tx.z = float.zero ∧
      tx.vx = float.one ∧ tx.vy = float.zero ∧ tx.vz = float.zero ∧
      tx.afx = float.zero ∧ tx.afy = float.zero ∧ tx.afz = float.zero ∧
      tx.yaw = float.zero ∧ tx.yaw_rate = float.zero ∧
      tx.type_mask = 0b0000110111000111 ∧ tx.coordinate_frame = 1 :=
  ⟨by simp,
   (cycle_transmits_last_written exampleHeader exampleStarted [] [] exampleCommitted
      exampleSetpoint 5000 30 (by simp)).1⟩

/-- Calls of `update_setpoint` leave everything but the cell alone. -/
theorem update_setpoint_foldl_frame (between : List mavlink_set_position_target_local_ned_t)
    (ap : Autopilot_Interface) :
    (between.foldl (fun ap setpoint => update_setpoint setpoint ap) ap).port = ap.port ∧
    (between.foldl (fun ap setpoint => update_setpoint setpoint ap) ap).system_id
      = ap.system_id ∧
    (between.foldl (fun ap setpoint => update_setpoint setpoint ap) ap).companion_id
      = ap.companion_id ∧
    (between.foldl (fun ap setpoint => update_setpoint setpoint ap) ap).autopilot_id
      = ap.autopilot_id := by
  induction between generalizing ap with
  | nil => simp
  | cons sp rest ih =>
    simp only [List.foldl_cons]
    have h := ih (update_setpoint sp ap)
    simpa [update_setpoint] using h

/-- Calls of `update_setpoint` leave in the cell the setpoint of the last call. -/
theorem update_setpoint_foldl_last
    (earlier : List mavlink_set_position_target_local_ned_t)
    (last : mavlink_set_position_target_local_ned_t) (ap : Autopilot_Interface) :
    ((earlier ++ [last]).foldl (fun ap setpoint => update_setpoint setpoint ap)
      ap).current_setpoint = last := by
  simp [List.foldl_append, update_setpoint]

/-- The start of `write_thread()` puts the initial setpoint into the cell and
writes nothing. -/
theorem write_thread_install_frame (H : Header)
    (local_sp : mavlink_set_position_target_local_ned_t) (ap : Autopilot_Interface) :
    (write_thread_install H local_sp ap).current_setpoint =
      write_thread_initial_setpoint H local_sp ∧
    (write_thread_install H local_sp ap).port = ap.port ∧
    (write_thread_install H local_sp ap).system_id = ap.system_id ∧
    (write_thread_install H local_sp ap).companion_id = ap.companion_id := by
  simp [write_thread_install]

/-- The write thread hands one message to the transport in its startup: the cell
as its first cycle finds it, stamped. -/
theorem write_thread_startup_written (H : Header)
    (local_sp : mavlink_set_position_target_local_ned_t)
    (between : List mavlink_set_position_target_local_ned_t) (now : Nat) (len : Int)
    (ap : Autopilot_Interface) :
    (write_thread_startup H local_sp between now len ap).port.written = ap.port.written ++
      [mavlink_msg_set_position_target_local_ned_encode (ap.system_id % 256)
        (ap.companion_id % 256)
        (write_setpoint_PACK_PAYLOAD now
          (between.foldl (fun ap setpoint => update_setpoint setpoint ap)
            (write_thread_install H local_sp ap)))] := by
  have hf := update_setpoint_foldl_frame between (write_thread_install H local_sp ap)
  have hi := write_thread_install_frame H local_sp ap
  simp only [write_thread_startup]
  rw [write_setpoint_written, hf.1, hf.2.1, hf.2.2.1, hi.2.1, hi.2.2.1, hi.2.2.2]

/-- The startup of `write_thread()` is the sequence of steps on the cell it stands
for: the install, the calls of `update_setpoint` by other threads, the first
cycle; after it the thread marks itself as writing. -/
theorem write_thread_startup_runOps (H : Header)
    (local_sp : mavlink_set_position_target_local_ned_t)
    (between : List mavlink_set_position_target_local_ned_t) (now : Nat) (len : Int)
    (ap : Autopilot_Interface) :
    write_thread_startup H local_sp between now len ap =
      { runOps H (SetpointOp.write_thread_install local_sp ::
          (between.map SetpointOp.update_setpoint ++ [SetpointOp.write_setpoint now len])) ap
        with writing_status := 1 } := by
  have hfold : ∀ (l : List mavlink_set_position_target_local_ned_t) (a : Autopilot_Interface),
      runOps H (l.map SetpointOp.update_setpoint ++ [SetpointOp.write_setpoint now len]) a =
        write_setpoint now len (l.foldl (fun ap setpoint => update_setpoint setpoint ap) a) := by
    intro l
    induction l with
    | nil => intro a; rfl
    | cons sp rest ih => intro a; simp [runOps, SetpointOp.run, ih]
  simp only [write_thread_startup, runOps, SetpointOp.run, hfold]

/-- C7 as stated fails: a caller commits the velocity `vx = 1.0` after the write
thread has put its initial setpoint into the cell and before the first cycle
takes its copy; the first message the thread writes carries `vx = 1.0` and the
velocity mask. -/
theorem first_message_carries_update_made_after_install :
    (exampleCommitted.vx = float.one ∧ exampleCommitted.type_mask = 3527 ∧
     float.one ≠ float.zero) ∧
    (write_thread exampleHeader exampleSetpoint [exampleCommitted] 5000000 30 []
        exampleStarted).port.written =
      [mavlink_msg_set_position_target_local_ned_encode 1 0
        { exampleSetpoint with time_boot_ms := 5000, target_system := 1,
                               target_component := 1, type_mask := 3527,
                               coordinate_frame := 1, vx := float.one }] := by
  decide

/-- C7, amended: the start of `write_thread()` puts into the setpoint cell, before
anything is sent, a record with `vx = vy = vz = 0`, `yaw_rate = 0`, frame
`MAV_FRAME_LOCAL_NED` and mask VELOCITY AND YAW_RATE, whatever the cell held.
The first message the thread writes carries these six values when no
`update_setpoint` is committed between that install and the copy the first cycle
takes of the cell; when some are, it carries the setpoint committed last, in
every field other than `time_boot_ms`, `target_system` and `target_component`. -/
theorem write_thread_first_message (H : Header)
    (local_sp held : mavlink_set_position_target_local_ned_t)
    (between : List mavlink_set_position_target_local_ned_t) (now : Nat) (len : Int)
    (cycles : List (Bool × Nat × Int)) (ap : Autopilot_Interface) :
    ((write_thread_install H local_sp { ap with current_setpoint := held }).port.written =
        ap.port.written ∧
     (write_thread_install H local_sp { ap with current_setpoint := held }).current_setpoint.vx
        = float.zero ∧
     (write_thread_install H local_sp { ap with current_setpoint := held }).current_setpoint.vy
        = float.zero ∧
     (write_thread_install H local_sp { ap with current_setpoint := held }).current_setpoint.vz
        = float.zero ∧
     (write_thread_install H local_sp
        { ap with current_setpoint := held }).current_setpoint.yaw_rate = float.zero ∧
     (write_thread_install H local_sp
        { ap with current_setpoint := held }).current_setpoint.coordinate_frame =
        H.MAV_FRAME_LOCAL_NED ∧
     (write_thread_install H local_sp
        { ap with current_setpoint := held }).current_setpoint.type_mask =
        H.MAVLINK_MSG_SET_POSITION_TARGET_LOCAL_NED_VELOCITY &&&
        H.MAVLINK_MSG_SET_POSITION_TARGET_LOCAL_NED_YAW_RATE) ∧
    ∃ (tx : mavlink_set_position_target_local_ned_t) (rest : List mavlink_message_t),
      (write_thread H local_sp between now len cycles ap).port.written =
        ap.port.written ++
          mavlink_msg_set_position_target_local_ned_encode (ap.system_id % 256)
            (ap.companion_id % 256) tx :: rest ∧
      (between = [] →
        tx.vx = float.zero ∧ tx.vy = float.zero ∧ tx.vz = float.zero ∧
        tx.yaw_rate = float.zero ∧
        tx.coordinate_frame = H.MAV_FRAME_LOCAL_NED ∧
        tx.type_mask =
          H.MAVLINK_MSG_SET_POSITION_TARGET_LOCAL_NED_VELOCITY &&&
          H.MAVLINK_MSG_SET_POSITION_TARGET_LOCAL_NED_YAW_RATE) ∧
      (∀ (earlier : List mavlink_set_position_target_local_ned_t)
          (last : mavlink_set_position_target_local_ned_t), between = earlier ++ [last] →
        tx.x = last.x ∧ tx.y = last.y ∧ tx.z = last.z ∧
        tx.vx = last.vx ∧ tx.vy = last.vy ∧ tx.vz = last.vz ∧
        tx.afx = last.afx ∧ tx.afy = last.afy ∧ tx.afz = last.afz ∧
        tx.yaw = last.yaw ∧ tx.yaw_rate = last.yaw_rate ∧
        tx.type_mask = last.type_mask ∧ tx.coordinate_frame = last.coordinate_frame) := by
  refine ⟨by simp [write_thread_install, write_thread_initial_setpoint], ?_⟩
  obtain ⟨rest, hrest⟩ :=
    write_thread_loop_written cycles (write_thread_startup H local_sp between now len ap)
  refine ⟨write_setpoint_PACK_PAYLOAD now
      (between.foldl (fun ap setpoint => update_setpoint setpoint ap)
        (write_thread_install H local_sp ap)), rest, ?_, ?_, ?_⟩
  · simp only [write_thread]
    rw [hrest, write_thread_startup_written]
    simp
  · intro hb
    subst hb
    have h := write_setpoint_PACK_PAYLOAD_fields now (write_thread_install H local_sp ap)
    simp only [List.foldl_nil]
    simp only [(write_thread_install_frame H local_sp ap).1] at h
    obtain ⟨-, -, -, h4, h5, h6, -, -, -, -, h11, h12, h13⟩ := h
    rw [h4, h5, h6, h11, h12, h13]
    simp [write_thread_initial_setpoint]
  · intro earlier last hb
    subst hb
    have h := write_setpoint_PACK_PAYLOAD_fields now
      ((earlier ++ [last]).foldl (fun ap setpoint => update_setpoint setpoint ap)
        (write_thread_install H local_sp ap))
    rw [update_setpoint_foldl_last] at h
    exact h

/-- C7, amended, on a start of the write thread with no `update_setpoint` by
another thread before the first cycle: the first message carries the six values
of the initial setpoint. -/
theorem write_thread_first_message_witness :
    ([] : List mavlink_set_position_target_local_ned_t) = [] ∧
    (write_thread exampleHeader exampleSetpoint [] 5000000 30 []
        exampleStarted).port.written =
      [mavlink_msg_set_position_target_local_ned_encode 1 0
        { exampleSetpoint with time_boot_ms := 5000, target_system := 1,
                               target_component := 1, type_mask := 1479,
                               coordinate_frame := 1 }] ∧
    ∃ (tx : mavlink_set_position_target_local_ned_t) (rest : List mavlink_message_t),
      (write_thread exampleHeader exampleSetpoint [] 5000000 30 []
          exampleStarted).port.written =
        exampleStarted.port.written ++
          mavlink_msg_set_position_target_local_ned_encode (exampleStarted.system_id % 256)
            (exampleStarted.companion_id % 256) tx :: rest ∧
      tx.vx = float.zero ∧ tx.vy = float.zero ∧ tx.vz = float.zero ∧
      tx.yaw_rate = float.zero ∧ tx.coordinate_frame = 1 ∧ tx.type_mask = 1479 := by
  refine ⟨rfl, by decide, ?_⟩
  obtain ⟨tx, rest, hw, h0, -⟩ :=
    (write_thread_first_message exampleHeader exampleSetpoint exampleSetpoint [] 5000000 30 []
      exampleStarted).2
  exact ⟨tx, rest, hw, h0 rfl⟩

/-! ## Cooperative cancellation: theorems -/

/-- The state at the call of `start()` with `reading_status` at `0`. -/
theorem Lifecycle.gated_read_init (ap : Autopilot_Interface) (h : ap.reading_status = 0) :
    (Lifecycle.init ap).gated_read := by
  simp [Lifecycle.gated_read, Lifecycle.init, start_pc.before_read_thread,
    read_thread_pc.signalled, h]

/-- Steps keep what `gated_read` says. -/
theorem Lifecycle.gated_read_step (H : Header) (m : Move) (s : Lifecycle)
    (h : s.gated_read) : (Lifecycle.step H m s).gated_read := by
  obtain ⟨ap, st, rd, loc, wr, n⟩ := s
  obtain ⟨h1, h2, h3⟩ := h
  simp only at h1 h2 h3
  cases m with
  | start result =>
    cases st <;> cases rd <;> simp only [Lifecycle.step, start_step] <;> (try split) <;>
      (try split) <;>
      simp_all [Lifecycle.gated_read, start_pc.before_read_thread, read_thread_pc.signalled,
        start_GET_SYSTEM_and_COMPONENT_IDs_flags]
  | read success message now =>
    cases rd <;> cases st <;> simp only [Lifecycle.step, read_thread_step] <;>
      (try split) <;>
      simp_all [Lifecycle.gated_read, start_pc.before_read_thread, read_thread_pc.signalled,
        read_messages_iteration_flags]
  | write local_sp now len =>
    cases wr <;> simp only [Lifecycle.step, write_thread_step] <;> (try split) <;>
      simp_all [Lifecycle.gated_read, write_setpoint_flags]
  | stop => exact ⟨h1, h2, h3⟩

/-- Every state reached from the call of `start()` with `reading_status` at `0`. -/
theorem Lifecycle.gated_read_run (H : Header) (moves : List Move) (s : Lifecycle)
    (h : s.gated_read) : (Lifecycle.run H moves s).gated_read := by
  induction moves generalizing s with
  | nil => exact h
  | cons m ms ih => exact ih _ (Lifecycle.gated_read_step H m s h)

/-- Once `time_to_exit` is set, every step of a running write thread brings it one
step nearer to its end, and no step of another thread takes it away from there. -/
theorem Lifecycle.step_write_nearer (H : Header) (m : Move) (s : Lifecycle) (hwf : s.wf)
    (h : s.ap.time_to_exit = true) (hr : s.write_runs) :
    (Lifecycle.step H m s).write_runs ∧
    (Lifecycle.step H m s).write.steps_to_end ≤
      s.write.steps_to_end - (if m.isWrite = true then 1 else 0) := by
  obtain ⟨ap, st, rd, loc, wr, n⟩ := s
  obtain ⟨h1, -, -, -⟩ := hwf
  obtain ⟨r1, r2, r3⟩ := hr
  simp only at h h1 r1 r2 r3
  cases m with
  | start result =>
    cases st <;> simp only [Lifecycle.step, start_step] <;> (try split) <;> (try split) <;>
      simp_all [Lifecycle.write_runs, Move.isWrite, start_pc.before_write_thread,
        start_GET_SYSTEM_and_COMPONENT_IDs_flags]
  | read success message now =>
    cases rd <;> simp only [Lifecycle.step, read_thread_step] <;> (try split) <;>
      simp_all [Lifecycle.write_runs, Move.isWrite, read_messages_iteration_flags]
  | write local_sp now len =>
    cases wr <;> simp only [Lifecycle.step, write_thread_step] <;> (try split) <;>
      simp_all [Lifecycle.write_runs, Move.isWrite, write_thread_pc.steps_to_end]
  | stop => simp_all [Lifecycle.step, Lifecycle.write_runs, Move.isWrite]

/-- Once `time_to_exit` is set, every step of a running read thread brings it one
step nearer to its end, and no step of another thread takes it away from there. -/
theorem Lifecycle.step_read_nearer (H : Header) (m : Move) (s : Lifecycle) (hwf : s.wf)
    (h : s.ap.time_to_exit = true) (hr : s.read_runs) :
    (Lifecycle.step H m s).read_runs ∧
    (Lifecycle.step H m s).read.steps_to_end ≤
      s.read.steps_to_end - (if m.isRead = true then 1 else 0) := by
  obtain ⟨ap, st, rd, loc, wr, n⟩ := s
  obtain ⟨-, h1, -, -⟩ := hwf
  obtain ⟨r1, r2, r3⟩ := hr
  simp only at h h1 r1 r2 r3
  cases m with
  | start result =>
    cases st <;> simp only [Lifecycle.step, start_step] <;> (try split) <;> (try split) <;>
      simp_all [Lifecycle.read_runs, Move.isRead, start_pc.before_read_thread,
        start_GET_SYSTEM_and_COMPONENT_IDs_flags]
  | read success message now =>
    cases rd <;> simp only [Lifecycle.step, read_thread_step] <;> (try split) <;>
      simp_all [Lifecycle.read_runs, Move.isRead, read_thread_pc.steps_to_end,
        read_messages_iteration_flags]
  | write local_sp now len =>
    cases wr <;> simp only [Lifecycle.step, write_thread_step] <;> (try split) <;>
      simp_all [Lifecycle.read_runs, Move.isRead, write_setpoint_flags]
  | stop => simp_all [Lifecycle.step, Lifecycle.read_runs, Move.isRead]

/-- Once `time_to_exit` is set, a run brings a running write thread as many steps
nearer to its end as it has steps of that thread. -/
theorem Lifecycle.run_write_nearer (H : Header) (moves : List Move) (s : Lifecycle)
    (hwf : s.wf) (h : s.ap.time_to_exit = true) (hr : s.write_runs) :
    (Lifecycle.run H moves s).write_runs ∧
    (Lifecycle.run H moves s).write.steps_to_end ≤
      s.write.steps_to_end - (moves.filter Move.isWrite).length := by
  induction moves generalizing s with
  | nil => exact ⟨hr, by simp [Lifecycle.run]⟩
  | cons m ms ih =>
    have h1 := Lifecycle.step_write_nearer H m s hwf h hr
    have h2 := ih _ (Lifecycle.wf_step H m s hwf) (Lifecycle.step_time_to_exit H m s h) h1.1
    refine ⟨h2.1, ?_⟩
    have h3 := h2.2
    have h4 := h1.2
    simp only [Lifecycle.run, List.filter_cons]
    by_cases hm : m.isWrite = true
    · simp only [hm, if_true, List.length_cons] at h4 ⊢
      omega
    · simp only [hm, if_false] at h4 ⊢
      simp only [Bool.false_eq_true, if_false] at h4 ⊢
      omega

/-- Once `time_to_exit` is set, a run brings a running read thread as many steps
nearer to its end as it has steps of that thread. -/
theorem Lifecycle.run_read_nearer (H : Header) (moves : List Move) (s : Lifecycle)
    (hwf : s.wf) (h : s.ap.time_to_exit = true) (hr : s.read_runs) :
    (Lifecycle.run H moves s).read_runs ∧
    (Lifecycle.run H moves s).read.steps_to_end ≤
      s.read.steps_to_end - (moves.filter Move.isRead).length := by
  induction moves generalizing s with
  | nil => exact ⟨hr, by simp [Lifecycle.run]⟩
  | cons m ms ih =>
    have h1 := Lifecycle.step_read_nearer H m s hwf h hr
    have h2 := ih _ (Lifecycle.wf_step H m s hwf) (Lifecycle.step_time_to_exit H m s h) h1.1
    refine ⟨h2.1, ?_⟩
    have h3 := h2.2
    have h4 := h1.2
    simp only [Lifecycle.run, List.filter_cons]
    by_cases hm : m.isRead = true
    · simp only [hm, if_true, List.length_cons] at h4 ⊢
      omega
    · simp only [hm, if_false] at h4 ⊢
      simp only [Bool.false_eq_true, if_false] at h4 ⊢
      omega

/-- Once `time_to_exit` is set, a run with seven steps of a running write thread
ends with that thread ended and `writing_status` cleared. -/
theorem Lifecycle.write_thread_ends (H : Header) (moves : List Move) (s : Lifecycle)
    (hwf : s.wf) (h : s.ap.time_to_exit = true) (hr : s.write_runs)
    (hn : 7 ≤ (moves.filter Move.isWrite).length) :
    (Lifecycle.run H moves s).write = .ended ∧
    (Lifecycle.run H moves s).ap.writing_status = 0 := by
  have hk := Lifecycle.run_write_nearer H moves s hwf h hr
  have hle : s.write.steps_to_end ≤ 7 := by cases s.write <;> decide
  have h0 : (Lifecycle.run H moves s).write.steps_to_end = 0 := by omega
  have hend : (Lifecycle.run H moves s).write = .ended := by
    obtain ⟨r1, r2, -⟩ := hk.1
    revert h0 r1 r2
    cases (Lifecycle.run H moves s).write <;> simp [write_thread_pc.steps_to_end]
  exact ⟨hend, (Lifecycle.wf_run H moves s hwf).2.2.1 hend⟩

/-- Once `time_to_exit` is set, a run with four steps of a running read thread ends
with that thread ended and `reading_status` cleared. -/
theorem Lifecycle.read_thread_ends (H : Header) (moves : List Move) (s : Lifecycle)
    (hwf : s.wf) (h : s.ap.time_to_exit = true) (hr : s.read_runs)
    (hn : 4 ≤ (moves.filter Move.isRead).length) :
    (Lifecycle.run H moves s).read = .ended ∧
    (Lifecycle.run H moves s).ap.reading_status = 0 := by
  have hk := Lifecycle.run_read_nearer H moves s hwf h hr
  have hle : s.read.steps_to_end ≤ 4 := by cases s.read <;> decide
  have h0 : (Lifecycle.run H moves s).read.steps_to_end = 0 := by omega
  have hend : (Lifecycle.run H moves s).read = .ended := by
    obtain ⟨r1, r2, -⟩ := hk.1
    revert h0 r1 r2
    cases (Lifecycle.run H moves s).read <;> simp [read_thread_pc.steps_to_end]
  exact ⟨hend, (Lifecycle.wf_run H moves s hwf).2.2.2 hend⟩

/-- C19: in every interleaving from the call of `start()`, once `time_to_exit` is
set the write thread makes at most one further send and the read thread at most
one further receive. On an object whose flags were `0` at the call of `start()`,
a thread that has been created by then has left its loop and ended, with its
flag (`writing_status`, `reading_status`) cleared, as soon as it has taken seven
(write thread) or four (read thread) further steps of its own, whatever the
other threads do in between. In any case a thread that has ended after its loop
has cleared its flag. -/
theorem cooperative_cancellation (H : Header) (ap : Autopilot_Interface)
    (before after : List Move)
    (hexit : (Lifecycle.run H before (Lifecycle.init ap)).ap.time_to_exit = true) :
    (Lifecycle.run H after (Lifecycle.run H before (Lifecycle.init ap))).ap.port.written.length
      ≤ (Lifecycle.run H before (Lifecycle.init ap)).ap.port.written.length + 1 ∧
    (Lifecycle.run H after (Lifecycle.run H before (Lifecycle.init ap))).receives
      ≤ (Lifecycle.run H before (Lifecycle.init ap)).receives + 1 ∧
    (ap.writing_status = 0 →
      (Lifecycle.run H before (Lifecycle.init ap)).write ≠ .not_created →
      7 ≤ (after.filter Move.isWrite).length →
      (Lifecycle.run H after (Lifecycle.run H before (Lifecycle.init ap))).write = .ended ∧
      (Lifecycle.run H after
        (Lifecycle.run H before (Lifecycle.init ap))).ap.writing_status = 0) ∧
    (ap.reading_status = 0 →
      (Lifecycle.run H before (Lifecycle.init ap)).read ≠ .not_created →
      4 ≤ (after.filter Move.isRead).length →
      (Lifecycle.run H after (Lifecycle.run H before (Lifecycle.init ap))).read = .ended ∧
      (Lifecycle.run H after
        (Lifecycle.run H before (Lifecycle.init ap))).ap.reading_status = 0) ∧
    ((Lifecycle.run H after (Lifecycle.run H before (Lifecycle.init ap))).write = .ended →
      (Lifecycle.run H after
        (Lifecycle.run H before (Lifecycle.init ap))).ap.writing_status = 0) ∧
    ((Lifecycle.run H after (Lifecycle.run H before (Lifecycle.init ap))).read = .ended →
      (Lifecycle.run H after
        (Lifecycle.run H before (Lifecycle.init ap))).ap.reading_status = 0) := by
  have hwf := Lifecycle.wf_run H before _ (Lifecycle.wf_init ap)
  have hwf' := Lifecycle.wf_run H after _ hwf
  have hs := Lifecycle.run_sends H after _ hwf hexit
  have hr := Lifecycle.run_receives H after _ hexit
  have hsd : (Lifecycle.run H before (Lifecycle.init ap)).write.sends_due ≤ 1 := by
    cases (Lifecycle.run H before (Lifecycle.init ap)).write <;> decide
  have hrd : (Lifecycle.run H before (Lifecycle.init ap)).read.receives_due ≤ 1 := by
    cases (Lifecycle.run H before (Lifecycle.init ap)).read <;> decide
  refine ⟨by omega, by omega, ?_, ?_, hwf'.2.2.1, hwf'.2.2.2⟩
  · intro h0 hc hn
    have hg := Lifecycle.gated_run H before _ (Lifecycle.gated_init ap h0)
    refine Lifecycle.write_thread_ends H after _ hwf hexit ⟨hc, hg.2.2.1, ?_⟩ hn
    intro hpc
    exact hg.2.1 (by rw [hpc]; rfl)
  · intro h0 hc hn
    have hg := Lifecycle.gated_read_run H before _ (Lifecycle.gated_read_init ap h0)
    refine Lifecycle.read_thread_ends H after _ hwf hexit ⟨hc, hg.2.2, ?_⟩ hn
    intro hpc
    exact hg.2.1 (by rw [hpc]; rfl)

/-- C19, on an interleaving in which `stop()` makes its assignment while both
threads are running, the write thread before its first send and the read thread
in its loop: seven further steps of each thread later one message has been
written and one more receive made, both threads have ended and both flags are
`0`. -/
theorem cooperative_cancellation_witness :
    ((Lifecycle.run exampleHeader exampleStopSchedule
      (Lifecycle.init exampleInterface)).ap.time_to_exit = true ∧
     exampleInterface.writing_status = 0 ∧ exampleInterface.reading_status = 0 ∧
     (Lifecycle.run exampleHeader exampleStopSchedule
      (Lifecycle.init exampleInterface)).write ≠ .not_created ∧
     (Lifecycle.run exampleHeader exampleStopSchedule
      (Lifecycle.init exampleInterface)).read ≠ .not_created ∧
     (Lifecycle.run exampleHeader exampleStopSchedule
      (Lifecycle.init exampleInterface)).ap.writing_status = 2 ∧
     (Lifecycle.run exampleHeader exampleStopSchedule
      (Lifecycle.init exampleInterface)).ap.reading_status = 1 ∧
     7 ≤ (exampleAfterStop.filter Move.isWrite).length ∧
     4 ≤ (exampleAfterStop.filter Move.isRead).length) ∧
    (Lifecycle.run exampleHeader exampleAfterStop (Lifecycle.run exampleHeader
        exampleStopSchedule (Lifecycle.init exampleInterface))).ap.port.written.length
      ≤ (Lifecycle.run exampleHeader exampleStopSchedule
        (Lifecycle.init exampleInterface)).ap.port.written.length + 1 ∧
    (Lifecycle.run exampleHeader exampleAfterStop (Lifecycle.run exampleHeader
        exampleStopSchedule (Lifecycle.init exampleInterface))).receives
      ≤ (Lifecycle.run exampleHeader exampleStopSchedule
        (Lifecycle.init exampleInterface)).receives + 1 ∧
    ((Lifecycle.run exampleHeader exampleAfterStop (Lifecycle.run exampleHeader
        exampleStopSchedule (Lifecycle.init exampleInterface))).write = .ended ∧
     (Lifecycle.run exampleHeader exampleAfterStop (Lifecycle.run exampleHeader
        exampleStopSchedule (Lifecycle.init exampleInterface))).ap.writing_status = 0) ∧
    ((Lifecycle.run exampleHeader exampleAfterStop (Lifecycle.run exampleHeader
        exampleStopSchedule (Lifecycle.init exampleInterface))).read = .ended ∧
     (Lifecycle.run exampleHeader exampleAfterStop (Lifecycle.run exampleHeader
        exampleStopSchedule (Lifecycle.init exampleInterface))).ap.reading_status = 0) :=
  ⟨by decide,
   (cooperative_cancellation exampleHeader exampleInterface exampleStopSchedule
      exampleAfterStop (by decide)).1,
   (cooperative_cancellation exampleHeader exampleInterface exampleStopSchedule
      exampleAfterStop (by decide)).2.1,
   (cooperative_cancellation exampleHeader exampleInterface exampleStopSchedule
      exampleAfterStop (by decide)).2.2.1 (by decide) (by decide) (by decide),
   (cooperative_cancellation exampleHeader exampleInterface exampleStopSchedule
      exampleAfterStop (by decide)).2.2.2.1 (by decide) (by decide) (by decide)⟩

end FakeGPS
